import Mathlib

/-!
# Fondue audio engine: InputStream and crossfade controller

A shallow embedding of `src/InputStream.cpp`, `src/DefaultInputStream.cpp` and
`src/fondue.cpp`.

Conventions of the embedding.

* C `int` values are `Int`; `/` on C ints is `Int.tdiv` (truncation toward zero)
  and a zero divisor is undefined behaviour.
* C pointers to library objects are `Option`s (`none` is the null pointer).
* `float`/`double` arithmetic is idealised as exact arithmetic on `ℚ`, except
  in the definitions named `..._binary32`: there every `float` operation of the
  mixing loop of `crossfade_frame` is rounded to IEEE 754 binary32 (nearest,
  ties to even, gradual underflow, no fused multiply-add). Statements on the
  size or the order of mixed samples and gains are made of these.
* A frame's `data` is the list of its planes: one list of samples per channel
  for planar formats, one interleaved list for packed formats.
* The media libraries (libavformat, libavcodec, libswresample), `std::rand` and
  the control thread's writes to `flags.stop` are external: their answers are
  the fields of `Env`, or are carried by the packets a source will deliver.
* A C++ function that can throw a `const char*` or run into undefined behaviour
  returns an `Outcome`, which keeps the object's state at the throw.
* Memory never runs out: `av_frame_alloc`, `swr_alloc`, `av_packet_alloc` and the
  growth of a FIFO always succeed; the failures of `av_frame_get_buffer`,
  `swr_init` and `swr_convert` are answers of `Env`.
-/

namespace Fondue

/-! ## Data model -/

/-- Sample formats of libavutil (the ones ending in P are planar). -/
inductive AVSampleFormat where
  | NONE | U8 | S16 | S32 | FLT | DBL | U8P | S16P | S32P | FLTP | DBLP
  deriving DecidableEq, Repr

/-- Planarity test of libavutil. -/
def av_sample_fmt_is_planar : AVSampleFormat → Bool
  | .U8P | .S16P | .S32P | .FLTP | .DBLP => true
  | _ => false

inductive SourceTimingModes where
  | realtime | freetime
  deriving DecidableEq, Repr

inductive DefaultSourceModes where
  | silence | white_noise
  deriving DecidableEq, Repr

/-- Channel layout; only the channel count is used by the sources. -/
structure AVChannelLayout where
  nb_channels : Int
  deriving DecidableEq, Repr

def AV_CHANNEL_LAYOUT_STEREO : AVChannelLayout := ⟨2⟩

structure AVCodec where
  capabilities : Nat
  deriving DecidableEq, Repr

def AV_CODEC_CAP_VARIABLE_FRAME_SIZE : Nat := 2 ^ 16

/-- Codec context; the sink's one is the OutputProfile of the spec. -/
structure AVCodecContext where
  codec : Option AVCodec
  sample_rate : Int
  ch_layout : AVChannelLayout
  sample_fmt : AVSampleFormat
  frame_size : Int
  deriving DecidableEq, Repr

structure AVFrame where
  format : AVSampleFormat
  ch_layout : AVChannelLayout
  sample_rate : Int
  nb_samples : Int
  data : List (List ℚ)
  deriving DecidableEq

/-- Result of `av_frame_alloc` and of `av_frame_unref`: a frame with default fields. -/
def av_frame_alloc : AVFrame :=
  { format := .NONE, ch_layout := ⟨0⟩, sample_rate := 0, nb_samples := 0, data := [] }

/-- Resampler handle: its six options and the library's hidden state. -/
structure SwrContext where
  in_chlayout : AVChannelLayout
  in_sample_rate : Int
  in_sample_fmt : AVSampleFormat
  out_chlayout : AVChannelLayout
  out_sample_rate : Int
  out_sample_fmt : AVSampleFormat
  internal : Nat
  deriving DecidableEq

def swr_alloc : SwrContext :=
  { in_chlayout := ⟨0⟩, in_sample_rate := 0, in_sample_fmt := .NONE,
    out_chlayout := ⟨0⟩, out_sample_rate := 0, out_sample_fmt := .NONE, internal := 0 }

/-- A packet of the source, with what the decoder will answer once it is sent:
the result of `avcodec_send_packet` and the successive results of
`avcodec_receive_frame` (result code, decoded frame). -/
structure AVPacket where
  stream_index : Int
  send_ret : Int
  decoded : List (Int × AVFrame)
  deriving DecidableEq

def av_packet_alloc : AVPacket :=
  { stream_index := 0, send_ret := 0, decoded := [] }

/-- Demuxer handle: the successive results of `av_read_frame` still to come
(result code, packet); once exhausted the input is at its end. -/
structure AVFormatContext where
  packets : List (Int × AVPacket)
  deriving DecidableEq

/-- Decoder handle: the results `avcodec_receive_frame` has still to give for
the packets sent so far. -/
structure AVDecoder where
  pending : List (Int × AVFrame)
  deriving DecidableEq

/-- Sample FIFO of libavutil: tag, sample counter, one queue per plane. -/
structure AVAudioFifo where
  sample_fmt : AVSampleFormat
  channels : Int
  nb_samples : Int
  buf : List (List ℚ)
  deriving DecidableEq

def AVERROR_EOF : Int := -541478725
def EAGAIN : Int := 11
def EINVAL : Int := 22
def AVERROR (e : Int) : Int := -e

/-- The members of `InputStream` (declared in the header, used in
`InputStream.cpp`); the option dictionary `m_options`, which no method reads
after construction, is left out. -/
structure InputStream where
  m_source_url : String
  m_output_codec_ctx : AVCodecContext
  m_timing_mode : SourceTimingModes
  m_source_mode : DefaultSourceModes
  m_source_valid : Bool
  m_format_ctx : Option AVFormatContext
  m_input_codec_ctx : Option AVDecoder
  m_stream_index : Int
  m_pkt : Option AVPacket
  m_frame : Option AVFrame
  m_temp_frame : Option AVFrame
  m_swr_ctx : Option SwrContext
  m_swr_ctx_xfade : Option SwrContext
  m_queue : Option AVAudioFifo
  m_got_frame : Int
  m_ret : Int
  m_dst_nb_samples : Int
  m_default_frame_size : Int
  m_output_frame_size : Int
  m_actual_nb_samples : Int
  m_number_buffered_samples : Int
  m_loop_duration : ℚ
  deriving DecidableEq

/-- What a call does: return a value, throw a `const char*`, or be undefined
(null dereference, integer division by zero, read past a buffer). The state of
the object is kept in the first two cases. -/
inductive Outcome (ρ σ : Type) where
  | ret (r : ρ) (s : σ)
  | thrown (msg : String) (s : σ)
  | undefined
  deriving DecidableEq

/-- Constants of the missing header and answers of the external libraries. -/
structure Env where
  DEFAULT_FADE_MS : Int
  DEFAULT_FRAME_SIZE : Int
  DEFAULT_LOOP_TIME_OFFSET_SAMPLES : Int
  RAND_MAX : Int
  /-- Value returned by the k-th call of `std::rand`. -/
  rand : Nat → Int
  /-- Result code of `swr_init` and the initialised handle. -/
  swr_init : SwrContext → Int × SwrContext
  swr_get_out_samples : SwrContext → Int → Int
  /-- Call `swr_convert ctx out out_count inp in_count`: result code, new
  contents of `out`, new handle. -/
  swr_convert : SwrContext → List (List ℚ) → Int → List (List ℚ) → Int →
    Int × List (List ℚ) × SwrContext
  /-- Result code of `av_frame_get_buffer` and the (uninitialised) planes. -/
  av_frame_get_buffer : AVFrame → Int × List (List ℚ)
  /-- Value of `flags.stop` seen by the k-th read of the audio thread. -/
  flags_stop : Nat → Bool

/-! ## libavutil: frames, FIFO, resampler options -/

/-- Write `new` over the beginning of the buffer `old`. -/
def store (new old : List ℚ) : List ℚ := new ++ old.drop new.length

/-- Plane-wise `store`. -/
def store_planes : List (List ℚ) → List (List ℚ) → List (List ℚ)
  | [], olds => olds
  | n :: ns, [] => n :: store_planes ns []
  | n :: ns, o :: os => store n o :: store_planes ns os

/-- Number of values one sample takes in one plane of the FIFO. -/
def fifo_width (f : AVAudioFifo) : Nat :=
  if av_sample_fmt_is_planar f.sample_fmt then 1 else f.channels.toNat

/-- Allocation of an empty FIFO; null for an invalid tag. -/
def av_audio_fifo_alloc (fmt : AVSampleFormat) (channels : Int) : Option AVAudioFifo :=
  if channels ≤ 0 ∨ fmt = .NONE then none
  else some { sample_fmt := fmt, channels := channels, nb_samples := 0,
              buf := List.replicate (if av_sample_fmt_is_planar fmt then channels.toNat else 1) [] }

def av_audio_fifo_size (f : AVAudioFifo) : Int := f.nb_samples

/-- Append the first `k` values of each plane of `data` to the queues. -/
def fifo_append (k : Nat) : List (List ℚ) → List (List ℚ) → List (List ℚ)
  | [], _ => []
  | b :: bs, [] => b :: fifo_append k bs []
  | b :: bs, d :: ds => (b ++ d.take k) :: fifo_append k bs ds

/-- Function `av_audio_fifo_write`: all `nb_samples` samples are queued (the
queue grows as needed); returns the number written. -/
def av_audio_fifo_write (f : AVAudioFifo) (data : List (List ℚ)) (nb_samples : Int) :
    Int × AVAudioFifo :=
  (nb_samples,
   { f with nb_samples := f.nb_samples + nb_samples,
            buf := fifo_append (nb_samples.toNat * fifo_width f) f.buf data })

/-- Function `av_audio_fifo_read`: reads `min nb_samples size` samples from the
front into `data`; returns the number read (an error code for a negative count). -/
def av_audio_fifo_read (f : AVAudioFifo) (data : List (List ℚ)) (nb_samples : Int) :
    Int × List (List ℚ) × AVAudioFifo :=
  if nb_samples < 0 then (AVERROR EINVAL, data, f)
  else
    let n := min nb_samples f.nb_samples
    if n = 0 then (0, data, f)
    else
      (n, store_planes (f.buf.map (List.take (n.toNat * fifo_width f))) data,
       { f with nb_samples := f.nb_samples - n,
                buf := f.buf.map (List.drop (n.toNat * fifo_width f)) })

/-- Overload `set_resampler_options(swr_ctx, input_codec_ctx, output_codec_ctx)`. -/
def set_resampler_options_in_out (swr : SwrContext) (i o : AVCodecContext) : SwrContext :=
  { swr with in_chlayout := i.ch_layout, in_sample_rate := i.sample_rate,
             in_sample_fmt := i.sample_fmt, out_chlayout := o.ch_layout,
             out_sample_rate := o.sample_rate, out_sample_fmt := o.sample_fmt }

/-- Overload `set_resampler_options(swr_ctx)`: planar float stereo output. -/
def set_resampler_options_xfade (swr : SwrContext) : SwrContext :=
  { swr with out_chlayout := AV_CHANNEL_LAYOUT_STEREO, out_sample_fmt := .FLTP }

/-- Overload `set_resampler_options(swr_ctx, output_codec_ctx)`. -/
def set_resampler_options (swr : SwrContext) (o : AVCodecContext) : SwrContext :=
  { swr with out_chlayout := o.ch_layout, out_sample_rate := o.sample_rate,
             out_sample_fmt := o.sample_fmt }

/-- Method `InputStream::alloc_frame`: the frame, and the codec context whose
`frame_size` it may overwrite. -/
def alloc_frame (E : Env) (ctx : AVCodecContext) : Except String (AVFrame × AVCodecContext) :=
  let ctx1 : AVCodecContext :=
    match ctx.codec with
    | some c =>
      if Nat.land c.capabilities AV_CODEC_CAP_VARIABLE_FRAME_SIZE ≠ 0 then
        { ctx with frame_size := E.DEFAULT_FRAME_SIZE }
      else ctx
    | none => ctx
  let nb_samples := ctx1.frame_size
  let frame : AVFrame :=
    { format := ctx1.sample_fmt, ch_layout := ctx1.ch_layout,
      sample_rate := ctx1.sample_rate, nb_samples := nb_samples, data := [] }
  if nb_samples ≠ 0 then
    if (E.av_frame_get_buffer frame).1 < 0 then .error "Input: error allocating an audio buffer"
    else .ok ({ frame with data := (E.av_frame_get_buffer frame).2 }, ctx1)
  else .ok (frame, ctx1)

/-- Overload `alloc_resampler(output_codec_ctx)`: the crossfade resampler, from
planar float stereo to the output profile. -/
def alloc_resampler (E : Env) (o : AVCodecContext) : Except String SwrContext :=
  let swr := set_resampler_options
    { swr_alloc with in_chlayout := AV_CHANNEL_LAYOUT_STEREO, in_sample_rate := o.sample_rate,
                     in_sample_fmt := .FLTP } o
  if (E.swr_init swr).1 < 0 then .error "Input: failed to initialise the resampler context"
  else .ok (E.swr_init swr).2

/-! ## Construction -/

/-- Modelled from the spec: the header with the default member initialisers of
`InputStream` is missing; the default-constructed placeholder of the spec has no
buffers, so every handle is null, and a stream is valid unless the synthetic
constructor says otherwise. -/
def InputStream.InputStream_default : InputStream :=
  { m_source_url := "", m_output_codec_ctx := ⟨none, 0, ⟨0⟩, .NONE, 0⟩,
    m_timing_mode := .realtime, m_source_mode := .silence, m_source_valid := true,
    m_format_ctx := none, m_input_codec_ctx := none, m_stream_index := 0, m_pkt := none,
    m_frame := none, m_temp_frame := none, m_swr_ctx := none, m_swr_ctx_xfade := none,
    m_queue := none, m_got_frame := 0, m_ret := 0, m_dst_nb_samples := 0,
    m_default_frame_size := 0, m_output_frame_size := 0, m_actual_nb_samples := 0,
    m_number_buffered_samples := 0, m_loop_duration := 0 }

/-- Constructor `InputStream(const AVCodecContext&, DefaultSourceModes)`: the
synthetic source. -/
def InputStream.InputStream_synthetic (E : Env) (output_codec_ctx : AVCodecContext)
    (source_mode : DefaultSourceModes) : Except String InputStream :=
  match alloc_frame E output_codec_ctx with
  | .error m => .error m
  | .ok (frame, ctx) =>
    match alloc_resampler E ctx with
    | .error m => .error m
    | .ok xfade =>
      let temp : AVFrame :=
        { av_frame_alloc with format := .S16, ch_layout := AV_CHANNEL_LAYOUT_STEREO,
                              sample_rate := ctx.sample_rate, nb_samples := frame.nb_samples }
      if frame.nb_samples ≠ 0 ∧ (E.av_frame_get_buffer temp).1 < 0 then
        .error "Default input: error allocating a temporary audio buffer"
      else
        let temp1 : AVFrame :=
          if frame.nb_samples ≠ 0 then { temp with data := (E.av_frame_get_buffer temp).2 }
          else temp
        let swr := set_resampler_options
          { swr_alloc with in_chlayout := AV_CHANNEL_LAYOUT_STEREO,
                           in_sample_rate := ctx.sample_rate, in_sample_fmt := .S16 } ctx
        if (E.swr_init swr).1 < 0 then
          .error "Default input: failed to initialise the resampler context"
        else
          .ok { InputStream.InputStream_default with
                m_output_codec_ctx := ctx, m_source_mode := source_mode,
                m_timing_mode := .realtime, m_frame := some frame,
                m_output_frame_size := frame.nb_samples, m_swr_ctx_xfade := some xfade,
                m_source_valid := false, m_temp_frame := some temp1,
                m_swr_ctx := some (E.swr_init swr).2,
                m_loop_duration :=
                  ((frame.nb_samples - E.DEFAULT_LOOP_TIME_OFFSET_SAMPLES : Int) : ℚ)
                    * (1 / (ctx.sample_rate : ℚ)) }

/-! ## Synthesised audio -/

/-- Conversion of an `int` to `int16_t` on assignment. -/
def to_int16 (v : Int) : Int := (v + 32768) % 65536 - 32768

/-- Conversion of a floating value to `int`: truncation toward zero. -/
def trunc_to_int (x : ℚ) : Int := if 0 ≤ x then ⌊x⌋ else ⌈x⌉

/-- The `switch (+m_source_mode)` of the synthesis loop: the value `v` of one
sample index and the number of `std::rand` calls made so far (`k` on entry). -/
def synth_value (E : Env) (mode : DefaultSourceModes) (k : Nat) : Int × Nat :=
  match mode with
  | .silence => (0, k)
  | .white_noise =>
    (trunc_to_int ((((E.rand k : Int) : ℚ) / ((E.RAND_MAX : Int) : ℚ) - 1 / 2) * 100), k + 1)

/-- The synthesis loop `for (j ...) { switch ...; for (i ...) *q++ = v; }`: the
values written through `q`, in order, for `count` sample indexes, and the number
of `std::rand` calls made. -/
def synth_fill (E : Env) (mode : DefaultSourceModes) (nb_channels : Int) :
    (count : Nat) → (k : Nat) → List ℚ × Nat
  | 0, k => ([], k)
  | count + 1, k =>
    (List.replicate nb_channels.toNat ((to_int16 (synth_value E mode k).1 : Int) : ℚ)
        ++ (synth_fill E mode nb_channels count (synth_value E mode k).2).1,
     (synth_fill E mode nb_channels count (synth_value E mode k).2).2)

/-- The temporary frame after the synthesis loop wrote through
`q = (int16_t*)m_temp_frame->data[0]`; `none` when values are written although
`data[0]` is null. -/
def synth_frame (E : Env) (mode : DefaultSourceModes) (tmp : AVFrame) (k : Nat) :
    Option (AVFrame × Nat) :=
  let w := synth_fill E mode tmp.ch_layout.nb_channels tmp.nb_samples.toNat k
  match tmp.data with
  | [] => if w.1 = [] then some (tmp, w.2) else none
  | p :: ps => some ({ tmp with data := store w.1 p :: ps }, w.2)

/-! ## InputStream: producing one output frame -/

/-- Method `InputStream::resample_one_input_frame()`. -/
def resample_one_input_frame (E : Env) (s : InputStream) : Outcome Int InputStream :=
  match s.m_swr_ctx, s.m_temp_frame, s.m_frame with
  | some swr, some tmp, some frm =>
    let dst := E.swr_get_out_samples swr tmp.nb_samples
    let c := E.swr_convert swr frm.data dst tmp.data tmp.nb_samples
    let s1 : InputStream :=
      { s with m_dst_nb_samples := dst, m_ret := c.1, m_swr_ctx := some c.2.2,
               m_frame := some { frm with nb_samples := dst, data := c.2.1 } }
    if c.1 < 0 then .ret c.1 s1
    else
      .ret c.1 { s1 with m_actual_nb_samples := c.1,
                         m_frame := some { frm with nb_samples := c.1, data := c.2.1 },
                         m_temp_frame := some av_frame_alloc }
  | _, _, _ => .undefined

/-- The inner loop `while (m_ret >= 0)` of the decode loop, entered after a
packet was accepted by the decoder; `pending` is what `avcodec_receive_frame`
will answer. -/
def receive_frames (E : Env) : (pending : List (Int × AVFrame)) → InputStream →
    Outcome Unit InputStream
  | [], s =>
    .ret () { s with m_ret := AVERROR EAGAIN, m_input_codec_ctx := some ⟨[]⟩,
                     m_temp_frame := some av_frame_alloc }
  | (r, f) :: rest, s =>
    if r < 0 then
      let s1 : InputStream :=
        { s with m_ret := r, m_input_codec_ctx := some ⟨rest⟩,
                 m_temp_frame := some av_frame_alloc }
      if r = AVERROR_EOF ∨ r = AVERROR EAGAIN then .ret () s1
      else .thrown "error during decoding" s1
    else
      match resample_one_input_frame E
          { s with m_ret := r, m_input_codec_ctx := some ⟨rest⟩, m_temp_frame := some f } with
      | .undefined => .undefined
      | .thrown m s2 => .thrown m s2
      | .ret r2 s2 =>
        if r2 < 0 then .thrown "could not resample input frame" s2
        else
          match s2.m_queue, s2.m_frame with
          | some q, some frm =>
            if (av_audio_fifo_write q frm.data frm.nb_samples).1 < frm.nb_samples then
              .thrown "could not write the decoded frame to the fifo"
                { s2 with m_queue := some (av_audio_fifo_write q frm.data frm.nb_samples).2 }
            else
              receive_frames E rest
                { s2 with m_queue := some (av_audio_fifo_write q frm.data frm.nb_samples).2 }
          | _, _ => .undefined

/-- The decode loop `while (av_audio_fifo_size(m_queue) <= m_output_frame_size)`;
`packets` is what `av_read_frame` will answer (the end of input once exhausted). -/
def decode_loop (E : Env) : (packets : List (Int × AVPacket)) → InputStream →
    Outcome Unit InputStream
  | [], s =>
    match s.m_queue with
    | none => .undefined
    | some q =>
      if av_audio_fifo_size q ≤ s.m_output_frame_size then
        .thrown "no more packets, reached end of input"
          { s with m_ret := AVERROR_EOF, m_pkt := some av_packet_alloc }
      else .ret () s
  | (r, pkt) :: rest, s =>
    match s.m_queue with
    | none => .undefined
    | some q =>
      if av_audio_fifo_size q ≤ s.m_output_frame_size then
        if r < 0 then
          if r = AVERROR_EOF then
            .thrown "no more packets, reached end of input"
              { s with m_ret := r, m_pkt := some av_packet_alloc, m_format_ctx := some ⟨rest⟩ }
          else
            .thrown "error reading packet"
              { s with m_ret := r, m_pkt := some av_packet_alloc, m_format_ctx := some ⟨rest⟩ }
        else if pkt.stream_index ≠ s.m_stream_index then
          decode_loop E rest
            { s with m_ret := r, m_pkt := some av_packet_alloc, m_format_ctx := some ⟨rest⟩ }
        else
          match s.m_input_codec_ctx with
          | none => .undefined
          | some dec =>
            if pkt.send_ret < 0 then
              .thrown "error submitting a packet for decoding"
                { s with m_ret := pkt.send_ret, m_pkt := some pkt,
                         m_format_ctx := some ⟨rest⟩ }
            else
              match receive_frames E (dec.pending ++ pkt.decoded)
                  { s with m_ret := pkt.send_ret, m_pkt := some av_packet_alloc,
                           m_format_ctx := some ⟨rest⟩,
                           m_input_codec_ctx := some ⟨dec.pending ++ pkt.decoded⟩ } with
              | .undefined => .undefined
              | .thrown m s1 => .thrown m s1
              | .ret _ s1 => decode_loop E rest s1
      else .ret () s

/-- The tail shared by both branches of the bound path: set `nb_samples`, read
one frame from the FIFO, throw on a short read. -/
def read_output_frame (s : InputStream) : Outcome Bool InputStream :=
  match s.m_queue, s.m_frame with
  | some q, some frm =>
    let r := av_audio_fifo_read q frm.data s.m_output_frame_size
    let s1 : InputStream :=
      { s with m_ret := 0, m_queue := some r.2.2,
               m_frame := some { frm with nb_samples := s.m_output_frame_size, data := r.2.1 } }
    if r.1 < s.m_output_frame_size then .thrown "Could not read data from FIFO" s1
    else .ret true s1
  | _, _ => .undefined

/-- Keep the count of `std::rand` calls next to the state of a call that makes none. -/
def Outcome.with_rand {ρ σ : Type} (k : Nat) : Outcome ρ σ → Outcome ρ (σ × Nat)
  | .ret r s => .ret r (s, k)
  | .thrown m s => .thrown m (s, k)
  | .undefined => .undefined

/-- Method `InputStream::get_one_output_frame`; `k` counts the calls of
`std::rand` made so far. -/
def get_one_output_frame (E : Env) (s : InputStream) (k : Nat) :
    Outcome Bool (InputStream × Nat) :=
  match s.m_temp_frame, s.m_frame, s.m_swr_ctx with
  | some tmp, some frm, some swr =>
    if !s.m_source_valid then
      match synth_frame E s.m_source_mode tmp k with
      | none => .undefined
      | some (tmp1, k1) =>
        let c := E.swr_convert swr frm.data tmp1.nb_samples tmp1.data tmp1.nb_samples
        let s1 : InputStream :=
          { s with m_ret := c.1, m_temp_frame := some tmp1, m_swr_ctx := some c.2.2,
                   m_frame := some { frm with data := c.2.1 } }
        if c.1 < 0 then .thrown "Default input: error resampling frame" (s1, k1)
        else .ret true (s1, k1)
    else
      match s.m_queue with
      | none => .undefined
      | some q =>
        if av_audio_fifo_size q ≥ s.m_output_frame_size then
          (read_output_frame s).with_rand k
        else
          match s.m_format_ctx with
          | none => .undefined
          | some fc =>
            match decode_loop E fc.packets s with
            | .undefined => .undefined
            | .thrown m s1 => .thrown m (s1, k)
            | .ret _ s1 => (read_output_frame s1).with_rand k
  | _, _, _ => .ret false (s, k)

/-! ## DefaultInputStream -/

/-- The members of `DefaultInputStream` used by its frame producer. -/
structure DefaultInputStream where
  m_output_codec_ctx : AVCodecContext
  m_frame : Option AVFrame
  m_temp_frame : Option AVFrame
  m_swr_ctx : Option SwrContext
  m_ret : Int
  deriving DecidableEq

/-- Method `DefaultInputStream::cleanup`. -/
def DefaultInputStream.cleanup (s : DefaultInputStream) : DefaultInputStream :=
  { s with m_frame := none, m_temp_frame := none, m_swr_ctx := none }

/-- Method `DefaultInputStream::get_one_output_frame(mode, timing)`; the sleep of
the realtime mode changes no member read here and is left out. -/
def DefaultInputStream.get_one_output_frame (E : Env) (s : DefaultInputStream)
    (mode : DefaultSourceModes) (k : Nat) : Outcome Bool (DefaultInputStream × Nat) :=
  match s.m_temp_frame, s.m_frame, s.m_swr_ctx with
  | some tmp, some frm, some swr =>
    match synth_frame E mode tmp k with
    | none => .undefined
    | some (tmp1, k1) =>
      let c := E.swr_convert swr frm.data tmp1.nb_samples tmp1.data tmp1.nb_samples
      let s1 : DefaultInputStream :=
        { s with m_ret := c.1, m_temp_frame := some tmp1, m_swr_ctx := some c.2.2,
                 m_frame := some { frm with data := c.2.1 } }
      if c.1 < 0 then .thrown "Default input: error resampling frame" (s1.cleanup, k1)
      else .ret true (s1, k1)
  | _, _, _ => .undefined

/-! ## InputStream: crossfade -/

/-- Method `InputStream::get_frame_length_milliseconds`; `none` when `rate/1000`
is zero (division by zero) or there is no frame. -/
def get_frame_length_milliseconds (s : InputStream) : Option Int :=
  match s.m_frame with
  | none => none
  | some f =>
    if Int.tdiv f.sample_rate 1000 = 0 then none
    else some (Int.tdiv f.nb_samples (Int.tdiv f.sample_rate 1000))

/-- The inner loop of `crossfade_frame` over the `n` samples of one channel,
walking `q` and `v`; `none` when either buffer ends before `n` samples. -/
def fade_samples (t : ℚ) : (n : Nat) → (q v : List ℚ) → Option (List ℚ)
  | 0, q, _ => some q
  | n + 1, qh :: qt, vh :: vt =>
    match fade_samples t n qt vt with
    | some r => some ((qh * (1 - t) + vh * t) :: r)
    | none => none
  | _ + 1, _, _ => none

/-- The outer loop of `crossfade_frame` over `c` channels; a missing plane is a
null pointer, which is harmless only when no sample is read through it. -/
def fade_channels (t : ℚ) (n : Nat) : (c : Nat) → (qs vs : List (List ℚ)) →
    Option (List (List ℚ))
  | 0, qs, _ => some qs
  | c + 1, q :: qs, v :: vs =>
    match fade_samples t n q v, fade_channels t n c qs vs with
    | some r, some rs => some (r :: rs)
    | _, _ => none
  | _ + 1, qs, _ => if n = 0 then some qs else none

/-- Method `InputStream::crossfade_frame`. The state carries the stream, the
count of `std::rand` calls and `fade_time_remaining` (passed by reference). The
local `non_dimensional_fade_time_increment` is never read and is left out. -/
def crossfade_frame (E : Env) (s : InputStream) (new_input_frame : Option AVFrame)
    (fade_time_remaining fade_time : Int) (k : Nat) :
    Outcome Bool (InputStream × Nat × Int) :=
  match get_one_output_frame E s k with
  | .undefined => .undefined
  | .thrown m (s1, k1) => .thrown m (s1, k1, fade_time_remaining)
  | .ret _ (s1, k1) =>
    match new_input_frame, s1.m_frame, s1.m_swr_ctx_xfade with
    | some nf, some frm, some xfade =>
      let non_dimensional_fade_time : ℚ :=
        1 - ((fade_time_remaining : Int) : ℚ) / ((fade_time : Int) : ℚ)
      match fade_channels non_dimensional_fade_time frm.nb_samples.toNat
          frm.ch_layout.nb_channels.toNat frm.data nf.data with
      | none => .undefined
      | some mixed =>
        let c := E.swr_convert xfade mixed frm.nb_samples mixed frm.nb_samples
        let s2 : InputStream :=
          { s1 with m_ret := c.1, m_swr_ctx_xfade := some c.2.2,
                    m_frame := some { frm with data := c.2.1 } }
        match get_frame_length_milliseconds s2 with
        | none => .undefined
        | some ms => .ret true (s2, k1, fade_time_remaining - ms)
    | _, _, _ => .undefined

/-- Method `InputStream::init_crossfade`. -/
def init_crossfade (E : Env) (s : InputStream) : Outcome Unit InputStream :=
  match s.m_swr_ctx with
  | none => .thrown "Resampling context not allocated" s
  | some swr =>
    let i := E.swr_init (set_resampler_options_xfade swr)
    if i.1 < 0 then
      .thrown "crossfading: failed to initialise the resampler context"
        { s with m_swr_ctx := some i.2 }
    else
      match s.m_queue with
      | none => .undefined
      | some q =>
        if av_audio_fifo_size q = 0 then
          .ret () { s with m_swr_ctx := some i.2, m_queue := av_audio_fifo_alloc .FLTP 2 }
        else .ret () { s with m_swr_ctx := some i.2 }

/-- Method `InputStream::end_crossfade`. -/
def end_crossfade (E : Env) (s : InputStream) : Outcome Unit InputStream :=
  match s.m_swr_ctx with
  | none => .undefined
  | some swr =>
    let i := E.swr_init (set_resampler_options swr s.m_output_codec_ctx)
    if i.1 < 0 then
      .thrown "end crossfading: failed to initialise the resampler context"
        { s with m_swr_ctx := some i.2 }
    else
      match s.m_queue with
      | none => .undefined
      | some q =>
        if av_audio_fifo_size q = 0 then
          .ret () { s with m_swr_ctx := some i.2,
                           m_queue := av_audio_fifo_alloc s.m_output_codec_ctx.sample_fmt
                             s.m_output_codec_ctx.ch_layout.nb_channels }
        else .ret () { s with m_swr_ctx := some i.2 }

/-- Body of `InputStream::operator=(InputStream&&)` past the self-assignment
test: the new value of `*this` and what is left in the argument. -/
def move_assign (this that : InputStream) : InputStream × InputStream :=
  ({ this with
      m_source_url := that.m_source_url, m_output_codec_ctx := that.m_output_codec_ctx,
      m_got_frame := that.m_got_frame, m_ret := that.m_ret,
      m_dst_nb_samples := that.m_dst_nb_samples,
      m_default_frame_size := that.m_default_frame_size,
      m_output_frame_size := that.m_output_frame_size,
      m_actual_nb_samples := that.m_actual_nb_samples,
      m_number_buffered_samples := that.m_number_buffered_samples,
      m_loop_duration := that.m_loop_duration, m_timing_mode := that.m_timing_mode,
      m_source_valid := that.m_source_valid, m_source_mode := that.m_source_mode,
      m_format_ctx := that.m_format_ctx, m_input_codec_ctx := that.m_input_codec_ctx,
      m_frame := that.m_frame, m_temp_frame := that.m_temp_frame, m_pkt := that.m_pkt,
      m_swr_ctx := that.m_swr_ctx, m_swr_ctx_xfade := that.m_swr_ctx_xfade,
      m_queue := that.m_queue },
   { that with
      m_format_ctx := none, m_input_codec_ctx := none, m_frame := none,
      m_temp_frame := none, m_pkt := none, m_swr_ctx := none, m_swr_ctx_xfade := none,
      m_queue := none })

/-- Modelled from the spec: the accessor `get_frame` is declared in the missing
header; the spec has `crossfade` pass the incoming stream's current frame. -/
def InputStream.get_frame (s : InputStream) : Option AVFrame := s.m_frame

/-! ## The sink -/

/-- Modelled from the spec: `OutputStream` is a collaborator whose code is not
in the repository sources at hand. It holds the OutputProfile, the frames it was
handed so far (oldest first), the outcome of its next writes (`some msg` is a
refused frame, signalled by throwing `msg`; accepted once the list is exhausted)
and the number of `finish_streaming` calls. -/
structure OutputStream where
  m_output_codec_ctx : AVCodecContext
  written : List AVFrame
  refusals : List (Option String)
  finished : Nat
  deriving DecidableEq

/-- Modelled from the spec: `write_frame(InputStream&)`, absent from the sources,
reads the stream's current frame and sends it, or refuses it. -/
def OutputStream.write_frame (o : OutputStream) (source : InputStream) :
    Outcome Unit OutputStream :=
  match o.refusals with
  | some msg :: rest => .thrown msg { o with refusals := rest }
  | none :: rest =>
    match source.m_frame with
    | none => .undefined
    | some f => .ret () { o with refusals := rest, written := o.written ++ [f] }
  | [] =>
    match source.m_frame with
    | none => .undefined
    | some f => .ret () { o with written := o.written ++ [f] }

/-- Modelled from the spec: `finish_streaming()`, absent from the sources,
flushes and closes the outputs. -/
def OutputStream.finish_streaming (o : OutputStream) : OutputStream :=
  { o with finished := o.finished + 1 }

/-! ## The engine (`fondue.cpp`) -/

/-- The two `InputStream` objects of `main`, as targets of references. -/
inductive InputStreamRef where
  | source | new_source
  deriving DecidableEq, Repr

/-- State of the audio thread: the two streams, the sink, the flag
`normal_streaming`, and how many times `flags.stop` was read and `std::rand`
was called. -/
structure Engine where
  source : InputStream
  new_source : InputStream
  sink : OutputStream
  normal_streaming : Bool
  stop_reads : Nat
  rand_calls : Nat
  deriving DecidableEq

/-- Operator `InputStream::operator=(InputStream&&)` on the two objects of `main`. -/
def operator_assign (W : Engine) (this input_stream : InputStreamRef) : Engine :=
  if input_stream = this then W
  else
    match this with
    | .source =>
      { W with source := (move_assign W.source W.new_source).1,
               new_source := (move_assign W.source W.new_source).2 }
    | .new_source =>
      { W with new_source := (move_assign W.new_source W.source).1,
               source := (move_assign W.new_source W.source).2 }

/-- The two `catch` blocks of `crossfade` that give up the fade:
`source.end_crossfade(); return std::move(source);`. -/
def crossfade_abort (E : Env) (W : Engine) : Outcome InputStreamRef Engine :=
  match end_crossfade E W.source with
  | .undefined => .undefined
  | .thrown m src => .thrown m { W with source := src }
  | .ret _ src => .ret .source { W with source := src }

/-- The end of `crossfade`: `new_source.end_crossfade(); return std::move(new_source);`. -/
def crossfade_finish (E : Env) (W : Engine) : Outcome InputStreamRef Engine :=
  match end_crossfade E W.new_source with
  | .undefined => .undefined
  | .thrown m ns => .thrown m { W with new_source := ns }
  | .ret _ ns => .ret .new_source { W with new_source := ns }

/-- The loop `while (fade_time_remaining > 0 && !flags.stop)` of `crossfade`,
followed by the end of the function; `none` when `fuel` iterations did not
suffice. The sleep on the pacing clock changes no state of the model. -/
def crossfade_loop (E : Env) : (fuel : Nat) → Engine → (fade_time_remaining : Int) →
    Option (Outcome InputStreamRef Engine)
  | 0, _, _ => none
  | fuel + 1, W, fade_time_remaining =>
    if fade_time_remaining > 0 then
      if !(E.flags_stop W.stop_reads) then
        match get_one_output_frame E W.new_source W.rand_calls with
        | .undefined => some .undefined
        | .thrown _ (ns, k) =>
          some (crossfade_abort E
            { W with stop_reads := W.stop_reads + 1, new_source := ns, rand_calls := k })
        | .ret _ (ns, k) =>
          match crossfade_frame E W.source ns.get_frame fade_time_remaining
              E.DEFAULT_FADE_MS k with
          | .undefined => some .undefined
          | .thrown _ (src, k2, rem2) =>
            match InputStream.InputStream_synthetic E W.sink.m_output_codec_ctx .silence with
            | .error m =>
              some (.thrown m { W with stop_reads := W.stop_reads + 1, new_source := ns,
                                       source := src, rand_calls := k2 })
            | .ok syn =>
              crossfade_loop E fuel
                { W with stop_reads := W.stop_reads + 1, new_source := ns,
                         source := (move_assign src syn).1, rand_calls := k2 } rem2
          | .ret _ (src, k2, rem2) =>
            match W.sink.write_frame src with
            | .undefined => some .undefined
            | .thrown m sk =>
              some (.thrown m { W with stop_reads := W.stop_reads + 1, new_source := ns,
                                       source := src, rand_calls := k2, sink := sk })
            | .ret _ sk =>
              crossfade_loop E fuel
                { W with stop_reads := W.stop_reads + 1, new_source := ns,
                         source := src, rand_calls := k2, sink := sk } rem2
      else some (crossfade_finish E { W with stop_reads := W.stop_reads + 1 })
    else some (crossfade_finish E W)

/-- Function `crossfade` of `fondue.cpp`: which of its two arguments it returns
a reference to, and the state it leaves. -/
def crossfade (E : Env) (fuel : Nat) (W : Engine) : Option (Outcome InputStreamRef Engine) :=
  match init_crossfade E W.source with
  | .undefined => some .undefined
  | .thrown _ src => some (crossfade_abort E { W with source := src })
  | .ret _ src =>
    match init_crossfade E W.new_source with
    | .undefined => some .undefined
    | .thrown _ ns => some (crossfade_abort E { W with source := src, new_source := ns })
    | .ret _ ns =>
      crossfade_loop E fuel { W with source := src, new_source := ns } E.DEFAULT_FADE_MS

/-- The statement `source = crossfade(source, new_source, sink, end_time, flags);`
of `audio_processing`, once `crossfade` has returned the reference `r`. -/
def assign_crossfade_result (W : Engine) (r : InputStreamRef) : Engine :=
  operator_assign W .source r

/-! ## The streaming loop and the audio thread (`fondue.cpp`) -/

/-- Modelled from the spec: the arming of an incoming source by the control
thread (its code is commented out in `control`). `arm k` is what that thread
has done when the audio thread, having read `flags.stop` `k` times, reads
`flags.normal_streaming`: nothing, or staged a stream in `new_source` and
cleared the flag. The thread as it stands in the sources never arms. -/
structure Control where
  arm : Nat → Option InputStream

/-- A read of `flags.normal_streaming` by the audio thread: the state with what
the control thread has staged by then; the value read is its `normal_streaming`. -/
def read_normal_streaming (C : Control) (W : Engine) : Engine :=
  match C.arm W.stop_reads with
  | some s => { W with new_source := s, normal_streaming := false }
  | none => W

/-- The `catch` block of `continue_streaming`:
`source = InputStream {sink.get_output_codec_context(), DefaultSourceModes::white_noise};`. -/
def streaming_fallback (E : Env) (W : Engine) : Outcome Unit Engine :=
  match InputStream.InputStream_synthetic E W.sink.m_output_codec_ctx .white_noise with
  | .error m => .thrown m W
  | .ok syn => .ret () { W with source := (move_assign W.source syn).1 }

/-- The body of the loop of `continue_streaming`: the `try` block
(`get_one_output_frame`, `write_frame`, sleep) and its `catch (const char*)`.
The sleep on the pacing clock changes no state of the model. -/
def continue_streaming_body (E : Env) (W : Engine) : Outcome Unit Engine :=
  match get_one_output_frame E W.source W.rand_calls with
  | .undefined => .undefined
  | .thrown _ (src, k) => streaming_fallback E { W with source := src, rand_calls := k }
  | .ret _ (src, k) =>
    match W.sink.write_frame src with
    | .undefined => .undefined
    | .thrown _ sk => streaming_fallback E { W with source := src, rand_calls := k, sink := sk }
    | .ret _ sk => .ret () { W with source := src, rand_calls := k, sink := sk }

/-- Function `continue_streaming`: the loop
`while (flags.normal_streaming && !flags.stop)`; `none` when `fuel` iterations
did not suffice. -/
def continue_streaming (E : Env) (C : Control) : (fuel : Nat) → Engine →
    Option (Outcome Unit Engine)
  | 0, _ => none
  | fuel + 1, W =>
    if (read_normal_streaming C W).normal_streaming then
      if !(E.flags_stop W.stop_reads) then
        match continue_streaming_body E
            { (read_normal_streaming C W) with stop_reads := W.stop_reads + 1 } with
        | .undefined => some .undefined
        | .thrown m W1 => some (.thrown m W1)
        | .ret _ W1 => continue_streaming E C fuel W1
      else some (.ret () { (read_normal_streaming C W) with stop_reads := W.stop_reads + 1 })
    else some (.ret () (read_normal_streaming C W))

/-- Function `audio_processing`: the loop `while (!flags.stop)` and the final
`sink.finish_streaming()`; `none` when `fuel` did not suffice for it or for one
of the loops it runs. -/
def audio_processing (E : Env) (C : Control) : (fuel : Nat) → Engine →
    Option (Outcome Unit Engine)
  | 0, _ => none
  | fuel + 1, W =>
    if !(E.flags_stop W.stop_reads) then
      if (read_normal_streaming C { W with stop_reads := W.stop_reads + 1 }).normal_streaming
      then
        match continue_streaming E C fuel
            (read_normal_streaming C { W with stop_reads := W.stop_reads + 1 }) with
        | none => none
        | some .undefined => some .undefined
        | some (.thrown m W1) => some (.thrown m W1)
        | some (.ret _ W1) => audio_processing E C fuel W1
      else
        match crossfade E fuel
            (read_normal_streaming C { W with stop_reads := W.stop_reads + 1 }) with
        | none => none
        | some .undefined => some .undefined
        | some (.thrown m W1) => some (.thrown m W1)
        | some (.ret r W1) =>
          audio_processing E C fuel
            { (assign_crossfade_result W1 r) with normal_streaming := true }
    else
      some (.ret () { W with stop_reads := W.stop_reads + 1,
                             sink := W.sink.finish_streaming })

/-! ## The bound constructor -/

/-- Answers of libavformat and libavcodec when a source is opened. The format
hint and the option dictionary are opaque handles. -/
structure Demux where
  /-- Result code of `avformat_open_input` and the demuxer it opens. -/
  avformat_open_input : String → Nat → Nat → Int × AVFormatContext
  avformat_find_stream_info : AVFormatContext → Int
  av_find_best_stream : AVFormatContext → Int
  /-- Decoder found for the codec of the stream of that index, if any. -/
  avcodec_find_decoder : AVFormatContext → Int → Option AVCodec
  /-- Result code of `avcodec_parameters_to_context` and the decoder context
  filled from the parameters of the stream of that index. -/
  avcodec_parameters_to_context : AVFormatContext → Int → Int × AVCodecContext
  avcodec_open2 : AVCodecContext → Int

/-- Method `InputStream::open_codec_context`: its result code, the stream index
it stores and the decoder context it opens; `none` when the index is negative
(`streams[m_stream_index]` is then read out of bounds). -/
def open_codec_context (D : Demux) (fc : AVFormatContext) :
    Option (Int × Int × Option AVCodecContext) :=
  let idx := D.av_find_best_stream fc
  if idx < 0 then none
  else
    match D.avcodec_find_decoder fc idx with
    | none => some (AVERROR EINVAL, idx, none)
    | some dec =>
      let p := D.avcodec_parameters_to_context fc idx
      let ctx : AVCodecContext := { p.2 with codec := some dec }
      if p.1 < 0 then some (p.1, idx, some ctx)
      else if D.avcodec_open2 ctx < 0 then some (D.avcodec_open2 ctx, idx, some ctx)
      else some (0, idx, some ctx)

/-- Overload `alloc_resampler(input_codec_ctx, output_codec_ctx)`. -/
def alloc_resampler_in_out (E : Env) (i o : AVCodecContext) : Except String SwrContext :=
  if (E.swr_init (set_resampler_options_in_out swr_alloc i o)).1 < 0 then
    .error "Input: failed to initialise the resampler context"
  else .ok (E.swr_init (set_resampler_options_in_out swr_alloc i o)).2

/-- Constructor `InputStream(source_url, format, output_codec_ctx, options,
timing_mode, source_mode)`: the bound source. The members are set in the order
of the source; a throw leaves no object. -/
def InputStream.InputStream_bound (E : Env) (D : Demux) (source_url : String) (format : Nat)
    (output_codec_ctx : AVCodecContext) (options : Nat) (timing_mode : SourceTimingModes)
    (source_mode : DefaultSourceModes) : Outcome InputStream Unit :=
  match alloc_frame E output_codec_ctx with
  | .error m => .thrown m ()
  | .ok (frame, ctx) =>
    match alloc_resampler E ctx with
    | .error m => .thrown m ()
    | .ok xfade =>
      if (D.avformat_open_input source_url format options).1 < 0 then
        .thrown "Input: couldn't open source" ()
      else if D.avformat_find_stream_info (D.avformat_open_input source_url format options).2 < 0
      then .thrown "Input: could not find stream information" ()
      else
        match open_codec_context D (D.avformat_open_input source_url format options).2 with
        | none => .undefined
        | some (r, idx, dec) =>
          if r < 0 then .thrown "Input: could not open codec context" ()
          else
            match dec with
            | none => .undefined
            | some ictx =>
              match alloc_frame E ictx with
              | .error m => .thrown m ()
              | .ok (temp, ictx1) =>
                match alloc_resampler_in_out E ictx1 ctx with
                | .error m => .thrown m ()
                | .ok swr =>
                  match av_audio_fifo_alloc ctx.sample_fmt ctx.ch_layout.nb_channels with
                  | none => .thrown "Input: failed to allocate audio samples queue" ()
                  | some q =>
                    .ret
                      { InputStream.InputStream_default with
                        m_source_url := source_url, m_output_codec_ctx := ctx,
                        m_timing_mode := timing_mode, m_source_mode := source_mode,
                        m_default_frame_size := E.DEFAULT_FRAME_SIZE,
                        m_frame := some frame, m_output_frame_size := frame.nb_samples,
                        m_swr_ctx_xfade := some xfade,
                        m_format_ctx := some (D.avformat_open_input source_url format options).2,
                        m_stream_index := idx, m_input_codec_ctx := some ⟨[]⟩,
                        m_pkt := some av_packet_alloc, m_temp_frame := some temp,
                        m_swr_ctx := some swr, m_queue := some q,
                        m_loop_duration :=
                          ((frame.nb_samples - E.DEFAULT_LOOP_TIME_OFFSET_SAMPLES : Int) : ℚ)
                            * (1 / (ctx.sample_rate : ℚ)) } ()

/-! ## Conversion of a filled FIFO -/

/-- Method `InputStream::clear_queue` (`av_audio_fifo_reset`). -/
def clear_queue (s : InputStream) : Option InputStream :=
  match s.m_queue with
  | none => none
  | some q => some { s with m_queue := some { q with nb_samples := 0, buf := q.buf.map fun _ => [] } }

/-- Method `InputStream::resample_queue`, which no function of the sources
calls: drain the FIFO into a temporary frame, convert it in place from
`old_sample_fmt` to `new_sample_fmt`, and queue it in a FIFO of the new tag. -/
def resample_queue (E : Env) (s : InputStream) (old_sample_fmt new_sample_fmt : AVSampleFormat) :
    Outcome Unit InputStream :=
  match s.m_queue with
  | none => .undefined
  | some q =>
    if av_audio_fifo_size q = 0 then
      match clear_queue s with
      | none => .undefined
      | some s1 => .ret () s1
    else
      let temp : AVFrame :=
        { av_frame_alloc with format := s.m_output_codec_ctx.sample_fmt,
                              ch_layout := s.m_output_codec_ctx.ch_layout,
                              sample_rate := s.m_output_codec_ctx.sample_rate,
                              nb_samples := av_audio_fifo_size q }
      if (E.av_frame_get_buffer temp).1 < 0 then .thrown "Input: error allocating an audio buffer" s
      else
        let r := av_audio_fifo_read q (E.av_frame_get_buffer temp).2 temp.nb_samples
        if r.1 < temp.nb_samples then
          .thrown "Could not read data from FIFO" { s with m_queue := some r.2.2 }
        else
          let temp_swr : SwrContext :=
            { swr_alloc with in_chlayout := temp.ch_layout, out_chlayout := temp.ch_layout,
                             in_sample_rate := temp.sample_rate,
                             out_sample_rate := temp.sample_rate,
                             in_sample_fmt := old_sample_fmt, out_sample_fmt := new_sample_fmt }
          let c := E.swr_convert (E.swr_init temp_swr).2 r.2.1 temp.nb_samples r.2.1
                     temp.nb_samples
          let channels : Int :=
            if new_sample_fmt = .FLTP then 2 else s.m_output_codec_ctx.ch_layout.nb_channels
          match av_audio_fifo_alloc new_sample_fmt channels with
          | none => .undefined
          | some q1 =>
            if (av_audio_fifo_write q1 c.2.1 temp.nb_samples).1 < temp.nb_samples then
              .thrown "could not write the resampled samples to the fifo"
                { s with m_queue := some (av_audio_fifo_write q1 c.2.1 temp.nb_samples).2 }
            else
              .ret () { s with m_queue := some (av_audio_fifo_write q1 c.2.1 temp.nb_samples).2 }

/-! ## Reading samples of a frame -/

/-- Sample `i` of channel `c` in the planes of a planar frame. -/
def sample_at (data : List (List ℚ)) (c i : Nat) : Option ℚ :=
  match data[c]? with
  | some p => p[i]?
  | none => none

/-- The first `c` planes exist and hold at least `n` samples each. -/
def planes_hold : (c n : Nat) → List (List ℚ) → Bool
  | 0, _, _ => true
  | c + 1, n, p :: ps => decide (n ≤ p.length) && planes_hold c n ps
  | _ + 1, _, [] => false

/-! ## States of a bound stream -/

/-- The state `bound:streaming` of the spec, as the bound constructor leaves it:
the source is valid, every handle is allocated, `m_output_frame_size` is the
frame size of the stream's OutputProfile (set by `alloc_frame`; libavutil
allocates no buffer for a negative one), the FIFO is tagged with the profile's
format and channel count, and the primary resampler targets the profile. -/
def bound_streaming (s : InputStream) : Bool :=
  s.m_source_valid && s.m_format_ctx.isSome && s.m_input_codec_ctx.isSome && s.m_pkt.isSome
    && s.m_frame.isSome && s.m_temp_frame.isSome && s.m_swr_ctx_xfade.isSome
    && decide (0 ≤ s.m_output_frame_size)
    && decide (s.m_output_frame_size = s.m_output_codec_ctx.frame_size)
    && (match s.m_queue with
        | some q => decide (q.sample_fmt = s.m_output_codec_ctx.sample_fmt)
                    && decide (q.channels = s.m_output_codec_ctx.ch_layout.nb_channels)
        | none => false)
    && (match s.m_swr_ctx with
        | some c => decide (c.out_chlayout = s.m_output_codec_ctx.ch_layout)
                    && decide (c.out_sample_rate = s.m_output_codec_ctx.sample_rate)
                    && decide (c.out_sample_fmt = s.m_output_codec_ctx.sample_fmt)
        | none => false)

/-! ## Shorthands for the states the calls leave -/

/-- The stream `crossfade_frame` leaves when its own frame was `self` and the
mixing loop produced the planes `mixed`: the crossfade resampler has converted
`mixed` in place. -/
def after_mix (E : Env) (s1 : InputStream) (self : AVFrame) (xfade : SwrContext)
    (mixed : List (List ℚ)) : InputStream :=
  { s1 with
      m_ret := (E.swr_convert xfade mixed self.nb_samples mixed self.nb_samples).1,
      m_swr_ctx_xfade :=
        some (E.swr_convert xfade mixed self.nb_samples mixed self.nb_samples).2.2,
      m_frame := some { self with
        data := (E.swr_convert xfade mixed self.nb_samples mixed self.nb_samples).2.1 } }

/-- Write `w` over the beginning of the first plane, when there is one. -/
def store_first (w : List ℚ) : List (List ℚ) → List (List ℚ)
  | [] => []
  | p :: ps => store w p :: ps

/-- The temporary frame `tmp` once the synthesis loop of the silence mode has
written its zeros. -/
def silence_frame (tmp : AVFrame) : AVFrame :=
  { tmp with
      data := (store_first
        (List.replicate (tmp.nb_samples.toNat * tmp.ch_layout.nb_channels.toNat) 0) tmp.data) }

/-- The stream a synthetic `get_one_output_frame` leaves when the synthesis loop
has turned the temporary frame into `tmp1`: the primary resampler has converted
`tmp1` into the frame `frm`. -/
def after_synth (E : Env) (s : InputStream) (tmp1 frm : AVFrame) (swr : SwrContext) :
    InputStream :=
  { s with
      m_ret := (E.swr_convert swr frm.data tmp1.nb_samples tmp1.data tmp1.nb_samples).1,
      m_temp_frame := some tmp1,
      m_swr_ctx := some (E.swr_convert swr frm.data tmp1.nb_samples tmp1.data
                      tmp1.nb_samples).2.2,
      m_frame := some { frm with
        data := (E.swr_convert swr frm.data tmp1.nb_samples tmp1.data tmp1.nb_samples).2.1 } }

/-- The stream a `DefaultInputStream::get_one_output_frame` leaves when the
synthesis loop has turned the temporary frame into `tmp1`. -/
def after_synth_default (E : Env) (d : DefaultInputStream) (tmp1 frm : AVFrame)
    (swr : SwrContext) : DefaultInputStream :=
  { d with
      m_ret := (E.swr_convert swr frm.data tmp1.nb_samples tmp1.data tmp1.nb_samples).1,
      m_temp_frame := some tmp1,
      m_swr_ctx := some (E.swr_convert swr frm.data tmp1.nb_samples tmp1.data
                      tmp1.nb_samples).2.2,
      m_frame := some { frm with
        data := (E.swr_convert swr frm.data tmp1.nb_samples tmp1.data tmp1.nb_samples).2.1 } }

/-- The FIFO `q` with exactly `n` samples removed from its front. -/
def fifo_pop (q : AVAudioFifo) (n : Int) : AVAudioFifo :=
  { q with nb_samples := q.nb_samples - n,
           buf := q.buf.map (List.drop (n.toNat * fifo_width q)) }

/-- The stream after one frame of `m_output_frame_size` samples was read from
the FIFO `q` into the frame `frm`. -/
def after_read (s : InputStream) (q : AVAudioFifo) (frm : AVFrame) : InputStream :=
  { s with m_ret := 0, m_queue := some (fifo_pop q s.m_output_frame_size),
           m_frame := some { frm with
             nb_samples := s.m_output_frame_size,
             data := (av_audio_fifo_read q frm.data s.m_output_frame_size).2.1 } }

/-! ## Iterations of the crossfade loop -/

/-- One whole iteration of the loop of `crossfade` after which the loop goes on:
the loop test passes, the incoming stream delivers a frame, and either the mix
succeeds and the frame is written, or the mix throws and the outgoing stream is
replaced. `none` when the iteration leaves the loop or the function. -/
def crossfade_step (E : Env) (W : Engine) (fade_time_remaining : Int) : Option (Engine × Int) :=
  if fade_time_remaining > 0 ∧ E.flags_stop W.stop_reads = false then
    match get_one_output_frame E W.new_source W.rand_calls with
    | .ret _ (ns, k) =>
      match crossfade_frame E W.source ns.get_frame fade_time_remaining E.DEFAULT_FADE_MS k with
      | .undefined => none
      | .thrown _ (src, k2, rem2) =>
        match InputStream.InputStream_synthetic E W.sink.m_output_codec_ctx .silence with
        | .error _ => none
        | .ok syn =>
          some ({ W with stop_reads := W.stop_reads + 1, new_source := ns,
                         source := (move_assign src syn).1, rand_calls := k2 }, rem2)
      | .ret _ (src, k2, rem2) =>
        match W.sink.write_frame src with
        | .ret _ sk =>
          some ({ W with stop_reads := W.stop_reads + 1, new_source := ns,
                         source := src, rand_calls := k2, sink := sk }, rem2)
        | _ => none
    | _ => none
  else none

/-- The state after `n` whole iterations of the loop of `crossfade`. -/
def crossfade_steps (E : Env) : (n : Nat) → Engine → Int → Option (Engine × Int)
  | 0, W, r => some (W, r)
  | n + 1, W, r =>
    match crossfade_step E W r with
    | some (W1, r1) => crossfade_steps E n W1 r1
    | none => none

/-! ## Iterations of the fade in which nothing fails -/

/-- One iteration of the loop of `crossfade` in which neither stream fails:
`stop` is read false, the incoming stream delivers its frame, `crossfade_frame`
returns having taken the frame length `d` from the remaining time, and the sink
takes the mixed frame. `none` for any other iteration. -/
def fade_iteration (E : Env) (d : Int) (W : Engine) (fade_time_remaining : Int) :
    Option Engine :=
  if fade_time_remaining > 0 ∧ E.flags_stop W.stop_reads = false then
    match get_one_output_frame E W.new_source W.rand_calls with
    | .ret _ (ns, k) =>
      match crossfade_frame E W.source ns.get_frame fade_time_remaining E.DEFAULT_FADE_MS k with
      | .ret _ (src, k2, rem2) =>
        if rem2 = fade_time_remaining - d then
          match W.sink.write_frame src with
          | .ret _ sk =>
            some { W with stop_reads := W.stop_reads + 1, new_source := ns,
                          source := src, rand_calls := k2, sink := sk }
          | _ => none
        else none
      | _ => none
    | _ => none
  else none

/-- The state after `n` such iterations, from `W` with `fade_time_remaining`. -/
def fade_iterations (E : Env) (d : Int) (W : Engine) (fade_time_remaining : Int) :
    (n : Nat) → Option Engine
  | 0 => some W
  | n + 1 =>
    match fade_iterations E d W fade_time_remaining n with
    | some Wn => fade_iteration E d Wn (fade_time_remaining - n * d)
    | none => none

/-- The state of the engine once `init_crossfade` has returned on both streams. -/
def after_init (W : Engine) (src ns : InputStream) : Engine :=
  { W with source := src, new_source := ns }

/-! ## An assumption on libswresample -/

/-- The call `swr_init` changes no option of the handle, only its hidden state. -/
def swr_init_keeps_options (E : Env) : Prop :=
  ∀ c : SwrContext, (E.swr_init c).2 = { c with internal := (E.swr_init c).2.internal }

/-! ## A small concrete configuration, used to exercise the definitions -/

/-- An environment in which every library call succeeds: the resamplers copy
their input, buffers are allocated zeroed, and `stop` is never requested. -/
def demo_env : Env :=
  { DEFAULT_FADE_MS := 5000, DEFAULT_FRAME_SIZE := 1024, DEFAULT_LOOP_TIME_OFFSET_SAMPLES := 20,
    RAND_MAX := 2147483647,
    rand := fun k => ((k : Int) * 1103515245 + 12345) % 2147483648,
    swr_init := fun c => (0, c),
    swr_get_out_samples := fun _ n => n,
    swr_convert := fun c _ _ inp n => (n, inp, c),
    av_frame_get_buffer := fun f =>
      (0, if av_sample_fmt_is_planar f.format then
            List.replicate f.ch_layout.nb_channels.toNat (List.replicate f.nb_samples.toNat 0)
          else [List.replicate (f.nb_samples.toNat * f.ch_layout.nb_channels.toNat) 0]),
    flags_stop := fun _ => false }

/-- An output profile of two planar float channels at 48 kHz, two samples a frame. -/
def demo_profile : AVCodecContext :=
  { codec := none, sample_rate := 48000, ch_layout := ⟨2⟩, sample_fmt := .FLTP, frame_size := 2 }

/-- A resampler handle from 16-bit stereo to `demo_profile`. -/
def demo_swr : SwrContext :=
  { in_chlayout := ⟨2⟩, in_sample_rate := 48000, in_sample_fmt := .S16,
    out_chlayout := ⟨2⟩, out_sample_rate := 48000, out_sample_fmt := .FLTP, internal := 0 }

/-- A bound stream on `demo_profile` whose FIFO holds `buf` (`count` samples a
plane) and whose source still has `packets` to deliver. -/
def demo_bound (count : Int) (buf : List (List ℚ)) (packets : List (Int × AVPacket)) :
    InputStream :=
  { InputStream.InputStream_default with
    m_source_url := "file:demo", m_output_codec_ctx := demo_profile,
    m_format_ctx := some ⟨packets⟩, m_input_codec_ctx := some ⟨[]⟩,
    m_pkt := some av_packet_alloc,
    m_frame := some ⟨.FLTP, ⟨2⟩, 48000, 2, [[0, 0], [0, 0]]⟩,
    m_temp_frame := some av_frame_alloc,
    m_swr_ctx := some demo_swr, m_swr_ctx_xfade := some demo_swr,
    m_queue := some ⟨.FLTP, 2, count, buf⟩,
    m_default_frame_size := 1024, m_output_frame_size := 2 }

/-- An incoming frame of two planar channels. -/
def demo_incoming : AVFrame := ⟨.FLTP, ⟨2⟩, 48000, 2, [[10, 20], [30, 40]]⟩

/-- A synthetic stream on `demo_profile`, as its constructor builds it in `demo_env`. -/
def demo_synthetic (mode : DefaultSourceModes) : InputStream :=
  match InputStream.InputStream_synthetic demo_env demo_profile mode with
  | .ok s => s
  | .error _ => InputStream.InputStream_default

/-- A `DefaultInputStream` on `demo_profile`. -/
def demo_default_stream : DefaultInputStream :=
  { m_output_codec_ctx := demo_profile,
    m_frame := some ⟨.FLTP, ⟨2⟩, 48000, 2, [[0, 0], [0, 0]]⟩,
    m_temp_frame := some ⟨.S16, ⟨2⟩, 48000, 2, [[0, 0, 0, 0]]⟩,
    m_swr_ctx := some demo_swr, m_ret := 0 }

/-- A sink on `demo_profile` that accepts every frame. -/
def demo_sink : OutputStream :=
  { m_output_codec_ctx := demo_profile, written := [], refusals := [], finished := 0 }

/-- The environment `demo_env` with a fade of 3 ms. -/
def demo_env_short : Env := { demo_env with DEFAULT_FADE_MS := 3 }

/-- A bound stream like `demo_bound` whose frames run at 1000 Hz, so that a
frame of two samples lasts 2 ms; its FIFO holds two frames. -/
def demo_slow (buf : List (List ℚ)) : InputStream :=
  { (demo_bound 4 buf []) with m_frame := some ⟨.FLTP, ⟨2⟩, 1000, 2, [[0, 0], [0, 0]]⟩ }

/-- The engine about to fade from one `demo_slow` stream to another. -/
def demo_fade : Engine :=
  ⟨demo_slow [[1, 2, 3, 4], [5, 6, 7, 8]], demo_slow [[10, 20, 30, 40], [50, 60, 70, 80]],
    demo_sink, false, 0, 0⟩

/-- A control thread that never arms a source, as in the sources. -/
def demo_control : Control := ⟨fun _ => none⟩

/-- A sink on `demo_profile` that refuses its next frame. -/
def demo_sink_refusing : OutputStream :=
  { demo_sink with refusals := [some "sink: frame refused"] }

/-- The engine streaming normally from a bound stream whose FIFO holds `buf`
(`count` samples a plane) and whose source is exhausted. -/
def demo_streaming (count : Int) (buf : List (List ℚ)) (sink : OutputStream) : Engine :=
  ⟨demo_bound count buf [], InputStream.InputStream_default, sink, true, 0, 0⟩


/-- An output profile of interleaved 16-bit stereo at 48 kHz, 1024 samples a frame. -/
def demo_profile_1024 : AVCodecContext :=
  { codec := none, sample_rate := 48000, ch_layout := ⟨2⟩, sample_fmt := .S16, frame_size := 1024 }

/-- A source that opens: one audio stream of 16-bit stereo at 44.1 kHz with
frames of 1152 samples. -/
def demo_demux : Demux :=
  { avformat_open_input := fun _ _ _ => (0, ⟨[]⟩),
    avformat_find_stream_info := fun _ => 0,
    av_find_best_stream := fun _ => 0,
    avcodec_find_decoder := fun _ _ => some ⟨0⟩,
    avcodec_parameters_to_context := fun _ _ => (0, ⟨none, 44100, ⟨2⟩, .S16, 1152⟩),
    avcodec_open2 := fun _ => 0 }


/-- The bound stream that the constructor builds on `demo_profile_1024` from
`demo_demux` in `demo_env`. -/
def demo_bound_1024 : InputStream :=
  match InputStream.InputStream_bound demo_env demo_demux "file:demo" 0 demo_profile_1024 0
      .realtime .silence with
  | .ret s _ => s
  | _ => InputStream.InputStream_default

/-- The synthetic white-noise stream that the constructor builds on
`demo_profile_1024` in `demo_env`. -/
def demo_synthetic_1024 : InputStream :=
  match InputStream.InputStream_synthetic demo_env demo_profile_1024 .white_noise with
  | .ok s => s
  | .error _ => InputStream.InputStream_default


/-- An output profile of interleaved 16-bit stereo at 48 kHz, two samples a frame. -/
def demo_profile_s16 : AVCodecContext :=
  { codec := none, sample_rate := 48000, ch_layout := ⟨2⟩, sample_fmt := .S16, frame_size := 2 }

/-- A bound stream on `demo_profile_s16` in the streaming state whose FIFO,
tagged interleaved 16-bit stereo, holds `count` samples in `buf`. -/
def demo_bound_s16 (count : Int) (buf : List (List ℚ)) : InputStream :=
  { (demo_bound 0 [] []) with
    m_output_codec_ctx := demo_profile_s16,
    m_frame := some ⟨.S16, ⟨2⟩, 48000, 2, [[0, 0, 0, 0]]⟩,
    m_swr_ctx := some { demo_swr with out_sample_fmt := .S16 },
    m_queue := some ⟨.S16, 2, count, buf⟩ }


/-- The environment `demo_env` in which `stop` is requested from the read of
number `n` on. -/
def demo_env_stop_at (n : Nat) : Env :=
  { demo_env with flags_stop := fun k => decide (n ≤ k) }


/-! ## Properties kept by a call -/

/-- The state a call leaves, when it returns or throws, satisfies `P`. -/
def Outcome.holds {ρ σ : Type} (P : σ → Prop) : Outcome ρ σ → Prop
  | .ret _ s => P s
  | .thrown _ s => P s
  | .undefined => True


/-- A packet of the audio stream that the decoder accepts and turns into one
frame of two samples a channel. -/
def demo_packet : AVPacket :=
  ⟨0, 0, [(0, ⟨.FLTP, ⟨2⟩, 48000, 2, [[1, 2], [3, 4]]⟩)]⟩


/-! ## The crossfade shape -/

/-- The shape `init_crossfade` gives the primary resampler through
`set_resampler_options(swr_ctx)`: planar float stereo output. -/
def xfade_shape (s : InputStream) : Bool :=
  match s.m_swr_ctx with
  | some c => decide (c.out_chlayout = AV_CHANNEL_LAYOUT_STEREO)
              && decide (c.out_sample_fmt = .FLTP)
  | none => false

/-- The engine about to fade, on `demo_profile_s16`, from a bound stream whose
source is exhausted and whose FIFO is empty to a bound stream holding two
frames. -/
def demo_fade_s16 : Engine :=
  ⟨demo_bound_s16 0 [[]], demo_bound_s16 4 [[1, 2, 3, 4, 5, 6, 7, 8]],
    { demo_sink with m_output_codec_ctx := demo_profile_s16 }, false, 0, 0⟩


/-! ## The value of one synthesised sample index -/

/-- The value `v` the synthesis loop computes at sample index `j` of a call that
starts when `std::rand` has been called `k` times: the modes draw no number
(silence) or one number per sample index (white noise); the value is converted
to `int16_t` when it is stored. -/
def synth_sample (E : Env) (mode : DefaultSourceModes) (k j : Nat) : ℚ :=
  match mode with
  | .silence => ((to_int16 (synth_value E .silence k).1 : Int) : ℚ)
  | .white_noise => ((to_int16 (synth_value E .white_noise (k + j)).1 : Int) : ℚ)


/-! ## binary32 arithmetic -/

/-- Rounding of a real number to the nearest integer, a tie going to the even
one (the rounding of the significand in IEEE 754 round-to-nearest-even). -/
def round_half_even (y : ℚ) : Int :=
  if y - ⌊y⌋ < 1 / 2 then ⌊y⌋
  else if 1 / 2 < y - ⌊y⌋ then ⌊y⌋ + 1
  else if ⌊y⌋ % 2 = 0 then ⌊y⌋
  else ⌊y⌋ + 1

/-- Exponent of the binade of `x` in binary32: the floor of the base-2 logarithm
of `|x|`, and -126 in the subnormal range and for 0. -/
def binary32_exponent (x : ℚ) : Int :=
  if x = 0 then -126 else max (Int.log 2 |x|) (-126)

/-- Spacing of the binary32 values of the binade of `x` (24 significand bits). -/
def binary32_ulp (x : ℚ) : ℚ := (2 : ℚ) ^ (binary32_exponent x - 23)

/-- The value of type `float` (IEEE 754 binary32) nearest to `x`, ties to even,
with gradual underflow. The exponent is not bounded above: this is the rounding
of the hardware as long as the result is finite, that is for `|x| < 2^128`. -/
def round_binary32 (x : ℚ) : ℚ := (round_half_even (x / binary32_ulp x) : ℚ) * binary32_ulp x

/-! ## The mixing loop in binary32

The samples of a planar float frame and the locals of `crossfade_frame` are of
type `float`. The definitions below are `crossfade_frame` and the loop of
`crossfade` once more, with every operation of the mixing loop rounded to
binary32 (each operation on its own, as without fused multiply-add). -/

/-- The local `non_dimensional_fade_time` of `crossfade_frame` as computed in
`float`: `1 - static_cast<float>(fade_time_remaining)/fade_time`, the two `int`s
converted, the quotient and the difference rounded. -/
def non_dimensional_fade_time_binary32 (fade_time_remaining fade_time : Int) : ℚ :=
  round_binary32
    (1 - round_binary32
      (round_binary32 ((fade_time_remaining : Int) : ℚ) / round_binary32 ((fade_time : Int) : ℚ)))

/-- The right-hand side of `*q = *q *(1-t) + *v * t` in `float`, for the gain
`t`, the outgoing sample `q` and the incoming sample `v`. -/
def mix_binary32 (t q v : ℚ) : ℚ :=
  round_binary32 (round_binary32 (q * round_binary32 (1 - t)) + round_binary32 (v * t))

/-- The inner loop of `crossfade_frame` over the `n` samples of one channel, in
`float`. -/
def fade_samples_binary32 (t : ℚ) : (n : Nat) → (q v : List ℚ) → Option (List ℚ)
  | 0, q, _ => some q
  | n + 1, qh :: qt, vh :: vt =>
    match fade_samples_binary32 t n qt vt with
    | some r => some (mix_binary32 t qh vh :: r)
    | none => none
  | _ + 1, _, _ => none

/-- The outer loop of `crossfade_frame` over `c` channels, in `float`. -/
def fade_channels_binary32 (t : ℚ) (n : Nat) : (c : Nat) → (qs vs : List (List ℚ)) →
    Option (List (List ℚ))
  | 0, qs, _ => some qs
  | c + 1, q :: qs, v :: vs =>
    match fade_samples_binary32 t n q v, fade_channels_binary32 t n c qs vs with
    | some r, some rs => some (r :: rs)
    | _, _ => none
  | _ + 1, qs, _ => if n = 0 then some qs else none

/-- Method `InputStream::crossfade_frame` with its mixing loop in `float`. -/
def crossfade_frame_binary32 (E : Env) (s : InputStream) (new_input_frame : Option AVFrame)
    (fade_time_remaining fade_time : Int) (k : Nat) :
    Outcome Bool (InputStream × Nat × Int) :=
  match get_one_output_frame E s k with
  | .undefined => .undefined
  | .thrown m (s1, k1) => .thrown m (s1, k1, fade_time_remaining)
  | .ret _ (s1, k1) =>
    match new_input_frame, s1.m_frame, s1.m_swr_ctx_xfade with
    | some nf, some frm, some xfade =>
      match fade_channels_binary32
          (non_dimensional_fade_time_binary32 fade_time_remaining fade_time)
          frm.nb_samples.toNat frm.ch_layout.nb_channels.toNat frm.data nf.data with
      | none => .undefined
      | some mixed =>
        let c := E.swr_convert xfade mixed frm.nb_samples mixed frm.nb_samples
        let s2 : InputStream :=
          { s1 with m_ret := c.1, m_swr_ctx_xfade := some c.2.2,
                    m_frame := some { frm with data := c.2.1 } }
        match get_frame_length_milliseconds s2 with
        | none => .undefined
        | some ms => .ret true (s2, k1, fade_time_remaining - ms)
    | _, _, _ => .undefined

/-- A bound stream on `demo_profile` whose FIFO holds one frame, every sample
of which is `x`. -/
def demo_const_stream (x : ℚ) : InputStream := demo_bound 2 [[x, x], [x, x]] []

/-- A frame of `demo_profile` every sample of which is `x`. -/
def demo_const_frame (x : ℚ) : AVFrame := ⟨.FLTP, ⟨2⟩, 48000, 2, [[x, x], [x, x]]⟩

theorem fade_samples_some (t : ℚ) : ∀ (n : Nat) (q v : List ℚ),
    n ≤ q.length → n ≤ v.length →
    ∃ r, fade_samples t n q v = some r ∧
      ∀ i x y, i < n → q[i]? = some x → v[i]? = some y →
        r[i]? = some (x * (1 - t) + y * t)
  | 0, q, v, _, _ => ⟨q, rfl, fun i x y hi => absurd hi (Nat.not_lt_zero i)⟩
  | n + 1, [], _, hq, _ => absurd hq (by simp)
  | n + 1, _ :: _, [], _, hv => absurd hv (by simp)
  | n + 1, qh :: qt, vh :: vt, hq, hv => by
    obtain ⟨r, hr, hpt⟩ := fade_samples_some t n qt vt
      (Nat.le_of_succ_le_succ hq) (Nat.le_of_succ_le_succ hv)
    refine ⟨(qh * (1 - t) + vh * t) :: r, by simp [fade_samples, hr], ?_⟩
    intro i x y hi hx hy
    cases i with
    | zero =>
      simp only [List.getElem?_cons_zero, Option.some.injEq] at hx hy ⊢
      rw [hx, hy]
    | succ j =>
      simp only [List.getElem?_cons_succ] at hx hy ⊢
      exact hpt j x y (Nat.lt_of_succ_lt_succ hi) hx hy

theorem fade_channels_some (t : ℚ) (n : Nat) : ∀ (c : Nat) (qs vs : List (List ℚ)),
    planes_hold c n qs = true → planes_hold c n vs = true →
    ∃ rs, fade_channels t n c qs vs = some rs ∧
      ∀ ch i x y, ch < c → i < n → sample_at qs ch i = some x → sample_at vs ch i = some y →
        sample_at rs ch i = some (x * (1 - t) + y * t)
  | 0, qs, vs, _, _ => ⟨qs, rfl, fun ch i x y hc => absurd hc (Nat.not_lt_zero ch)⟩
  | c + 1, [], _, hq, _ => by simp [planes_hold] at hq
  | c + 1, _ :: _, [], _, hv => by simp [planes_hold] at hv
  | c + 1, q :: qs, v :: vs, hq, hv => by
    simp only [planes_hold, Bool.and_eq_true, decide_eq_true_eq] at hq hv
    obtain ⟨r, hr, hpt⟩ := fade_samples_some t n q v hq.1 hv.1
    obtain ⟨rs, hrs, hch⟩ := fade_channels_some t n c qs vs hq.2 hv.2
    refine ⟨r :: rs, by simp [fade_channels, hr, hrs], ?_⟩
    intro ch i x y hc hi hx hy
    cases ch with
    | zero =>
      simp only [sample_at, List.getElem?_cons_zero] at hx hy ⊢
      exact hpt i x y hi hx hy
    | succ j =>
      simp only [sample_at, List.getElem?_cons_succ] at hx hy ⊢
      exact hch j i x y (Nat.lt_of_succ_lt_succ hc) hi hx hy

theorem planes_hold_sample : ∀ (c n : Nat) (data : List (List ℚ)) (ch i : Nat),
    planes_hold c n data = true → ch < c → i < n → ∃ x, sample_at data ch i = some x
  | 0, _, _, ch, _, _, hc, _ => absurd hc (Nat.not_lt_zero ch)
  | c + 1, n, [], _, _, h, _, _ => by simp [planes_hold] at h
  | c + 1, n, p :: ps, ch, i, h, hc, hi => by
    simp only [planes_hold, Bool.and_eq_true, decide_eq_true_eq] at h
    cases ch with
    | zero =>
      have hlt : i < p.length := Nat.lt_of_lt_of_le hi h.1
      exact ⟨p[i], by simp [sample_at, List.getElem?_eq_getElem hlt]⟩
    | succ j =>
      obtain ⟨x, hx⟩ := planes_hold_sample c n ps j i h.2 (Nat.lt_of_succ_lt_succ hc) hi
      exact ⟨x, by simpa [sample_at] using hx⟩

/-! ## C1: the linear mix of `crossfade_frame` -/

/-- C1. For every call of `crossfade_frame` with `total_ms > 0` whose inner
`get_one_output_frame` returns and whose frames hold the channels and samples
they announce (the rate being at least 1000 Hz, so that the frame length is
defined), the call returns true, and every sample `i` of every channel `c`
written by the mixing loop is `self[c][i]*(1-t) + incoming[c][i]*t` with the
single `t = 1 - remaining_ms/total_ms` computed from the value of `remaining_ms`
on entry; the mixed planes are then handed to the crossfade resampler. -/
theorem crossfade_frame_linear_mix (E : Env) (s : InputStream) (incoming : AVFrame)
    (remaining_ms total_ms : Int) (k : Nat) (b : Bool) (s1 : InputStream) (k1 : Nat)
    (self : AVFrame) (xfade : SwrContext)
    (_h_total : 0 < total_ms)
    (h_get : get_one_output_frame E s k = .ret b (s1, k1))
    (h_frame : s1.m_frame = some self)
    (h_xfade : s1.m_swr_ctx_xfade = some xfade)
    (h_self : planes_hold self.ch_layout.nb_channels.toNat self.nb_samples.toNat self.data = true)
    (h_incoming :
      planes_hold self.ch_layout.nb_channels.toNat self.nb_samples.toNat incoming.data = true)
    (h_rate : Int.tdiv self.sample_rate 1000 ≠ 0) :
    ∃ mixed : List (List ℚ),
      crossfade_frame E s (some incoming) remaining_ms total_ms k =
        .ret true
          (after_mix E s1 self xfade mixed, k1,
           remaining_ms - Int.tdiv self.nb_samples (Int.tdiv self.sample_rate 1000)) ∧
      ∀ (c i : Nat) (x y : ℚ),
        c < self.ch_layout.nb_channels.toNat → i < self.nb_samples.toNat →
        sample_at self.data c i = some x → sample_at incoming.data c i = some y →
        sample_at mixed c i =
          some (x * (1 - (1 - (remaining_ms : ℚ) / (total_ms : ℚ)))
                + y * (1 - (remaining_ms : ℚ) / (total_ms : ℚ))) := by
  obtain ⟨mixed, hmix, hpt⟩ :=
    fade_channels_some (1 - (remaining_ms : ℚ) / (total_ms : ℚ)) self.nb_samples.toNat
      self.ch_layout.nb_channels.toNat self.data incoming.data h_self h_incoming
  refine ⟨mixed, ?_, hpt⟩
  simp only [crossfade_frame, h_get, h_frame, h_xfade, hmix, get_frame_length_milliseconds,
    h_rate, if_false, after_mix]

/-- Witness for C1: halfway through a 5000 ms fade, sample 0 of channel 0. -/
theorem crossfade_frame_linear_mix_witness :
    ∃ mixed : List (List ℚ),
      crossfade_frame demo_env (demo_bound 2 [[1, 2], [3, 4]] []) (some demo_incoming)
          2500 5000 0 =
        .ret true
          ({ (demo_bound 0 [[], []] []) with
              m_ret := 2, m_frame := some ⟨.FLTP, ⟨2⟩, 48000, 2, mixed⟩ }, 0, 2500 - 0) ∧
      sample_at mixed 0 0 =
        some (1 * (1 - (1 - (2500 : ℚ) / 5000)) + 10 * (1 - (2500 : ℚ) / 5000)) := by
  obtain ⟨mixed, h, hpt⟩ := crossfade_frame_linear_mix demo_env (demo_bound 2 [[1, 2], [3, 4]] [])
    demo_incoming 2500 5000 0 true
    { (demo_bound 0 [[], []] []) with
        m_frame := some ⟨.FLTP, ⟨2⟩, 48000, 2, [[1, 2], [3, 4]]⟩ } 0
    ⟨.FLTP, ⟨2⟩, 48000, 2, [[1, 2], [3, 4]]⟩ demo_swr (by decide) (by decide) rfl rfl
    (by decide) (by decide) (by decide)
  exact ⟨mixed, by simpa [after_mix] using h,
    by simpa using hpt 0 0 1 10 (by decide) (by decide) rfl rfl⟩

/-! ## C2: the endpoints of the fade -/

/-- C2. Crossfade endpoints, for every pair of frames that hold the channels and
samples announced (inner `get_one_output_frame` returning, `total_ms > 0`, rate
of at least 1000 Hz): called with `remaining_ms = total_ms`, `crossfade_frame`
returns with every mixed sample equal to the outgoing (self) sample; called with
`remaining_ms = 0`, it returns with every mixed sample equal to the incoming
sample. -/
theorem crossfade_frame_endpoints (E : Env) (s : InputStream) (incoming : AVFrame)
    (total_ms : Int) (k : Nat) (b : Bool) (s1 : InputStream) (k1 : Nat)
    (self : AVFrame) (xfade : SwrContext)
    (h_total : 0 < total_ms)
    (h_get : get_one_output_frame E s k = .ret b (s1, k1))
    (h_frame : s1.m_frame = some self)
    (h_xfade : s1.m_swr_ctx_xfade = some xfade)
    (h_self : planes_hold self.ch_layout.nb_channels.toNat self.nb_samples.toNat self.data = true)
    (h_incoming :
      planes_hold self.ch_layout.nb_channels.toNat self.nb_samples.toNat incoming.data = true)
    (h_rate : Int.tdiv self.sample_rate 1000 ≠ 0) :
    (∃ mixed : List (List ℚ),
      crossfade_frame E s (some incoming) total_ms total_ms k =
        .ret true
          (after_mix E s1 self xfade mixed, k1,
           total_ms - Int.tdiv self.nb_samples (Int.tdiv self.sample_rate 1000)) ∧
      ∀ (c i : Nat) (x : ℚ),
        c < self.ch_layout.nb_channels.toNat → i < self.nb_samples.toNat →
        sample_at self.data c i = some x → sample_at mixed c i = some x) ∧
    (∃ mixed : List (List ℚ),
      crossfade_frame E s (some incoming) 0 total_ms k =
        .ret true
          (after_mix E s1 self xfade mixed, k1,
           0 - Int.tdiv self.nb_samples (Int.tdiv self.sample_rate 1000)) ∧
      ∀ (c i : Nat) (y : ℚ),
        c < self.ch_layout.nb_channels.toNat → i < self.nb_samples.toNat →
        sample_at incoming.data c i = some y → sample_at mixed c i = some y) := by
  have hne : ((total_ms : Int) : ℚ) ≠ 0 := by
    have : total_ms ≠ 0 := by omega
    exact_mod_cast this
  constructor
  · obtain ⟨mixed, hmix, hpt⟩ :=
      fade_channels_some (1 - (total_ms : ℚ) / (total_ms : ℚ)) self.nb_samples.toNat
        self.ch_layout.nb_channels.toNat self.data incoming.data h_self h_incoming
    refine ⟨mixed, ?_, ?_⟩
    · simp only [crossfade_frame, h_get, h_frame, h_xfade, hmix, get_frame_length_milliseconds,
        h_rate, if_false, after_mix]
    · intro c i x hc hi hx
      obtain ⟨y, hy⟩ := planes_hold_sample _ _ incoming.data c i h_incoming hc hi
      rw [hpt c i x y hc hi hx hy, div_self hne]
      simp
  · obtain ⟨mixed, hmix, hpt⟩ :=
      fade_channels_some (1 - ((0 : Int) : ℚ) / (total_ms : ℚ)) self.nb_samples.toNat
        self.ch_layout.nb_channels.toNat self.data incoming.data h_self h_incoming
    refine ⟨mixed, ?_, ?_⟩
    · simp only [crossfade_frame, h_get, h_frame, h_xfade, hmix, get_frame_length_milliseconds,
        h_rate, if_false, after_mix]
    · intro c i y hc hi hy
      obtain ⟨x, hx⟩ := planes_hold_sample _ _ self.data c i h_self hc hi
      rw [hpt c i x y hc hi hx hy]
      simp

/-- Witness for C2: a 5000 ms fade on the demo stream, sample 1 of channel 1. -/
theorem crossfade_frame_endpoints_witness :
    (∃ mixed : List (List ℚ),
      crossfade_frame demo_env (demo_bound 2 [[1, 2], [3, 4]] []) (some demo_incoming)
          5000 5000 0 =
        .ret true
          ({ (demo_bound 0 [[], []] []) with
              m_ret := 2, m_frame := some ⟨.FLTP, ⟨2⟩, 48000, 2, mixed⟩ }, 0, 5000 - 0) ∧
      sample_at mixed 1 1 = some 4) ∧
    (∃ mixed : List (List ℚ),
      crossfade_frame demo_env (demo_bound 2 [[1, 2], [3, 4]] []) (some demo_incoming)
          0 5000 0 =
        .ret true
          ({ (demo_bound 0 [[], []] []) with
              m_ret := 2, m_frame := some ⟨.FLTP, ⟨2⟩, 48000, 2, mixed⟩ }, 0, 0 - 0) ∧
      sample_at mixed 1 1 = some 40) := by
  obtain ⟨⟨m1, h1, p1⟩, ⟨m2, h2, p2⟩⟩ :=
    crossfade_frame_endpoints demo_env (demo_bound 2 [[1, 2], [3, 4]] [])
      demo_incoming 5000 0 true
      { (demo_bound 0 [[], []] []) with
          m_frame := some ⟨.FLTP, ⟨2⟩, 48000, 2, [[1, 2], [3, 4]]⟩ } 0
      ⟨.FLTP, ⟨2⟩, 48000, 2, [[1, 2], [3, 4]]⟩ demo_swr (by decide) (by decide) rfl rfl
      (by decide) (by decide) (by decide)
  exact ⟨⟨m1, by simpa [after_mix] using h1, p1 1 1 4 (by decide) (by decide) rfl⟩,
    ⟨m2, by simpa [after_mix] using h2, p2 1 1 40 (by decide) (by decide) rfl⟩⟩

/-! ## C3: the placeholder stream -/

/-- C3. For a default-constructed (placeholder) `InputStream`, that is one whose
working frame, temporary frame or primary resampler is absent,
`get_one_output_frame` returns false, throws nothing, and leaves every field of
the stream (and the state of `std::rand`) as it was. -/
theorem get_one_output_frame_placeholder (E : Env) (s : InputStream) (k : Nat)
    (h : s.m_frame = none ∨ s.m_temp_frame = none ∨ s.m_swr_ctx = none) :
    get_one_output_frame E s k = .ret false (s, k) := by
  unfold get_one_output_frame
  rcases h with h | h | h
  · cases ht : s.m_temp_frame <;> simp [h]
  · simp [h]
  · cases ht : s.m_temp_frame <;> cases hf : s.m_frame <;> simp [h]

/-- Witness for C3: the default-constructed stream. -/
theorem get_one_output_frame_placeholder_witness :
    get_one_output_frame demo_env InputStream.InputStream_default 0
      = .ret false (InputStream.InputStream_default, 0) :=
  get_one_output_frame_placeholder demo_env InputStream.InputStream_default 0 (Or.inl rfl)

/-! ## C4: synthetic silence -/

theorem to_int16_zero : ((to_int16 0 : Int) : ℚ) = 0 := by
  simp [to_int16]

theorem synth_fill_silence (E : Env) (nb_channels : Int) : ∀ (count k : Nat),
    synth_fill E .silence nb_channels count k
      = (List.replicate (count * nb_channels.toNat) 0, k)
  | 0, k => by simp [synth_fill]
  | count + 1, k => by
    simp only [synth_fill, synth_value, synth_fill_silence E nb_channels count k,
      to_int16_zero]
    rw [Nat.succ_mul, Nat.add_comm (count * nb_channels.toNat), List.replicate_add]

theorem synth_frame_eq (E : Env) (mode : DefaultSourceModes) (tmp : AVFrame) (k : Nat)
    (h : tmp.data ≠ [] ∨
      (synth_fill E mode tmp.ch_layout.nb_channels tmp.nb_samples.toNat k).1 = []) :
    synth_frame E mode tmp k =
      some ({ tmp with
                data := (store_first
                  (synth_fill E mode tmp.ch_layout.nb_channels tmp.nb_samples.toNat k).1
                  tmp.data) },
            (synth_fill E mode tmp.ch_layout.nb_channels tmp.nb_samples.toNat k).2) := by
  unfold synth_frame
  cases hd : tmp.data with
  | nil =>
    have hw : (synth_fill E mode tmp.ch_layout.nb_channels tmp.nb_samples.toNat k).1 = [] := by
      rcases h with h | h
      · exact absurd hd h
      · exact h
    cases tmp
    simp only at hd
    subst hd
    simp [hw, store_first]
  | cons p ps => simp [store_first]

theorem store_replicate_getElem (m : Nat) (x : ℚ) (p : List ℚ) (i : Nat) (hi : i < m) :
    (store (List.replicate m x) p)[i]? = some x := by
  unfold store
  rw [List.getElem?_append_left (by simpa using hi)]
  simp [hi]

/-- C4. For a synthetic `InputStream` (`source_valid = false`) in silence mode
whose temporary frame has its buffer (or no sample to hold),
`get_one_output_frame` writes 0 to every sample of every channel of the
synthesised 16-bit frame (`nb_samples * nb_channels` values from the start of
its interleaved plane), calls `std::rand` not at all, and returns true; it
fails, by throwing, exactly when the resampler conversion reports an error (a
negative result). -/
theorem get_one_output_frame_silence (E : Env) (s : InputStream) (k : Nat)
    (tmp frm : AVFrame) (swr : SwrContext)
    (h_valid : s.m_source_valid = false) (h_mode : s.m_source_mode = .silence)
    (h_tmp : s.m_temp_frame = some tmp) (h_frm : s.m_frame = some frm)
    (h_swr : s.m_swr_ctx = some swr)
    (h_buf : tmp.data ≠ [] ∨ tmp.nb_samples.toNat * tmp.ch_layout.nb_channels.toNat = 0) :
    get_one_output_frame E s k =
      (if (E.swr_convert swr frm.data tmp.nb_samples (silence_frame tmp).data
            tmp.nb_samples).1 < 0
       then .thrown "Default input: error resampling frame"
         (after_synth E s (silence_frame tmp) frm swr, k)
       else .ret true (after_synth E s (silence_frame tmp) frm swr, k)) ∧
    ∀ p ps i, tmp.data = p :: ps →
      i < tmp.nb_samples.toNat * tmp.ch_layout.nb_channels.toNat →
      ∃ p1, (silence_frame tmp).data = p1 :: ps ∧ p1[i]? = some 0 := by
  constructor
  · have hs := synth_frame_eq E .silence tmp k (by
      rcases h_buf with h | h
      · exact Or.inl h
      · right
        rw [synth_fill_silence, h]
        rfl)
    rw [synth_fill_silence] at hs
    simp only [get_one_output_frame, h_tmp, h_frm, h_swr, h_valid, h_mode, hs, after_synth,
      silence_frame, Bool.not_false, if_true]
  · intro p ps i hd hi
    refine ⟨store (List.replicate (tmp.nb_samples.toNat * tmp.ch_layout.nb_channels.toNat) 0) p,
      ?_, store_replicate_getElem _ 0 p i hi⟩
    simp [silence_frame, hd, store_first]

/-- Witness for C4: the synthetic silence stream built by the constructor. -/
theorem get_one_output_frame_silence_witness :
    get_one_output_frame demo_env (demo_synthetic .silence) 7 =
      .ret true
        ({ (demo_synthetic .silence) with
            m_ret := 2, m_frame := some ⟨.FLTP, ⟨2⟩, 48000, 2, [[0, 0, 0, 0]]⟩ }, 7) := by
  have h := (get_one_output_frame_silence demo_env (demo_synthetic .silence) 7
    ⟨.S16, ⟨2⟩, 48000, 2, [[0, 0, 0, 0]]⟩ ⟨.FLTP, ⟨2⟩, 48000, 2, [[0, 0], [0, 0]]⟩
    demo_swr rfl rfl rfl rfl rfl (Or.inl (by decide))).1
  rw [h]
  rfl

/-! ## C5: amplitude of the white noise -/

theorem trunc_to_int_bound (x : ℚ) (b : Int) (hb : 0 ≤ b) (hlo : -(b : ℚ) ≤ x)
    (hhi : x ≤ (b : ℚ)) : -b ≤ trunc_to_int x ∧ trunc_to_int x ≤ b := by
  unfold trunc_to_int
  split
  · rename_i h0
    constructor
    · have : 0 ≤ ⌊x⌋ := Int.floor_nonneg.mpr h0
      omega
    · have h1 : ((⌊x⌋ : Int) : ℚ) ≤ (b : ℚ) := le_trans (Int.floor_le x) hhi
      exact_mod_cast h1
  · rename_i h0
    have hneg : x < 0 := lt_of_not_ge h0
    constructor
    · have h1 : ((-b : Int) : ℚ) ≤ ((⌈x⌉ : Int) : ℚ) := by
        push_cast
        exact le_trans hlo (Int.le_ceil x)
      exact_mod_cast h1
    · have h1 : ⌈x⌉ ≤ 0 := Int.ceil_le.mpr (by exact_mod_cast le_of_lt hneg)
      omega

theorem white_noise_value_bound (E : Env) (k : Nat) (h_max : 0 < E.RAND_MAX)
    (h_rand : 0 ≤ E.rand k ∧ E.rand k ≤ E.RAND_MAX) :
    -50 ≤ (synth_value E .white_noise k).1 ∧ (synth_value E .white_noise k).1 ≤ 50 := by
  have hM : (0 : ℚ) < ((E.RAND_MAX : Int) : ℚ) := by exact_mod_cast h_max
  have h0 : (0 : ℚ) ≤ ((E.rand k : Int) : ℚ) := by exact_mod_cast h_rand.1
  have h1 : ((E.rand k : Int) : ℚ) ≤ ((E.RAND_MAX : Int) : ℚ) := by exact_mod_cast h_rand.2
  have hq0 : (0 : ℚ) ≤ ((E.rand k : Int) : ℚ) / ((E.RAND_MAX : Int) : ℚ) := div_nonneg h0 hM.le
  have hq1 : ((E.rand k : Int) : ℚ) / ((E.RAND_MAX : Int) : ℚ) ≤ 1 := (div_le_one hM).mpr h1
  simp only [synth_value]
  apply trunc_to_int_bound _ 50 (by decide)
  · push_cast; linarith
  · push_cast; linarith

theorem to_int16_small (v : Int) (h : -50 ≤ v ∧ v ≤ 50) : to_int16 v = v := by
  unfold to_int16
  omega

theorem synth_fill_white_noise (E : Env) (nb_channels : Int) (h_max : 0 < E.RAND_MAX)
    (h_rand : ∀ k, 0 ≤ E.rand k ∧ E.rand k ≤ E.RAND_MAX) : ∀ (count k : Nat),
    (synth_fill E .white_noise nb_channels count k).1.length = count * nb_channels.toNat ∧
    (synth_fill E .white_noise nb_channels count k).2 = k + count ∧
    ∀ x ∈ (synth_fill E .white_noise nb_channels count k).1,
      ∃ v : Int, x = (v : ℚ) ∧ -50 ≤ v ∧ v ≤ 50
  | 0, k => by simp [synth_fill]
  | count + 1, k => by
    obtain ⟨hl, hk, hb⟩ := synth_fill_white_noise E nb_channels h_max h_rand count (k + 1)
    have hv := white_noise_value_bound E k h_max (h_rand k)
    have hk2 : (synth_value E .white_noise k).2 = k + 1 := rfl
    refine ⟨?_, ?_, ?_⟩
    · simp only [synth_fill, hk2, List.length_append, List.length_replicate, hl]
      rw [Nat.succ_mul, Nat.add_comm]
    · simp only [synth_fill, hk2, hk]
      omega
    · intro x hx
      simp only [synth_fill, hk2, List.mem_append] at hx
      rcases hx with hx | hx
      · refine ⟨(synth_value E .white_noise k).1, ?_, hv⟩
        rw [List.eq_of_mem_replicate hx, to_int16_small _ hv]
      · exact hb x hx

/-- C5. In white-noise mode, when `std::rand` only returns values between 0 and
`RAND_MAX` (and `RAND_MAX > 0`), every 16-bit sample the synthesis loop writes is
an integer `v` with `-50 <= v <= 50`, both in `InputStream::get_one_output_frame`
and in `DefaultInputStream::get_one_output_frame`; each call writes
`nb_samples * nb_channels` such values at the start of the interleaved plane and
draws `nb_samples` random numbers. -/
theorem white_noise_amplitude (E : Env) (h_max : 0 < E.RAND_MAX)
    (h_rand : ∀ k, 0 ≤ E.rand k ∧ E.rand k ≤ E.RAND_MAX) :
    (∀ (s : InputStream) (k : Nat) (tmp frm : AVFrame) (swr : SwrContext),
      s.m_source_valid = false → s.m_source_mode = .white_noise →
      s.m_temp_frame = some tmp → s.m_frame = some frm → s.m_swr_ctx = some swr →
      (tmp.data ≠ [] ∨ tmp.nb_samples.toNat * tmp.ch_layout.nb_channels.toNat = 0) →
      ∃ written : List ℚ,
        written.length = tmp.nb_samples.toNat * tmp.ch_layout.nb_channels.toNat ∧
        (∀ x ∈ written, ∃ v : Int, x = (v : ℚ) ∧ -50 ≤ v ∧ v ≤ 50) ∧
        get_one_output_frame E s k =
          (if (E.swr_convert swr frm.data tmp.nb_samples (store_first written tmp.data)
                tmp.nb_samples).1 < 0
           then .thrown "Default input: error resampling frame"
             (after_synth E s { tmp with data := store_first written tmp.data } frm swr,
              k + tmp.nb_samples.toNat)
           else .ret true
             (after_synth E s { tmp with data := store_first written tmp.data } frm swr,
              k + tmp.nb_samples.toNat))) ∧
    (∀ (d : DefaultInputStream) (k : Nat) (tmp frm : AVFrame) (swr : SwrContext),
      d.m_temp_frame = some tmp → d.m_frame = some frm → d.m_swr_ctx = some swr →
      (tmp.data ≠ [] ∨ tmp.nb_samples.toNat * tmp.ch_layout.nb_channels.toNat = 0) →
      ∃ written : List ℚ,
        written.length = tmp.nb_samples.toNat * tmp.ch_layout.nb_channels.toNat ∧
        (∀ x ∈ written, ∃ v : Int, x = (v : ℚ) ∧ -50 ≤ v ∧ v ≤ 50) ∧
        DefaultInputStream.get_one_output_frame E d .white_noise k =
          (if (E.swr_convert swr frm.data tmp.nb_samples (store_first written tmp.data)
                tmp.nb_samples).1 < 0
           then .thrown "Default input: error resampling frame"
             ((after_synth_default E d { tmp with data := store_first written tmp.data }
                frm swr).cleanup,
              k + tmp.nb_samples.toNat)
           else .ret true
             (after_synth_default E d { tmp with data := store_first written tmp.data } frm swr,
              k + tmp.nb_samples.toNat))) := by
  constructor
  · intro s k tmp frm swr h_valid h_mode h_tmp h_frm h_swr h_buf
    obtain ⟨hl, hk, hb⟩ := synth_fill_white_noise E tmp.ch_layout.nb_channels h_max h_rand
      tmp.nb_samples.toNat k
    have hs := synth_frame_eq E .white_noise tmp k (by
      rcases h_buf with h | h
      · exact Or.inl h
      · right
        rw [h] at hl
        exact List.length_eq_zero.mp hl)
    rw [hk] at hs
    refine ⟨_, hl, hb, ?_⟩
    simp only [get_one_output_frame, h_tmp, h_frm, h_swr, h_valid, h_mode, hs, after_synth,
      Bool.not_false, if_true]
  · intro d k tmp frm swr h_tmp h_frm h_swr h_buf
    obtain ⟨hl, hk, hb⟩ := synth_fill_white_noise E tmp.ch_layout.nb_channels h_max h_rand
      tmp.nb_samples.toNat k
    have hs := synth_frame_eq E .white_noise tmp k (by
      rcases h_buf with h | h
      · exact Or.inl h
      · right
        rw [h] at hl
        exact List.length_eq_zero.mp hl)
    rw [hk] at hs
    refine ⟨_, hl, hb, ?_⟩
    simp only [DefaultInputStream.get_one_output_frame, h_tmp, h_frm, h_swr, hs,
      after_synth_default]

theorem demo_env_rand_range (k : Nat) :
    0 ≤ demo_env.rand k ∧ demo_env.rand k ≤ demo_env.RAND_MAX := by
  simp only [demo_env]
  omega

/-- Witness for C5: the synthetic white-noise stream and the default stream of
the demo configuration. -/
theorem white_noise_amplitude_witness :
    (∃ written : List ℚ,
      written.length = 4 ∧ (∀ x ∈ written, ∃ v : Int, x = (v : ℚ) ∧ -50 ≤ v ∧ v ≤ 50) ∧
      get_one_output_frame demo_env (demo_synthetic .white_noise) 0 =
        .ret true
          (after_synth demo_env (demo_synthetic .white_noise)
            ⟨.S16, ⟨2⟩, 48000, 2, [store written [0, 0, 0, 0]]⟩
            ⟨.FLTP, ⟨2⟩, 48000, 2, [[0, 0], [0, 0]]⟩ demo_swr, 2)) ∧
    (∃ written : List ℚ,
      written.length = 4 ∧ (∀ x ∈ written, ∃ v : Int, x = (v : ℚ) ∧ -50 ≤ v ∧ v ≤ 50) ∧
      DefaultInputStream.get_one_output_frame demo_env demo_default_stream .white_noise 0 =
        .ret true
          (after_synth_default demo_env demo_default_stream
            ⟨.S16, ⟨2⟩, 48000, 2, [store written [0, 0, 0, 0]]⟩
            ⟨.FLTP, ⟨2⟩, 48000, 2, [[0, 0], [0, 0]]⟩ demo_swr, 2)) := by
  have h := white_noise_amplitude demo_env (by decide) demo_env_rand_range
  constructor
  · obtain ⟨w, hl, hb, he⟩ := h.1 (demo_synthetic .white_noise) 0
      ⟨.S16, ⟨2⟩, 48000, 2, [[0, 0, 0, 0]]⟩ ⟨.FLTP, ⟨2⟩, 48000, 2, [[0, 0], [0, 0]]⟩
      demo_swr rfl rfl rfl rfl rfl (Or.inl (by decide))
    exact ⟨w, hl, hb, by rw [he]; rfl⟩
  · obtain ⟨w, hl, hb, he⟩ := h.2 demo_default_stream 0
      ⟨.S16, ⟨2⟩, 48000, 2, [[0, 0, 0, 0]]⟩ ⟨.FLTP, ⟨2⟩, 48000, 2, [[0, 0], [0, 0]]⟩
      demo_swr rfl rfl rfl (Or.inl (by decide))
    exact ⟨w, hl, hb, by rw [he]; rfl⟩

/-! ## C6: one whole frame is read from the FIFO -/

theorem fifo_pop_zero (q : AVAudioFifo) : fifo_pop q 0 = q := by
  have hid : (List.drop 0 : List ℚ → List ℚ) = id := by
    funext l
    rfl
  cases q
  simp [fifo_pop, hid]

theorem av_audio_fifo_read_whole (q : AVAudioFifo) (data : List (List ℚ)) (n : Int)
    (h0 : 0 ≤ n) (hle : n ≤ q.nb_samples) :
    (av_audio_fifo_read q data n).1 = n ∧ (av_audio_fifo_read q data n).2.2 = fifo_pop q n := by
  unfold av_audio_fifo_read
  rw [if_neg (not_lt.mpr h0)]
  simp only [min_eq_left hle]
  by_cases hz : n = 0
  · subst hz
    simp [fifo_pop_zero]
  · rw [if_neg hz]
    exact ⟨rfl, rfl⟩

theorem read_output_frame_whole (s : InputStream) (q : AVAudioFifo) (frm : AVFrame)
    (hq : s.m_queue = some q) (hf : s.m_frame = some frm)
    (h0 : 0 ≤ s.m_output_frame_size) (hle : s.m_output_frame_size ≤ av_audio_fifo_size q) :
    read_output_frame s = .ret true (after_read s q frm) := by
  obtain ⟨h1, h2⟩ := av_audio_fifo_read_whole q frm.data s.m_output_frame_size h0 hle
  simp only [read_output_frame, hq, hf, h1, h2, lt_irrefl, if_false, after_read]

theorem resample_one_input_frame_frame_size (E : Env) (s s1 : InputStream) (r : Int)
    (h : resample_one_input_frame E s = .ret r s1) :
    s1.m_output_frame_size = s.m_output_frame_size := by
  unfold resample_one_input_frame at h
  split at h
  · simp only at h
    split at h <;> (cases h; rfl)
  · cases h

theorem receive_frames_frame_size (E : Env) : ∀ (pending : List (Int × AVFrame))
    (s s1 : InputStream), receive_frames E pending s = .ret () s1 →
    s1.m_output_frame_size = s.m_output_frame_size
  | [], s, s1, h => by
    simp only [receive_frames] at h
    cases h; rfl
  | (r, f) :: rest, s, s1, h => by
    simp only [receive_frames] at h
    split at h
    · split at h
      · cases h; rfl
      · cases h
    · split at h
      · cases h
      · cases h
      · rename_i r2 s2 hres
        have h2 := resample_one_input_frame_frame_size E _ _ _ hres
        split at h
        · cases h
        · split at h
          · split at h
            · cases h
            · have h3 := receive_frames_frame_size E rest _ s1 h
              simp only at h3
              rw [h3, h2]
          · cases h

theorem decode_loop_ret (E : Env) : ∀ (packets : List (Int × AVPacket)) (s s1 : InputStream),
    decode_loop E packets s = .ret () s1 →
    s1.m_output_frame_size = s.m_output_frame_size ∧
    ∃ q1, s1.m_queue = some q1 ∧ s1.m_output_frame_size < av_audio_fifo_size q1
  | [], s, s1, h => by
    unfold decode_loop at h
    split at h
    · cases h
    · rename_i q hq
      split at h
      · cases h
      · rename_i hsz
        cases h
        exact ⟨rfl, q, hq, lt_of_not_ge hsz⟩
  | (r, pkt) :: rest, s, s1, h => by
    unfold decode_loop at h
    split at h
    · cases h
    · rename_i q hq
      split at h
      · split at h
        · split at h <;> cases h
        · split at h
          · have h3 := decode_loop_ret E rest _ s1 h
            exact h3
          · split at h
            · cases h
            · split at h
              · cases h
              · split at h
                · cases h
                · cases h
                · rename_i s2 hrec
                  have h2 := receive_frames_frame_size E _ _ _ hrec
                  have h3 := decode_loop_ret E rest _ s1 h
                  exact ⟨by rw [h3.1, h2], h3.2⟩
      · rename_i hsz
        cases h
        exact ⟨rfl, q, hq, lt_of_not_ge hsz⟩

theorem bound_streaming_fields (s : InputStream) (h : bound_streaming s = true) :
    s.m_source_valid = true ∧ (∃ fc, s.m_format_ctx = some fc) ∧ (∃ frm, s.m_frame = some frm) ∧
    (∃ tmp, s.m_temp_frame = some tmp) ∧ (∃ swr, s.m_swr_ctx = some swr) ∧
    (∃ q, s.m_queue = some q) ∧ 0 ≤ s.m_output_frame_size ∧
    s.m_output_frame_size = s.m_output_codec_ctx.frame_size := by
  simp only [bound_streaming, Bool.and_eq_true, decide_eq_true_eq, Option.isSome_iff_exists] at h
  obtain ⟨⟨⟨⟨⟨⟨⟨⟨⟨⟨hv, hfc⟩, _⟩, _⟩, hfrm⟩, htmp⟩, _⟩, h0⟩, hfs⟩, hq⟩, hswr⟩ := h
  refine ⟨hv, hfc, hfrm, htmp, ?_, ?_, h0, hfs⟩
  · cases hs : s.m_swr_ctx with
    | none => simp [hs] at hswr
    | some c => exact ⟨c, rfl⟩
  · cases hs : s.m_queue with
    | none => simp [hs] at hq
    | some q => exact ⟨q, rfl⟩

/-- C6. For every bound `InputStream` in streaming state: when the FIFO already
holds a frame's worth of samples the call returns true; and whenever
`get_one_output_frame` returns true, the current frame's `nb_samples` equals the
OutputProfile's frame size and the FIFO is the one that stood before the read
(the stream's own, or the one the decode loop left) with exactly that many
samples removed from its front, the FIFO having held at least that many: a
short read throws instead of succeeding. -/
theorem get_one_output_frame_whole_frame (E : Env) (s : InputStream) (k : Nat)
    (h_bound : bound_streaming s = true) :
    (∀ q frm, s.m_queue = some q → s.m_frame = some frm →
      s.m_output_codec_ctx.frame_size ≤ av_audio_fifo_size q →
      get_one_output_frame E s k = .ret true (after_read s q frm, k)) ∧
    (∀ s1 k1, get_one_output_frame E s k = .ret true (s1, k1) →
      ∃ s0 q frm1,
        (s0 = s ∨ ∃ fc, s.m_format_ctx = some fc ∧ decode_loop E fc.packets s = .ret () s0) ∧
        s0.m_queue = some q ∧
        s.m_output_codec_ctx.frame_size ≤ av_audio_fifo_size q ∧
        s1.m_frame = some frm1 ∧
        frm1.nb_samples = s.m_output_codec_ctx.frame_size ∧
        s1.m_queue = some (fifo_pop q s.m_output_codec_ctx.frame_size) ∧
        k1 = k) := by
  obtain ⟨hv, ⟨fc, hfc⟩, ⟨frm, hfrm⟩, ⟨tmp, htmp⟩, ⟨swr, hswr⟩, ⟨q, hq⟩, h0, hfs⟩ :=
    bound_streaming_fields s h_bound
  constructor
  · intro q2 frm2 hq2 hfrm2 hle
    rw [← hfs] at hle
    have hr := read_output_frame_whole s q2 frm2 hq2 hfrm2 h0 hle
    rw [hq] at hq2
    cases hq2
    simp only [get_one_output_frame, htmp, hfrm, hswr, hv, hq, ge_iff_le, hle, hr,
      Outcome.with_rand, Bool.not_true, if_true]
    rfl
  · intro s1 k1 h
    rw [← hfs]
    simp only [get_one_output_frame, htmp, hfrm, hswr, hv, hq, hfc, Bool.not_true] at h
    by_cases hle : s.m_output_frame_size ≤ av_audio_fifo_size q
    · have hr := read_output_frame_whole s q frm hq hfrm h0 hle
      simp only [ge_iff_le, hle, hr, Outcome.with_rand, if_true] at h
      simp only [Bool.false_eq_true, if_false, Outcome.ret.injEq, Prod.mk.injEq, true_and] at h
      obtain ⟨hs1, hk1⟩ := h
      subst hs1
      exact ⟨s, q, _, Or.inl rfl, hq, hle, rfl, rfl, rfl, hk1.symm⟩
    · simp only [ge_iff_le, hle, Bool.false_eq_true, if_false] at h
      cases hd : decode_loop E fc.packets s with
      | undefined => simp [hd] at h
      | thrown m s2 => simp [hd] at h
      | ret u s2 =>
        obtain ⟨hfs2, q2, hq2, hlt⟩ := decode_loop_ret E fc.packets s s2 hd
        simp only [hd] at h
        cases hf2 : s2.m_frame with
        | none => simp [read_output_frame, hq2, hf2, Outcome.with_rand] at h
        | some frm2 =>
          have hr := read_output_frame_whole s2 q2 frm2 hq2 hf2 (by rw [hfs2]; exact h0)
            (le_of_lt hlt)
          simp only [hr, Outcome.with_rand, Outcome.ret.injEq, Prod.mk.injEq, true_and] at h
          obtain ⟨hs1, hk1⟩ := h
          subst hs1
          refine ⟨s2, q2, _, Or.inr ⟨fc, hfc, hd⟩, hq2, ?_, rfl, ?_, ?_, hk1.symm⟩
          · rw [← hfs2]; exact le_of_lt hlt
          · simp [after_read, hfs2]
          · simp [after_read, hfs2]

/-- Witness for C6. First a bound stream whose FIFO holds three samples per
channel; then one whose FIFO is empty and whose source delivers a packet that
decodes to three samples, so that the frame is read after the decode loop. -/
theorem get_one_output_frame_whole_frame_witness :
    get_one_output_frame demo_env (demo_bound 3 [[1, 2, 3], [4, 5, 6]] []) 0 =
      .ret true
        ({ (demo_bound 1 [[3], [6]] []) with
            m_frame := some ⟨.FLTP, ⟨2⟩, 48000, 2, [[1, 2], [4, 5]]⟩ }, 0) ∧
    ∃ s1 q frm1,
      get_one_output_frame demo_env
          (demo_bound 0 [[], []]
            [(0, ⟨0, 0, [(0, ⟨.S16, ⟨2⟩, 48000, 3, [[1, 2, 3], [4, 5, 6]]⟩)]⟩)]) 0
        = .ret true (s1, 0) ∧
      av_audio_fifo_size q = 3 ∧ s1.m_frame = some frm1 ∧ frm1.nb_samples = 2 ∧
      s1.m_queue = some (fifo_pop q 2) := by
  constructor
  · have h := (get_one_output_frame_whole_frame demo_env
      (demo_bound 3 [[1, 2, 3], [4, 5, 6]] []) 0 (by decide)).1
      ⟨.FLTP, 2, 3, [[1, 2, 3], [4, 5, 6]]⟩ ⟨.FLTP, ⟨2⟩, 48000, 2, [[0, 0], [0, 0]]⟩ rfl rfl
      (by decide)
    rw [h]
    decide
  · have hrun : ∃ s1, get_one_output_frame demo_env
          (demo_bound 0 [[], []]
            [(0, ⟨0, 0, [(0, ⟨.S16, ⟨2⟩, 48000, 3, [[1, 2, 3], [4, 5, 6]]⟩)]⟩)]) 0
        = .ret true (s1, 0) ∧ s1.m_queue = some ⟨.FLTP, 2, 1, [[3], [6]]⟩ := ⟨_, rfl, rfl⟩
    obtain ⟨s1, hs1, hq1⟩ := hrun
    obtain ⟨s0, q, frm1, _, _, _, hf, hn, hq, _⟩ :=
      (get_one_output_frame_whole_frame demo_env _ 0 (by decide)).2 s1 0 hs1
    refine ⟨s1, q, frm1, hs1, ?_, hf, hn, hq⟩
    rw [hq1] at hq
    simp only [fifo_pop, Option.some.injEq, AVAudioFifo.mk.injEq] at hq
    have h3 := hq.2.2.1
    simp only [demo_bound, demo_profile] at h3
    simp only [av_audio_fifo_size]
    omega

/-! ## C7: end of input and retry in the decode loop -/

/-- C7. In the decode loop of `get_one_output_frame` (FIFO not above one frame):
(1) an end-of-input result of `av_read_frame`, explicit or by exhaustion of the
source, makes the loop throw "no more packets, reached end of input";
(2) an exception of the decode loop is the outcome of the whole call on a bound
stream, which therefore returns neither true nor false;
(3) a retry (`EAGAIN`) result of `avcodec_receive_frame` ends the receive loop
normally, whatever the stream and whatever the decoder still holds;
(4) after a packet whose first answer from the decoder is `EAGAIN`, the decode
loop goes on with the next result of `av_read_frame`, the FIFO being untouched. -/
theorem decode_loop_eof_and_eagain (E : Env) (s : InputStream) (q : AVAudioFifo)
    (h_queue : s.m_queue = some q)
    (h_short : av_audio_fifo_size q ≤ s.m_output_frame_size) :
    (decode_loop E [] s =
        .thrown "no more packets, reached end of input"
          { s with m_ret := AVERROR_EOF, m_pkt := some av_packet_alloc } ∧
     ∀ pkt rest, decode_loop E ((AVERROR_EOF, pkt) :: rest) s =
        .thrown "no more packets, reached end of input"
          { s with m_ret := AVERROR_EOF, m_pkt := some av_packet_alloc,
                   m_format_ctx := some ⟨rest⟩ }) ∧
    (∀ (k : Nat) tmp frm swr fc m s1,
      s.m_source_valid = true → s.m_temp_frame = some tmp → s.m_frame = some frm →
      s.m_swr_ctx = some swr → av_audio_fifo_size q < s.m_output_frame_size →
      s.m_format_ctx = some fc → decode_loop E fc.packets s = .thrown m s1 →
      get_one_output_frame E s k = .thrown m (s1, k)) ∧
    (∀ (s2 : InputStream) f pending,
      receive_frames E ((AVERROR EAGAIN, f) :: pending) s2 =
        .ret () { s2 with m_ret := AVERROR EAGAIN, m_input_codec_ctx := some ⟨pending⟩,
                          m_temp_frame := some av_frame_alloc }) ∧
    (∀ r pkt rest f more,
      0 ≤ r → pkt.stream_index = s.m_stream_index → s.m_input_codec_ctx = some ⟨[]⟩ →
      0 ≤ pkt.send_ret → pkt.decoded = (AVERROR EAGAIN, f) :: more →
      decode_loop E ((r, pkt) :: rest) s =
        decode_loop E rest
          { s with m_ret := AVERROR EAGAIN, m_pkt := some av_packet_alloc,
                   m_format_ctx := some ⟨rest⟩, m_input_codec_ctx := some ⟨more⟩,
                   m_temp_frame := some av_frame_alloc }) := by
  have heof : AVERROR_EOF < 0 := by decide
  have hagain : AVERROR EAGAIN < 0 := by decide
  refine ⟨⟨?_, ?_⟩, ?_, ?_, ?_⟩
  · simp only [decode_loop, h_queue, h_short, if_true]
  · intro pkt rest
    simp only [decode_loop, h_queue, h_short, heof, if_true]
  · intro k tmp frm swr fc m s1 hv htmp hfrm hswr hlt hfc hd
    have hnot : ¬ (av_audio_fifo_size q ≥ s.m_output_frame_size) := not_le.mpr hlt
    simp only [get_one_output_frame, htmp, hfrm, hswr, hv, h_queue, hnot, hfc, hd,
      Bool.not_true, Bool.false_eq_true, if_false]
  · intro s2 f pending
    simp only [receive_frames, hagain, or_true, if_true]
  · intro r pkt rest f more hr hidx hdec hsend hdecoded
    have hr2 : ¬ r < 0 := not_lt.mpr hr
    have hs2 : ¬ pkt.send_ret < 0 := not_lt.mpr hsend
    simp only [decode_loop, h_queue, h_short, hr2, hidx, hdec, hs2, hdecoded, receive_frames,
      hagain, List.nil_append, ne_eq, not_true_eq_false, or_true, if_true, if_false]

/-- Witness for C7: an empty FIFO; the source delivers a packet the decoder
answers with `EAGAIN`, and then ends: the retry is swallowed, the next read is
made, and its end-of-input result is thrown. -/
theorem decode_loop_eof_and_eagain_witness :
    decode_loop demo_env [(0, ⟨0, 0, [(AVERROR EAGAIN, av_frame_alloc)]⟩)]
        (demo_bound 0 [[], []] []) =
      .thrown "no more packets, reached end of input"
        { (demo_bound 0 [[], []] []) with m_ret := AVERROR_EOF } := by
  have h := decode_loop_eof_and_eagain demo_env (demo_bound 0 [[], []] [])
    ⟨.FLTP, 2, 0, [[], []]⟩ rfl (by decide)
  rw [h.2.2.2 0 ⟨0, 0, [(AVERROR EAGAIN, av_frame_alloc)]⟩ [] av_frame_alloc []
    (by decide) rfl rfl (by decide) rfl]
  decide

/-! ## C8: the length of a frame in milliseconds -/

/-- C8, evaluated on the code. For a frame of 1024 samples at 11025 Hz,
`get_frame_length_milliseconds` answers 93 (1024 / (11025 / 1000) = 1024 / 11),
whereas the frame lasts floor(1000 * 1024 / 11025) = 92 whole milliseconds; the
same happens for 4096 samples at 44100 Hz (93 against 92). -/
theorem get_frame_length_milliseconds_truncates :
    get_frame_length_milliseconds
        { InputStream.InputStream_default with
            m_frame := some ⟨.FLTP, ⟨2⟩, 11025, 1024, []⟩ } = some 93 ∧
      (1000 * 1024 : Int) / 11025 = 92 ∧
    get_frame_length_milliseconds
        { InputStream.InputStream_default with
            m_frame := some ⟨.FLTP, ⟨2⟩, 44100, 4096, []⟩ } = some 93 ∧
      (1000 * 4096 : Int) / 44100 = 92 := by
  decide

theorem get_frame_length_milliseconds_whole_khz (s : InputStream) (f : AVFrame)
    (hs : s.m_frame = some f) (h : (1000 : Int) ∣ f.sample_rate) (hR : 0 < f.sample_rate)
    (hn : 0 ≤ f.nb_samples) :
    get_frame_length_milliseconds s = some ((1000 * f.nb_samples) / f.sample_rate) := by
  obtain ⟨k, hk⟩ := h
  have hpos : 0 < k := by omega
  have h1 : Int.tdiv f.sample_rate 1000 = k := by
    rw [hk, Int.tdiv_eq_ediv (by omega) (by decide), Int.mul_ediv_cancel_left k (by decide)]
  have h2 : ¬ k = 0 := by omega
  simp only [get_frame_length_milliseconds, hs, h1, h2, if_false]
  rw [Int.tdiv_eq_ediv hn (le_of_lt hpos), hk, Int.mul_ediv_mul_of_pos _ k (by decide)]

/-! ## Lemmas on the crossfade loop -/

theorem crossfade_loop_step (E : Env) (fuel : Nat) (W W1 : Engine) (r r1 : Int)
    (h : crossfade_step E W r = some (W1, r1)) :
    crossfade_loop E (fuel + 1) W r = crossfade_loop E fuel W1 r1 := by
  unfold crossfade_step at h
  split at h
  · rename_i hc
    obtain ⟨hr, hs⟩ := hc
    split at h
    · rename_i b ns k hget
      split at h
      · cases h
      · rename_i m src k2 rem2 hmix
        split at h
        · cases h
        · rename_i syn hsyn
          cases h
          simp only [crossfade_loop, hr, hs, hget, hmix, hsyn, Bool.not_false, if_true]
      · rename_i b2 src k2 rem2 hmix
        split at h
        · rename_i u sk hw
          cases h
          simp only [crossfade_loop, hr, hs, hget, hmix, hw, Bool.not_false, if_true]
        · cases h
    · cases h
  · cases h

theorem crossfade_loop_steps (E : Env) (fuel : Nat) : ∀ (n : Nat) (W W1 : Engine) (r r1 : Int),
    crossfade_steps E n W r = some (W1, r1) →
    crossfade_loop E (n + fuel) W r = crossfade_loop E fuel W1 r1
  | 0, W, W1, r, r1, h => by
    simp only [crossfade_steps, Option.some.injEq, Prod.mk.injEq] at h
    rw [Nat.zero_add, h.1, h.2]
  | n + 1, W, W1, r, r1, h => by
    simp only [crossfade_steps] at h
    split at h
    · rename_i W2 r2 hstep
      rw [Nat.add_right_comm, crossfade_loop_step E (n + fuel) W W2 r r2 hstep]
      exact crossfade_loop_steps E fuel n W2 W1 r2 r1 h
    · cases h

theorem crossfade_frame_thrown_remaining (E : Env) (s : InputStream)
    (new_input_frame : Option AVFrame) (fade_time_remaining fade_time : Int) (k : Nat)
    (m : String) (s1 : InputStream) (k1 : Nat) (r1 : Int)
    (h : crossfade_frame E s new_input_frame fade_time_remaining fade_time k
          = .thrown m (s1, k1, r1)) :
    r1 = fade_time_remaining ∧ get_one_output_frame E s k = .thrown m (s1, k1) := by
  unfold crossfade_frame at h
  split at h
  · cases h
  · rename_i m2 s2 k2 hget
    cases h
    exact ⟨rfl, hget⟩
  · split at h
    · simp only at h
      split at h
      · cases h
      · split at h <;> cases h
    · cases h

theorem InputStream_synthetic_fields (E : Env) (ctx : AVCodecContext)
    (mode : DefaultSourceModes) (syn : InputStream)
    (h : InputStream.InputStream_synthetic E ctx mode = .ok syn) :
    syn.m_source_valid = false ∧ syn.m_source_mode = mode ∧ syn.m_queue = none ∧
    (∃ swr, syn.m_swr_ctx = some swr) := by
  unfold InputStream.InputStream_synthetic at h
  split at h
  · cases h
  · split at h
    · cases h
    · simp only at h
      split at h
      · cases h
      · split at h
        · cases h
        · cases h
          exact ⟨rfl, rfl, rfl, _, rfl⟩

/-! ## The abort path of the fade -/

/-- The abort path of `crossfade` when its `end_crossfade` returns. If
`init_crossfade` throws on the outgoing stream, or on the incoming one, or if
pulling a frame from the incoming stream throws at an iteration of the fade
reached after any number `n` of whole iterations, then `crossfade` calls
`end_crossfade` on the outgoing stream and, if that call returns, returns the
reference to the outgoing stream; the assignment `source = crossfade(...)` of
the engine is then a self move-assignment and leaves the engine, the outgoing
stream and all its handles as `crossfade` left them. -/
theorem crossfade_abort_to_outgoing (E : Env) (fuel : Nat) (W W1 : Engine)
    (src1 : InputStream)
    (h_fail :
      (∃ m src, init_crossfade E W.source = .thrown m src ∧ W1 = { W with source := src }) ∨
      (∃ src m ns, init_crossfade E W.source = .ret () src ∧
        init_crossfade E W.new_source = .thrown m ns ∧
        W1 = { W with source := src, new_source := ns }) ∨
      (∃ src ns n Wn r m ns2 k, init_crossfade E W.source = .ret () src ∧
        init_crossfade E W.new_source = .ret () ns ∧
        crossfade_steps E n { W with source := src, new_source := ns } E.DEFAULT_FADE_MS
          = some (Wn, r) ∧
        n < fuel ∧ 0 < r ∧ E.flags_stop Wn.stop_reads = false ∧
        get_one_output_frame E Wn.new_source Wn.rand_calls = .thrown m (ns2, k) ∧
        W1 = { Wn with stop_reads := Wn.stop_reads + 1, new_source := ns2, rand_calls := k }))
    (h_end : end_crossfade E W1.source = .ret () src1) :
    crossfade E fuel W = some (.ret .source { W1 with source := src1 }) ∧
    assign_crossfade_result { W1 with source := src1 } .source = { W1 with source := src1 } := by
  refine ⟨?_, rfl⟩
  rcases h_fail with ⟨m, src, hi, hW⟩ | ⟨src, m, ns, hi, hn, hW⟩ |
    ⟨src, ns, n, Wn, r, m, ns2, k, hi, hn, hsteps, hlt, hr, hstop, hget, hW⟩
  · subst hW
    simp only [crossfade, hi, crossfade_abort, h_end]
  · subst hW
    simp only [crossfade, hi, hn, crossfade_abort, h_end]
  · subst hW
    obtain ⟨f, rfl⟩ : ∃ f, fuel = n + (f + 1) := ⟨fuel - n - 1, by omega⟩
    simp only [crossfade, hi, hn]
    rw [crossfade_loop_steps E (f + 1) n _ Wn _ r hsteps]
    simp only [crossfade_loop, hr, hstop, hget, crossfade_abort, h_end, Bool.not_false,
      if_true]

/-- Two runs of the abort path. First, the incoming stream is still the
default-constructed placeholder, so its `init_crossfade` throws and the bound
outgoing stream is kept. Second, a failure inside the fade: both streams hold
one frame, so the first iteration mixes and writes it, and the second pull from
the incoming stream meets the end of its input. -/
theorem crossfade_abort_to_outgoing_witness :
    (crossfade demo_env 0
        ⟨demo_bound 2 [[1, 2], [3, 4]] [], InputStream.InputStream_default, demo_sink,
          false, 0, 0⟩ =
      some (.ret .source
        ⟨demo_bound 2 [[1, 2], [3, 4]] [], InputStream.InputStream_default, demo_sink,
          false, 0, 0⟩) ∧
     assign_crossfade_result
        ⟨demo_bound 2 [[1, 2], [3, 4]] [], InputStream.InputStream_default, demo_sink,
          false, 0, 0⟩ .source =
      ⟨demo_bound 2 [[1, 2], [3, 4]] [], InputStream.InputStream_default, demo_sink,
        false, 0, 0⟩) ∧
    (∃ W1 : Engine,
      crossfade demo_env 2
          ⟨demo_bound 2 [[1, 2], [3, 4]] [], demo_bound 2 [[5, 6], [7, 8]] [], demo_sink,
            false, 0, 0⟩ = some (.ret .source W1) ∧
      assign_crossfade_result W1 .source = W1 ∧ W1.sink.written.length = 1) := by
  constructor
  · exact crossfade_abort_to_outgoing demo_env 0
      ⟨demo_bound 2 [[1, 2], [3, 4]] [], InputStream.InputStream_default, demo_sink, false, 0, 0⟩
      ⟨{ (demo_bound 2 [[1, 2], [3, 4]] []) with
          m_swr_ctx := some (set_resampler_options_xfade demo_swr) },
        InputStream.InputStream_default, demo_sink, false, 0, 0⟩
      (demo_bound 2 [[1, 2], [3, 4]] [])
      (Or.inr (Or.inl ⟨_, "Resampling context not allocated", InputStream.InputStream_default,
        rfl, rfl, rfl⟩))
      rfl
  · have h := crossfade_abort_to_outgoing demo_env 2
      ⟨demo_bound 2 [[1, 2], [3, 4]] [], demo_bound 2 [[5, 6], [7, 8]] [], demo_sink,
        false, 0, 0⟩
      _ _
      (Or.inr (Or.inr ⟨_, _, 1, _, _, _, _, _, rfl, rfl, rfl, by decide, by decide, rfl, rfl,
        rfl⟩))
      rfl
    exact ⟨_, h.1, h.2, rfl⟩

/-! ## C10: a failing outgoing stream is replaced by silence -/

/-- C10. If `outgoing.crossfade_frame` throws during the fade (the loop test
having passed and the incoming stream having delivered its frame), and the
synthetic silence stream can be constructed, then `crossfade` neither returns
nor ends the fade: `remaining_ms` keeps the value it had before the failed call,
nothing is written to the sink in this iteration, and the loop proceeds to its
next iteration with the outgoing stream replaced by the synthetic stream in
silence mode (`source_valid = false`). -/
theorem crossfade_outgoing_failure_continues (E : Env) (fuel : Nat) (W : Engine)
    (remaining_ms : Int) (b : Bool) (ns : InputStream) (k : Nat) (m : String)
    (src : InputStream) (k2 : Nat) (rem2 : Int) (syn : InputStream)
    (h_rem : 0 < remaining_ms) (h_stop : E.flags_stop W.stop_reads = false)
    (h_pull : get_one_output_frame E W.new_source W.rand_calls = .ret b (ns, k))
    (h_mix : crossfade_frame E W.source ns.get_frame remaining_ms E.DEFAULT_FADE_MS k
              = .thrown m (src, k2, rem2))
    (h_syn : InputStream.InputStream_synthetic E W.sink.m_output_codec_ctx .silence = .ok syn) :
    rem2 = remaining_ms ∧
    crossfade_loop E (fuel + 1) W remaining_ms =
      crossfade_loop E fuel
        { W with stop_reads := W.stop_reads + 1, new_source := ns,
                 source := (move_assign src syn).1, rand_calls := k2 } remaining_ms ∧
    (move_assign src syn).1.m_source_valid = false ∧
    (move_assign src syn).1.m_source_mode = .silence := by
  obtain ⟨hrem, _⟩ := crossfade_frame_thrown_remaining E _ _ _ _ _ _ _ _ _ h_mix
  obtain ⟨hv, hm, _, _⟩ := InputStream_synthetic_fields E _ _ _ h_syn
  refine ⟨hrem, ?_, hv, hm⟩
  subst hrem
  simp only [crossfade_loop, h_rem, h_stop, h_pull, h_mix, h_syn, Bool.not_false, if_true]

/-- Witness for C10: the outgoing stream has an empty FIFO and an exhausted
source, so its `crossfade_frame` throws at the first frame of the fade. -/
theorem crossfade_outgoing_failure_continues_witness :
    (5000 : Int) = 5000 ∧
    crossfade_loop demo_env (0 + 1)
        ⟨demo_bound 0 [[], []] [], demo_bound 2 [[1, 2], [3, 4]] [], demo_sink, false, 0, 0⟩
        5000 =
      crossfade_loop demo_env 0
        { (⟨demo_bound 0 [[], []] [], demo_bound 2 [[1, 2], [3, 4]] [], demo_sink, false, 0, 0⟩
            : Engine) with
          stop_reads := 0 + 1,
          new_source := { (demo_bound 0 [[], []] []) with
            m_frame := some ⟨.FLTP, ⟨2⟩, 48000, 2, [[1, 2], [3, 4]]⟩ },
          source := (move_assign
            { (demo_bound 0 [[], []] []) with m_ret := AVERROR_EOF }
            (demo_synthetic .silence)).1,
          rand_calls := 0 } 5000 ∧
    (move_assign { (demo_bound 0 [[], []] []) with m_ret := AVERROR_EOF }
      (demo_synthetic .silence)).1.m_source_valid = false ∧
    (move_assign { (demo_bound 0 [[], []] []) with m_ret := AVERROR_EOF }
      (demo_synthetic .silence)).1.m_source_mode = .silence :=
  crossfade_outgoing_failure_continues demo_env 0
    ⟨demo_bound 0 [[], []] [], demo_bound 2 [[1, 2], [3, 4]] [], demo_sink, false, 0, 0⟩
    5000 true
    { (demo_bound 0 [[], []] []) with m_frame := some ⟨.FLTP, ⟨2⟩, 48000, 2, [[1, 2], [3, 4]]⟩ }
    0 "no more packets, reached end of input"
    { (demo_bound 0 [[], []] []) with m_ret := AVERROR_EOF } 0 5000
    (demo_synthetic .silence) (by decide) rfl (by decide) (by decide) rfl

/-! ## C11: a fade in which nothing fails -/

theorem write_frame_ret (o : OutputStream) (src : InputStream) (u : Unit) (sk : OutputStream)
    (h : o.write_frame src = .ret u sk) :
    sk.written.length = o.written.length + 1 ∧ sk.finished = o.finished ∧
    sk.m_output_codec_ctx = o.m_output_codec_ctx ∧
    ∃ f, src.m_frame = some f ∧ sk.written = o.written ++ [f] := by
  unfold OutputStream.write_frame at h
  split at h
  · cases h
  · split at h
    · cases h
    · rename_i f hf
      cases h
      exact ⟨by simp, rfl, rfl, f, hf, rfl⟩
  · split at h
    · cases h
    · rename_i f hf
      cases h
      exact ⟨by simp, rfl, rfl, f, hf, rfl⟩

theorem fade_iteration_step (E : Env) (d : Int) (W W1 : Engine) (r : Int)
    (h : fade_iteration E d W r = some W1) :
    crossfade_step E W r = some (W1, r - d) ∧
    W1.sink.written.length = W.sink.written.length + 1 := by
  unfold fade_iteration at h
  split at h
  · rename_i hc
    split at h
    · rename_i b ns k hget
      split at h
      · rename_i b2 src k2 rem2 hmix
        split at h
        · rename_i hrem
          split at h
          · rename_i u sk hw
            cases h
            subst hrem
            refine ⟨?_, (write_frame_ret _ _ _ _ hw).1⟩
            simp only [crossfade_step, hc, hget, hmix, hw, and_self, if_true]
          · cases h
        · cases h
      · cases h
    · cases h
  · cases h

theorem fade_iterations_loop (E : Env) (d : Int) (W : Engine) (r : Int) :
    ∀ (n fuel : Nat) (Wn : Engine), fade_iterations E d W r n = some Wn →
      crossfade_loop E (n + fuel) W r = crossfade_loop E fuel Wn (r - n * d) ∧
      Wn.sink.written.length = W.sink.written.length + n
  | 0, fuel, Wn, h => by
    simp only [fade_iterations, Option.some.injEq] at h
    subst h
    simp
  | n + 1, fuel, Wn, h => by
    simp only [fade_iterations] at h
    split at h
    · rename_i Wm hm
      obtain ⟨hloop, hlen⟩ := fade_iterations_loop E d W r n (fuel + 1) Wm hm
      obtain ⟨hstep, hlen1⟩ := fade_iteration_step E d Wm Wn _ h
      refine ⟨?_, by omega⟩
      rw [Nat.add_right_comm, Nat.add_assoc, hloop,
        crossfade_loop_step E fuel Wm Wn _ _ hstep]
      congr 1
      push_cast
      ring
    · cases h

theorem fade_iterations_succ_pos (E : Env) (d : Int) (W Wn : Engine) (r : Int) (n : Nat)
    (h : fade_iterations E d W r (n + 1) = some Wn) : 0 < r - n * d := by
  simp only [fade_iterations] at h
  split at h
  · unfold fade_iteration at h
    split at h
    · rename_i hc
      exact hc.1
    · cases h
  · cases h

theorem fade_iterations_exist (E : Env) (d : Int) (W : Engine) (r : Int)
    (h_clean : ∀ n Wn, fade_iterations E d W r n = some Wn → 0 < r - n * d →
      (fade_iteration E d Wn (r - n * d)).isSome) :
    ∀ n : Nat, (∀ m : Nat, m < n → 0 < r - m * d) → ∃ Wn, fade_iterations E d W r n = some Wn
  | 0, _ => ⟨W, rfl⟩
  | n + 1, hpos => by
    obtain ⟨Wn, hn⟩ := fade_iterations_exist E d W r h_clean n
      (fun m hm => hpos m (Nat.lt_succ_of_lt hm))
    have hs := h_clean n Wn hn (hpos n (Nat.lt_succ_self n))
    obtain ⟨W1, h1⟩ := Option.isSome_iff_exists.mp hs
    exact ⟨W1, by simp only [fade_iterations, hn, h1]⟩

theorem ceil_div_bounds (r d : Int) (hd : 0 < d) :
    (∀ m : Nat, m < ⌈(r : ℚ) / (d : ℚ)⌉.toNat → 0 < r - m * d) ∧
    r - (⌈(r : ℚ) / (d : ℚ)⌉.toNat : Int) * d ≤ 0 := by
  have hdq : (0 : ℚ) < (d : ℚ) := by exact_mod_cast hd
  constructor
  · intro m hm
    have h1 : (m : Int) < ⌈(r : ℚ) / (d : ℚ)⌉ := by omega
    have h2 : ((m : Int) : ℚ) < (r : ℚ) / (d : ℚ) := Int.lt_ceil.mp h1
    have h3 : ((m : Int) : ℚ) * (d : ℚ) < (r : ℚ) := (lt_div_iff₀ hdq).mp h2
    have h4 : (m : Int) * d < r := by exact_mod_cast h3
    omega
  · have h1 : (r : ℚ) / (d : ℚ) ≤ ((⌈(r : ℚ) / (d : ℚ)⌉ : Int) : ℚ) := Int.le_ceil _
    have h2 : ⌈(r : ℚ) / (d : ℚ)⌉ ≤ (⌈(r : ℚ) / (d : ℚ)⌉.toNat : Int) := Int.self_le_toNat _
    have h3 : (r : ℚ) / (d : ℚ) ≤ (((⌈(r : ℚ) / (d : ℚ)⌉.toNat : Int)) : ℚ) :=
      le_trans h1 (by exact_mod_cast h2)
    have h4 : (r : ℚ) ≤ (((⌈(r : ℚ) / (d : ℚ)⌉.toNat : Int)) : ℚ) * (d : ℚ) :=
      (div_le_iff₀ hdq).mp h3
    have h5 : r ≤ (⌈(r : ℚ) / (d : ℚ)⌉.toNat : Int) * d := by exact_mod_cast h4
    omega

/-- C11. If `init_crossfade` returns on both streams and, as long as the fade
lasts, every iteration is one in which `stop` is read false, neither stream
fails, the sink takes the frame and the frame length is the same `d > 0`, and
`end_crossfade` returns on the incoming stream, then `crossfade` (started with
`remaining = total = DEFAULT_FADE_MS`) writes exactly `ceil(DEFAULT_FADE_MS / d)`
mixed frames to the sink, calls `end_crossfade` on the incoming stream and
returns the incoming stream. For 1024-sample frames at 48000 Hz the frame length
is 21 ms and a 5000 ms fade takes 239 frames. -/
theorem crossfade_completes (E : Env) (W : Engine) (src ns : InputStream) (d : Int)
    (fuel : Nat)
    (h_d : 0 < d)
    (h_src : init_crossfade E W.source = .ret () src)
    (h_ns : init_crossfade E W.new_source = .ret () ns)
    (h_clean : ∀ n Wn,
      fade_iterations E d (after_init W src ns) E.DEFAULT_FADE_MS n = some Wn →
      0 < E.DEFAULT_FADE_MS - n * d →
      (fade_iteration E d Wn (E.DEFAULT_FADE_MS - n * d)).isSome)
    (h_end : ∀ n Wn,
      fade_iterations E d (after_init W src ns) E.DEFAULT_FADE_MS n = some Wn →
      E.DEFAULT_FADE_MS - n * d ≤ 0 →
      ∃ ns1, end_crossfade E Wn.new_source = .ret () ns1)
    (h_fuel : ⌈(E.DEFAULT_FADE_MS : ℚ) / (d : ℚ)⌉.toNat < fuel) :
    (∃ WN ns1,
      fade_iterations E d (after_init W src ns) E.DEFAULT_FADE_MS
          ⌈(E.DEFAULT_FADE_MS : ℚ) / (d : ℚ)⌉.toNat = some WN ∧
      end_crossfade E WN.new_source = .ret () ns1 ∧
      crossfade E fuel W = some (.ret .new_source { WN with new_source := ns1 }) ∧
      WN.sink.written.length
        = W.sink.written.length + ⌈(E.DEFAULT_FADE_MS : ℚ) / (d : ℚ)⌉.toNat) ∧
    get_frame_length_milliseconds
        { InputStream.InputStream_default with
            m_frame := some ⟨.FLTP, ⟨2⟩, 48000, 1024, []⟩ } = some 21 ∧
    ⌈((5000 : Int) : ℚ) / ((21 : Int) : ℚ)⌉.toNat = 239 := by
  refine ⟨?_, by decide, ?_⟩
  · obtain ⟨hlt, hle⟩ := ceil_div_bounds E.DEFAULT_FADE_MS d h_d
    obtain ⟨WN, hN⟩ := fade_iterations_exist E d (after_init W src ns) E.DEFAULT_FADE_MS
      h_clean _ hlt
    obtain ⟨ns1, hend⟩ := h_end _ WN hN hle
    obtain ⟨f, hf⟩ : ∃ f, fuel = ⌈(E.DEFAULT_FADE_MS : ℚ) / (d : ℚ)⌉.toNat + (f + 1) :=
      ⟨fuel - ⌈(E.DEFAULT_FADE_MS : ℚ) / (d : ℚ)⌉.toNat - 1, by omega⟩
    obtain ⟨hloop, hlen⟩ := fade_iterations_loop E d _ _ _ (f + 1) WN hN
    refine ⟨WN, ns1, hN, hend, ?_, hlen⟩
    have hnot : ¬ (E.DEFAULT_FADE_MS - (⌈(E.DEFAULT_FADE_MS : ℚ) / (d : ℚ)⌉.toNat : Int) * d > 0) :=
      not_lt.mpr hle
    rw [hf]
    simp only [crossfade, h_src, h_ns]
    rw [show ({ W with source := src, new_source := ns } : Engine) = after_init W src ns from rfl,
      hloop]
    simp only [crossfade_loop, hnot, if_false, crossfade_finish, hend]
  · have h : ⌈((5000 : Int) : ℚ) / ((21 : Int) : ℚ)⌉ = 239 := by
      rw [Int.ceil_eq_iff]
      constructor <;> norm_num
    rw [h]
    rfl

/-- Witness for C11: a fade of 3 ms between two streams whose frames last 2 ms
takes ceil(3 / 2) = 2 frames. -/
theorem crossfade_completes_witness :
    ∃ (WN : Engine) (ns1 : InputStream),
      crossfade demo_env_short 3 demo_fade
        = some (.ret .new_source { WN with new_source := ns1 }) ∧
      WN.sink.written.length = 0 + ⌈((3 : Int) : ℚ) / ((2 : Int) : ℚ)⌉.toNat ∧
      ⌈((3 : Int) : ℚ) / ((2 : Int) : ℚ)⌉.toNat = 2 := by
  have hceil : ⌈((3 : Int) : ℚ) / ((2 : Int) : ℚ)⌉ = 2 := by
    rw [Int.ceil_eq_iff]
    constructor <;> norm_num
  have h1 : ∃ W1, fade_iterations demo_env_short 2
      (after_init demo_fade demo_fade.source demo_fade.new_source) 3 1 = some W1 ∧
      (fade_iteration demo_env_short 2 W1 (3 - (1 : Nat) * 2)).isSome = true :=
    ⟨_, rfl, rfl⟩
  have h2 : ∃ W2, fade_iterations demo_env_short 2
      (after_init demo_fade demo_fade.source demo_fade.new_source) 3 2 = some W2 ∧
      (∃ ns1, end_crossfade demo_env_short W2.new_source = .ret () ns1) :=
    ⟨_, rfl, _, rfl⟩
  obtain ⟨W1, hW1, hs1⟩ := h1
  obtain ⟨W2, hW2, he2⟩ := h2
  obtain ⟨⟨WN, ns1, _, _, hc, hlen⟩, _, _⟩ :=
    crossfade_completes demo_env_short demo_fade demo_fade.source demo_fade.new_source 2 3
      (by decide) rfl rfl
      (fun n Wn h hpos => by
        match n, h, hpos with
        | 0, h, _ =>
          have h' : some demo_fade = some Wn := h
          cases h'
          rfl
        | 1, h, _ =>
          have h' : fade_iterations demo_env_short 2
            (after_init demo_fade demo_fade.source demo_fade.new_source) 3 1 = some Wn := h
          rw [hW1] at h'
          cases h'
          exact hs1
        | n + 2, _, hpos =>
          exfalso
          have hp : (0 : Int) < 3 - ((n + 2 : Nat) : Int) * 2 := hpos
          push_cast at hp
          omega)
      (fun n Wn h hle => by
        match n, h, hle with
        | 0, _, hle =>
          exfalso
          have hp : (3 : Int) - ((0 : Nat) : Int) * 2 ≤ 0 := hle
          omega
        | 1, _, hle =>
          exfalso
          have hp : (3 : Int) - ((1 : Nat) : Int) * 2 ≤ 0 := hle
          omega
        | 2, h, _ =>
          have h' : fade_iterations demo_env_short 2
            (after_init demo_fade demo_fade.source demo_fade.new_source) 3 2 = some Wn := h
          rw [hW2] at h'
          cases h'
          exact he2
        | n + 3, h, _ =>
          exfalso
          have hp := fade_iterations_succ_pos demo_env_short 2 _ Wn _ (n + 2) h
          have hp2 : (0 : Int) < 3 - ((n + 2 : Nat) : Int) * 2 := hp
          push_cast at hp2
          omega)
      (by
        show ⌈((3 : Int) : ℚ) / ((2 : Int) : ℚ)⌉.toNat < 3
        rw [hceil]
        decide)
  exact ⟨WN, ns1, hc, hlen, by rw [hceil]; rfl⟩

/-! ## C12: a failing source is replaced in the streaming loop -/

theorem read_normal_streaming_fields (C : Control) (W : Engine) :
    (read_normal_streaming C W).source = W.source ∧
    (read_normal_streaming C W).sink = W.sink ∧
    (read_normal_streaming C W).rand_calls = W.rand_calls ∧
    (read_normal_streaming C W).stop_reads = W.stop_reads := by
  unfold read_normal_streaming
  split <;> exact ⟨rfl, rfl, rfl, rfl⟩

theorem alloc_frame_ok (E : Env) (ctx ctx1 : AVCodecContext) (frame : AVFrame)
    (h : alloc_frame E ctx = .ok (frame, ctx1)) :
    frame.nb_samples = ctx1.frame_size ∧ ctx1.sample_rate = ctx.sample_rate ∧
    ctx1.ch_layout = ctx.ch_layout ∧ ctx1.sample_fmt = ctx.sample_fmt ∧
    frame.sample_rate = ctx.sample_rate := by
  unfold alloc_frame at h
  simp only at h
  have hc : ∀ c : AVCodecContext,
      (match ctx.codec with
        | some cd =>
          if Nat.land cd.capabilities AV_CODEC_CAP_VARIABLE_FRAME_SIZE ≠ 0 then
            { ctx with frame_size := E.DEFAULT_FRAME_SIZE }
          else ctx
        | none => ctx) = c →
      c.sample_rate = ctx.sample_rate ∧ c.ch_layout = ctx.ch_layout ∧
      c.sample_fmt = ctx.sample_fmt := by
    intro c hc
    split at hc
    · split at hc <;> (subst hc; exact ⟨rfl, rfl, rfl⟩)
    · subst hc; exact ⟨rfl, rfl, rfl⟩
  split at h
  · split at h
    · cases h
    · simp only [Except.ok.injEq, Prod.mk.injEq] at h
      obtain ⟨hf, hc1⟩ := h
      obtain ⟨h1, h2, h3⟩ := hc ctx1 hc1
      subst hf
      exact ⟨by rw [← hc1], h1, h2, h3, by simp only; rw [hc1]; exact h1⟩
  · simp only [Except.ok.injEq, Prod.mk.injEq] at h
    obtain ⟨hf, hc1⟩ := h
    obtain ⟨h1, h2, h3⟩ := hc ctx1 hc1
    subst hf
    exact ⟨by rw [← hc1], h1, h2, h3, by simp only; rw [hc1]; exact h1⟩

theorem InputStream_synthetic_profile (E : Env) (ctx : AVCodecContext)
    (mode : DefaultSourceModes) (syn : InputStream)
    (h : InputStream.InputStream_synthetic E ctx mode = .ok syn) :
    syn.m_source_valid = false ∧ syn.m_source_mode = mode ∧
    syn.m_output_codec_ctx.sample_rate = ctx.sample_rate ∧
    syn.m_output_codec_ctx.ch_layout = ctx.ch_layout ∧
    syn.m_output_codec_ctx.sample_fmt = ctx.sample_fmt ∧
    syn.m_output_frame_size = syn.m_output_codec_ctx.frame_size ∧
    syn.m_loop_duration =
      ((syn.m_output_frame_size - E.DEFAULT_LOOP_TIME_OFFSET_SAMPLES : Int) : ℚ)
        * (1 / (syn.m_output_codec_ctx.sample_rate : ℚ)) ∧
    (∃ tmp frm swr, syn.m_temp_frame = some tmp ∧ syn.m_frame = some frm ∧
      syn.m_swr_ctx = some swr) := by
  unfold InputStream.InputStream_synthetic at h
  split at h
  · cases h
  · rename_i frame ctx1 hal
    obtain ⟨hn, hr, hl, hf, _⟩ := alloc_frame_ok E ctx ctx1 frame hal
    split at h
    · cases h
    · simp only at h
      split at h
      · cases h
      · split at h
        · cases h
        · cases h
          exact ⟨rfl, rfl, hr, hl, hf, hn, rfl, _, _, _, rfl, rfl, rfl⟩

/-- C12. In the streaming loop, when the loop test passes and
`get_one_output_frame` of the current source throws (end of source, decoder or
resampler error), and the synthetic stream can be constructed, the engine
replaces the current source with a synthetic white-noise `InputStream` built on
the sink's OutputProfile and goes on to the next evaluation of the loop test: it
neither leaves the loop nor lets the exception out. -/
theorem continue_streaming_replaces_failed_source (E : Env) (C : Control) (fuel : Nat)
    (W : Engine) (m : String) (src : InputStream) (k : Nat) (syn : InputStream)
    (h_normal : (read_normal_streaming C W).normal_streaming = true)
    (h_stop : E.flags_stop W.stop_reads = false)
    (h_pull : get_one_output_frame E W.source W.rand_calls = .thrown m (src, k))
    (h_syn : InputStream.InputStream_synthetic E W.sink.m_output_codec_ctx .white_noise
              = .ok syn) :
    continue_streaming E C (fuel + 1) W =
      continue_streaming E C fuel
        { (read_normal_streaming C W) with
            stop_reads := W.stop_reads + 1, rand_calls := k,
            source := (move_assign src syn).1 } ∧
    (move_assign src syn).1.m_source_valid = false ∧
    (move_assign src syn).1.m_source_mode = .white_noise ∧
    (move_assign src syn).1.m_output_codec_ctx.sample_rate
      = W.sink.m_output_codec_ctx.sample_rate ∧
    (move_assign src syn).1.m_output_codec_ctx.ch_layout
      = W.sink.m_output_codec_ctx.ch_layout ∧
    (move_assign src syn).1.m_output_codec_ctx.sample_fmt
      = W.sink.m_output_codec_ctx.sample_fmt := by
  obtain ⟨hs, hk, hr, _⟩ := read_normal_streaming_fields C W
  obtain ⟨hv, hm, hrate, hlay, hfmt, _⟩ := InputStream_synthetic_profile E _ _ _ h_syn
  refine ⟨?_, hv, hm, hrate, hlay, hfmt⟩
  simp only [continue_streaming, h_normal, h_stop, continue_streaming_body, hs, hk, hr, h_pull,
    streaming_fallback, h_syn, Bool.not_false, if_true]

/-- Witness for C12: the source has an empty FIFO and no packet left, so its
frame pull throws at the first iteration. -/
theorem continue_streaming_replaces_failed_source_witness :
    continue_streaming demo_env demo_control (0 + 1) (demo_streaming 0 [[], []] demo_sink) =
      continue_streaming demo_env demo_control 0
        { (demo_streaming 0 [[], []] demo_sink) with
            stop_reads := 0 + 1, rand_calls := 0,
            source := (move_assign { (demo_bound 0 [[], []] []) with m_ret := AVERROR_EOF }
              (demo_synthetic .white_noise)).1 } ∧
    (move_assign { (demo_bound 0 [[], []] []) with m_ret := AVERROR_EOF }
      (demo_synthetic .white_noise)).1.m_source_valid = false := by
  obtain ⟨h, hv, _⟩ := continue_streaming_replaces_failed_source demo_env demo_control 0
    (demo_streaming 0 [[], []] demo_sink) "no more packets, reached end of input"
    { (demo_bound 0 [[], []] []) with m_ret := AVERROR_EOF } 0 (demo_synthetic .white_noise)
    rfl rfl (by decide) rfl
  exact ⟨h, hv⟩

/-! ## C13: a frame refused by the sink -/

/-- C13, refuted as stated. The current source holds a frame and the sink
refuses it by throwing: the `catch` block of `continue_streaming` then replaces
the current source, which is valid, by a synthetic stream; the source is not
left as the frame pull left it. -/
theorem sink_refusal_replaces_source :
    ∃ (src : InputStream) (W1 : Engine),
      get_one_output_frame demo_env (demo_streaming 2 [[1, 2], [3, 4]] demo_sink_refusing).source 0
        = .ret true (src, 0) ∧
      demo_sink_refusing.write_frame src
        = .thrown "sink: frame refused" { demo_sink_refusing with refusals := [] } ∧
      continue_streaming_body demo_env (demo_streaming 2 [[1, 2], [3, 4]] demo_sink_refusing)
        = .ret () W1 ∧
      src.m_source_valid = true ∧ W1.source.m_source_valid = false ∧ W1.source ≠ src := by
  refine ⟨_, _, rfl, rfl, rfl, rfl, rfl, ?_⟩
  intro h
  have hv := congrArg InputStream.m_source_valid h
  revert hv
  decide

/-- C13, amended. During normal streaming, once the loop test has passed and the
current source has delivered its frame: if `write_frame` throws (the sink
refuses the frame), the engine replaces the current source by a synthetic
white-noise stream (when it can be constructed) and goes on to the next
iteration; if `write_frame` returns, the engine goes on to the next iteration
with the current source as the frame pull left it. -/
theorem continue_streaming_after_write (E : Env) (C : Control) (fuel : Nat)
    (W : Engine) (b : Bool) (src : InputStream) (k : Nat)
    (h_normal : (read_normal_streaming C W).normal_streaming = true)
    (h_stop : E.flags_stop W.stop_reads = false)
    (h_pull : get_one_output_frame E W.source W.rand_calls = .ret b (src, k)) :
    (∀ m sk syn, W.sink.write_frame src = .thrown m sk →
      InputStream.InputStream_synthetic E sk.m_output_codec_ctx .white_noise = .ok syn →
      continue_streaming E C (fuel + 1) W =
        continue_streaming E C fuel
          { (read_normal_streaming C W) with
              stop_reads := W.stop_reads + 1, rand_calls := k, sink := sk,
              source := (move_assign src syn).1 } ∧
      (move_assign src syn).1.m_source_valid = false ∧
      (move_assign src syn).1.m_source_mode = .white_noise) ∧
    (∀ u sk, W.sink.write_frame src = .ret u sk →
      continue_streaming E C (fuel + 1) W =
        continue_streaming E C fuel
          { (read_normal_streaming C W) with
              stop_reads := W.stop_reads + 1, rand_calls := k, sink := sk,
              source := src }) := by
  obtain ⟨hs, hk, hr, _⟩ := read_normal_streaming_fields C W
  constructor
  · intro m sk syn hw hsyn
    obtain ⟨hv, hm, _⟩ := InputStream_synthetic_profile E _ _ _ hsyn
    refine ⟨?_, hv, hm⟩
    simp only [continue_streaming, h_normal, h_stop, continue_streaming_body, hs, hk, hr, h_pull,
      hw, streaming_fallback, hsyn, Bool.not_false, if_true]
  · intro u sk hw
    simp only [continue_streaming, h_normal, h_stop, continue_streaming_body, hs, hk, hr, h_pull,
      hw, Bool.not_false, if_true]

/-- Witness for C13 as amended: the refusing sink, then the accepting one. -/
theorem continue_streaming_after_write_witness :
    (∃ W1 : Engine,
      continue_streaming demo_env demo_control (0 + 1)
          (demo_streaming 2 [[1, 2], [3, 4]] demo_sink_refusing)
        = continue_streaming demo_env demo_control 0 W1 ∧
      W1.source.m_source_valid = false ∧ W1.source.m_source_mode = .white_noise) ∧
    (∃ W1 : Engine,
      continue_streaming demo_env demo_control (0 + 1)
          (demo_streaming 2 [[1, 2], [3, 4]] demo_sink)
        = continue_streaming demo_env demo_control 0 W1 ∧
      W1.source.m_source_valid = true ∧ W1.sink.written.length = 1) := by
  constructor
  · obtain ⟨h, hv, hm⟩ := (continue_streaming_after_write demo_env demo_control 0
      (demo_streaming 2 [[1, 2], [3, 4]] demo_sink_refusing) true _ 0 rfl rfl rfl).1
      "sink: frame refused" { demo_sink_refusing with refusals := [] }
      (demo_synthetic .white_noise) rfl rfl
    exact ⟨_, h, hv, hm⟩
  · have h := (continue_streaming_after_write demo_env demo_control 0
      (demo_streaming 2 [[1, 2], [3, 4]] demo_sink) true _ 0 rfl rfl rfl).2 () _ rfl
    exact ⟨_, h, rfl, rfl⟩

/-! ## C14: the nominal interval between two frames -/

theorem InputStream_bound_profile (E : Env) (D : Demux) (source_url : String) (format : Nat)
    (ctx : AVCodecContext) (options : Nat) (timing_mode : SourceTimingModes)
    (mode : DefaultSourceModes) (s : InputStream)
    (h : InputStream.InputStream_bound E D source_url format ctx options timing_mode mode
      = .ret s ()) :
    s.m_source_valid = true ∧
    s.m_output_codec_ctx.sample_rate = ctx.sample_rate ∧
    s.m_output_codec_ctx.ch_layout = ctx.ch_layout ∧
    s.m_output_codec_ctx.sample_fmt = ctx.sample_fmt ∧
    s.m_output_frame_size = s.m_output_codec_ctx.frame_size ∧
    s.m_loop_duration =
      ((s.m_output_frame_size - E.DEFAULT_LOOP_TIME_OFFSET_SAMPLES : Int) : ℚ)
        * (1 / (s.m_output_codec_ctx.sample_rate : ℚ)) ∧
    s.m_queue = av_audio_fifo_alloc ctx.sample_fmt ctx.ch_layout.nb_channels := by
  unfold InputStream.InputStream_bound at h
  split at h
  · cases h
  · rename_i frame ctx1 hal
    obtain ⟨hn, hr, hl, hf, _⟩ := alloc_frame_ok E ctx ctx1 frame hal
    split at h
    · cases h
    · split at h
      · cases h
      · split at h
        · cases h
        · split at h
          · cases h
          · split at h
            · cases h
            · split at h
              · cases h
              · split at h
                · cases h
                · split at h
                  · cases h
                  · split at h
                    · cases h
                    · rename_i q hq
                      cases h
                      refine ⟨rfl, hr, hl, hf, hn, rfl, ?_⟩
                      simp only
                      rw [← hf, ← hl, hq]

theorem loop_duration_bounds (fs eps rate : Int) (d : ℚ)
    (hd : d = ((fs - eps : Int) : ℚ) * (1 / (rate : ℚ))) :
    d = ((fs : ℚ) - (eps : ℚ)) / (rate : ℚ) ∧
    (fs = 1024 → eps = 20 → 0 < rate →
      d < 1024 / (rate : ℚ) ∧ (98 / 100 : ℚ) * (1024 / (rate : ℚ)) < d ∧
      d < (99 / 100 : ℚ) * (1024 / (rate : ℚ))) := by
  constructor
  · rw [hd]; push_cast; ring
  · intro hfs heps hrate
    have hr : (0 : ℚ) < (rate : ℚ) := by exact_mod_cast hrate
    have hd1 : d = 1004 / (rate : ℚ) := by
      rw [hd, hfs, heps]; push_cast; ring
    rw [hd1]
    refine ⟨?_, ?_, ?_⟩
    · exact div_lt_div_of_pos_right (by norm_num) hr
    · rw [← mul_div_assoc]
      exact div_lt_div_of_pos_right (by norm_num) hr
    · rw [← mul_div_assoc]
      exact div_lt_div_of_pos_right (by norm_num) hr

/-- C14, refuted as stated. In the default configuration (frames of 1024
samples, an offset of 20 samples) at 48 kHz the synthetic constructor sets the
interval to 1004/48000 s, which is not greater than 0.99 × 1024/48000 s. -/
theorem loop_duration_not_above_99_percent :
    ∃ syn : InputStream,
      InputStream.InputStream_synthetic demo_env demo_profile_1024 .silence = .ok syn ∧
      syn.m_output_frame_size = 1024 ∧ demo_env.DEFAULT_LOOP_TIME_OFFSET_SAMPLES = 20 ∧
      syn.m_output_codec_ctx.sample_rate = 48000 ∧
      syn.m_loop_duration = 1004 / 48000 ∧
      ¬ ((99 / 100 : ℚ) * (1024 / 48000) < syn.m_loop_duration) := by
  refine ⟨_, rfl, rfl, rfl, rfl, ?_, ?_⟩
  · show (((1024 - 20 : Int) : ℚ) * (1 / ((48000 : Int) : ℚ))) = 1004 / 48000
    norm_num
  · show ¬ ((99 / 100 : ℚ) * (1024 / 48000) < ((1024 - 20 : Int) : ℚ) * (1 / ((48000 : Int) : ℚ)))
    norm_num

/-- C14, amended. Both the bound and the synthetic constructor, when they
return, set `m_loop_duration` to (frame_samples − eps) / sample_rate, where
frame_samples is the frame size of the stream, sample_rate the rate of the
OutputProfile and eps is `DEFAULT_LOOP_TIME_OFFSET_SAMPLES`; with frames of 1024
samples, eps = 20 and a positive rate this interval is less than
frame_samples / sample_rate and greater than 0.98 × frame_samples / sample_rate
(it is 1004/1024 of it, hence less than 0.99 × frame_samples / sample_rate). -/
theorem loop_duration_nominal (E : Env) (D : Demux) (source_url : String) (format : Nat)
    (ctx : AVCodecContext) (options : Nat) (timing_mode : SourceTimingModes)
    (mode : DefaultSourceModes) (s : InputStream)
    (h : InputStream.InputStream_bound E D source_url format ctx options timing_mode mode
          = .ret s () ∨
         InputStream.InputStream_synthetic E ctx mode = .ok s) :
    s.m_output_frame_size = s.m_output_codec_ctx.frame_size ∧
    s.m_output_codec_ctx.sample_rate = ctx.sample_rate ∧
    s.m_loop_duration =
      ((s.m_output_frame_size : ℚ) - (E.DEFAULT_LOOP_TIME_OFFSET_SAMPLES : ℚ))
        / (ctx.sample_rate : ℚ) ∧
    (s.m_output_frame_size = 1024 → E.DEFAULT_LOOP_TIME_OFFSET_SAMPLES = 20 →
      0 < ctx.sample_rate →
      s.m_loop_duration < 1024 / (ctx.sample_rate : ℚ) ∧
      (98 / 100 : ℚ) * (1024 / (ctx.sample_rate : ℚ)) < s.m_loop_duration ∧
      s.m_loop_duration < (99 / 100 : ℚ) * (1024 / (ctx.sample_rate : ℚ))) := by
  have key : s.m_output_frame_size = s.m_output_codec_ctx.frame_size ∧
      s.m_output_codec_ctx.sample_rate = ctx.sample_rate ∧
      s.m_loop_duration =
        ((s.m_output_frame_size - E.DEFAULT_LOOP_TIME_OFFSET_SAMPLES : Int) : ℚ)
          * (1 / (s.m_output_codec_ctx.sample_rate : ℚ)) := by
    rcases h with h | h
    · obtain ⟨_, hr, _, _, hn, hd, _⟩ :=
        InputStream_bound_profile E D source_url format ctx options timing_mode mode s h
      exact ⟨hn, hr, hd⟩
    · obtain ⟨_, _, hr, _, _, hn, hd, _⟩ := InputStream_synthetic_profile E ctx mode s h
      exact ⟨hn, hr, hd⟩
  obtain ⟨hn, hr, hd⟩ := key
  rw [hr] at hd
  obtain ⟨h1, h2⟩ := loop_duration_bounds _ _ _ _ hd
  exact ⟨hn, hr, h1, h2⟩

/-- Witness for C14 as amended: the bound and the synthetic stream on a profile
of 1024 samples a frame at 48 kHz. -/
theorem loop_duration_nominal_witness :
    (InputStream.InputStream_bound demo_env demo_demux "file:demo" 0 demo_profile_1024 0
        .realtime .silence = .ret demo_bound_1024 () ∧
      demo_bound_1024.m_loop_duration = ((1024 : ℚ) - 20) / 48000 ∧
      demo_bound_1024.m_loop_duration < 1024 / 48000 ∧
      (98 / 100 : ℚ) * (1024 / 48000) < demo_bound_1024.m_loop_duration) ∧
    (InputStream.InputStream_synthetic demo_env demo_profile_1024 .white_noise
        = .ok demo_synthetic_1024 ∧
      demo_synthetic_1024.m_loop_duration = ((1024 : ℚ) - 20) / 48000 ∧
      demo_synthetic_1024.m_loop_duration < 1024 / 48000 ∧
      (98 / 100 : ℚ) * (1024 / 48000) < demo_synthetic_1024.m_loop_duration) := by
  constructor
  · obtain ⟨_, _, hd, hb⟩ := loop_duration_nominal demo_env demo_demux "file:demo" 0
      demo_profile_1024 0 .realtime .silence demo_bound_1024 (Or.inl rfl)
    obtain ⟨h1, h2, _⟩ := hb rfl rfl (by decide)
    have hd1 : demo_bound_1024.m_loop_duration
        = (((1024 : Int) : ℚ) - ((20 : Int) : ℚ)) / ((48000 : Int) : ℚ) := hd
    have h11 : demo_bound_1024.m_loop_duration < 1024 / ((48000 : Int) : ℚ) := h1
    have h21 : (98 / 100 : ℚ) * (1024 / ((48000 : Int) : ℚ))
        < demo_bound_1024.m_loop_duration := h2
    rw [Int.cast_ofNat] at h11 h21
    exact ⟨rfl, by exact_mod_cast hd1, h11, h21⟩
  · obtain ⟨_, _, hd, hb⟩ := loop_duration_nominal demo_env demo_demux "file:demo" 0
      demo_profile_1024 0 .realtime .white_noise demo_synthetic_1024 (Or.inr rfl)
    obtain ⟨h1, h2, _⟩ := hb rfl rfl (by decide)
    have hd1 : demo_synthetic_1024.m_loop_duration
        = (((1024 : Int) : ℚ) - ((20 : Int) : ℚ)) / ((48000 : Int) : ℚ) := hd
    have h11 : demo_synthetic_1024.m_loop_duration < 1024 / ((48000 : Int) : ℚ) := h1
    have h21 : (98 / 100 : ℚ) * (1024 / ((48000 : Int) : ℚ))
        < demo_synthetic_1024.m_loop_duration := h2
    rw [Int.cast_ofNat] at h11 h21
    exact ⟨rfl, by exact_mod_cast hd1, h11, h21⟩

/-! ## C15 and C16: entering and leaving the crossfade state -/

theorem init_crossfade_ret (E : Env) (s s1 : InputStream)
    (h : init_crossfade E s = .ret () s1) :
    ∃ swr q, s.m_swr_ctx = some swr ∧ s.m_queue = some q ∧
      s1.m_swr_ctx = some (E.swr_init (set_resampler_options_xfade swr)).2 ∧
      s1.m_queue = (if av_audio_fifo_size q = 0 then av_audio_fifo_alloc .FLTP 2 else some q) ∧
      s1.m_output_codec_ctx = s.m_output_codec_ctx := by
  unfold init_crossfade at h
  split at h
  · cases h
  · rename_i swr hswr
    simp only at h
    split at h
    · cases h
    · split at h
      · cases h
      · rename_i q hq
        refine ⟨swr, q, hswr, hq, ?_⟩
        split at h
        · rename_i h0
          cases h
          exact ⟨rfl, by simp only [h0, if_true], rfl⟩
        · rename_i h0
          cases h
          exact ⟨rfl, by simp only [h0, if_false]; exact hq, rfl⟩

/-- C15, where the code departs from the spec. A bound stream in the streaming
state on a profile of interleaved 16-bit stereo, whose FIFO holds one sample:
`init_crossfade` returns, the primary resampler then targets planar float stereo
at the profile's rate, but the FIFO keeps its tag (interleaved 16-bit) and its
unconverted sample; `resample_queue`, which would retag it as planar float with
two channels, is not called. -/
theorem init_crossfade_keeps_filled_queue :
    bound_streaming (demo_bound_s16 1 [[1, 2]]) = true ∧
    ∃ s1 : InputStream,
      init_crossfade demo_env (demo_bound_s16 1 [[1, 2]]) = .ret () s1 ∧
      (∃ c : SwrContext, s1.m_swr_ctx = some c ∧ c.out_sample_fmt = .FLTP ∧
        c.out_chlayout = AV_CHANNEL_LAYOUT_STEREO ∧
        c.out_sample_rate = demo_profile_s16.sample_rate) ∧
      s1.m_queue = some ⟨.S16, 2, 1, [[1, 2]]⟩ ∧
      (∃ (s2 : InputStream) (q : AVAudioFifo),
        resample_queue demo_env s1 .S16 .FLTP = .ret () s2 ∧ s2.m_queue = some q ∧
        q.sample_fmt = .FLTP ∧ q.channels = 2 ∧ q.nb_samples = 1) := by
  refine ⟨by decide, _, rfl, ⟨_, rfl, rfl, rfl, rfl⟩, rfl, _, _, rfl, rfl, rfl, rfl, rfl⟩

theorem end_crossfade_ret (E : Env) (s s1 : InputStream)
    (h : end_crossfade E s = .ret () s1) :
    ∃ swr q, s.m_swr_ctx = some swr ∧ s.m_queue = some q ∧
      s1.m_swr_ctx = some (E.swr_init (set_resampler_options swr s.m_output_codec_ctx)).2 ∧
      s1.m_queue =
        (if av_audio_fifo_size q = 0 then
          av_audio_fifo_alloc s.m_output_codec_ctx.sample_fmt
            s.m_output_codec_ctx.ch_layout.nb_channels
         else some q) ∧
      s1.m_output_codec_ctx = s.m_output_codec_ctx := by
  unfold end_crossfade at h
  split at h
  · cases h
  · rename_i swr hswr
    simp only at h
    split at h
    · cases h
    · split at h
      · cases h
      · rename_i q hq
        refine ⟨swr, q, hswr, hq, ?_⟩
        split at h
        · rename_i h0
          cases h
          exact ⟨rfl, by simp only [h0, if_true], rfl⟩
        · rename_i h0
          cases h
          exact ⟨rfl, by simp only [h0, if_false]; exact hq, rfl⟩

theorem bound_streaming_profile (s : InputStream) (h : bound_streaming s = true) :
    (∃ q, s.m_queue = some q ∧ q.sample_fmt = s.m_output_codec_ctx.sample_fmt ∧
      q.channels = s.m_output_codec_ctx.ch_layout.nb_channels) ∧
    (∃ c, s.m_swr_ctx = some c ∧ c.out_chlayout = s.m_output_codec_ctx.ch_layout ∧
      c.out_sample_rate = s.m_output_codec_ctx.sample_rate ∧
      c.out_sample_fmt = s.m_output_codec_ctx.sample_fmt) := by
  simp only [bound_streaming, Bool.and_eq_true, decide_eq_true_eq] at h
  obtain ⟨⟨_, hq⟩, hswr⟩ := h
  constructor
  · cases hs : s.m_queue with
    | none => simp [hs] at hq
    | some q =>
      simp only [hs, Bool.and_eq_true, decide_eq_true_eq] at hq
      exact ⟨q, rfl, hq.1, hq.2⟩
  · cases hs : s.m_swr_ctx with
    | none => simp [hs] at hswr
    | some c =>
      simp only [hs, Bool.and_eq_true, decide_eq_true_eq] at hswr
      exact ⟨c, rfl, hswr.1.1, hswr.1.2, hswr.2⟩

theorem av_audio_fifo_alloc_tag (fmt : AVSampleFormat) (channels : Int)
    (h : 0 < channels ∧ fmt ≠ .NONE) :
    ∃ q, av_audio_fifo_alloc fmt channels = some q ∧ q.sample_fmt = fmt ∧
      q.channels = channels ∧ av_audio_fifo_size q = 0 := by
  unfold av_audio_fifo_alloc
  have hn : ¬ (channels ≤ 0 ∨ fmt = .NONE) := by
    rintro (h1 | h1)
    · omega
    · exact h.2 h1
  simp only [hn, if_false]
  exact ⟨_, rfl, rfl, rfl, rfl⟩

/-- C16. For a bound stream in the streaming state whose buffer is empty and
whose OutputProfile has a valid tag (a sample format and at least one channel),
with `swr_init` changing no option of a handle: `init_crossfade` puts the
primary resampler's output and the buffer's tag on planar float stereo, and
`end_crossfade` after it leaves the primary resampler's output configuration
(layout, rate, format) and the buffer's tag (format, channel count) equal to the
OutputProfile, that is, equal to what they were before `init_crossfade`. -/
theorem end_crossfade_reverses_init (E : Env) (s s1 s2 : InputStream) (q0 : AVAudioFifo)
    (c0 : SwrContext)
    (h_swr : swr_init_keeps_options E)
    (h_bound : bound_streaming s = true)
    (h_queue : s.m_queue = some q0) (h_empty : av_audio_fifo_size q0 = 0)
    (h_ctx : s.m_swr_ctx = some c0)
    (h_tag : 0 < s.m_output_codec_ctx.ch_layout.nb_channels ∧
      s.m_output_codec_ctx.sample_fmt ≠ .NONE)
    (h_init : init_crossfade E s = .ret () s1)
    (h_end : end_crossfade E s1 = .ret () s2) :
    (∃ c1 q1, s1.m_swr_ctx = some c1 ∧ s1.m_queue = some q1 ∧
      c1.out_chlayout = AV_CHANNEL_LAYOUT_STEREO ∧ c1.out_sample_fmt = .FLTP ∧
      c1.out_sample_rate = s.m_output_codec_ctx.sample_rate ∧
      q1.sample_fmt = .FLTP ∧ q1.channels = 2) ∧
    (∃ c2 q2, s2.m_swr_ctx = some c2 ∧ s2.m_queue = some q2 ∧
      c2.out_chlayout = s.m_output_codec_ctx.ch_layout ∧
      c2.out_sample_rate = s.m_output_codec_ctx.sample_rate ∧
      c2.out_sample_fmt = s.m_output_codec_ctx.sample_fmt ∧
      q2.sample_fmt = s.m_output_codec_ctx.sample_fmt ∧
      q2.channels = s.m_output_codec_ctx.ch_layout.nb_channels ∧
      c2.out_chlayout = c0.out_chlayout ∧ c2.out_sample_rate = c0.out_sample_rate ∧
      c2.out_sample_fmt = c0.out_sample_fmt ∧
      q2.sample_fmt = q0.sample_fmt ∧ q2.channels = q0.channels) ∧
    s2.m_output_codec_ctx = s.m_output_codec_ctx := by
  obtain ⟨⟨q, hq, hqf, hqc⟩, ⟨c, hc, hcl, hcr, hcf⟩⟩ := bound_streaming_profile s h_bound
  rw [h_queue] at hq; cases hq
  rw [h_ctx] at hc; cases hc
  obtain ⟨swr, q, hswr, hq, h1c, h1q, h1p⟩ := init_crossfade_ret E s s1 h_init
  rw [h_queue] at hq; cases hq
  rw [h_ctx] at hswr; cases hswr
  simp only [h_empty, if_true] at h1q
  obtain ⟨swr1, q1, hswr1, hq1, h2c, h2q, h2p⟩ := end_crossfade_ret E s1 s2 h_end
  rw [h1c] at hswr1; cases hswr1
  have hq1f : q1 = ⟨.FLTP, 2, 0, [[], []]⟩ := by
    rw [h1q] at hq1
    exact (Option.some.inj hq1).symm
  have hq1e : av_audio_fifo_size q1 = 0 := by rw [hq1f]; rfl
  simp only [hq1e, if_true] at h2q
  rw [h1p] at h2q h2c
  obtain ⟨q2, hq2, hq2f, hq2c, _⟩ := av_audio_fifo_alloc_tag _ _ h_tag
  rw [hq2] at h2q
  have k1 := h_swr (set_resampler_options_xfade c0)
  have k2 := h_swr (set_resampler_options (E.swr_init (set_resampler_options_xfade c0)).2
    s.m_output_codec_ctx)
  refine ⟨⟨_, q1, h1c, ?_, ?_, ?_, ?_, ?_, ?_⟩, ⟨_, q2, h2c, h2q, ?_, ?_, ?_, hq2f, hq2c,
    ?_, ?_, ?_, ?_, ?_⟩, h2p.trans h1p⟩
  · exact hq1
  · rw [k1]; rfl
  · rw [k1]; rfl
  · rw [k1]; exact hcr
  · rw [hq1f]
  · rw [hq1f]
  · rw [k2]; rfl
  · rw [k2]; rfl
  · rw [k2]; rfl
  · rw [k2]; exact hcl.symm
  · rw [k2]; exact hcr.symm
  · rw [k2]; exact hcf.symm
  · rw [hq2f, hqf]
  · rw [hq2c, hqc]

/-- Witness for C16: an empty bound stream on `demo_profile_s16`, into the
crossfade state and back. -/
theorem end_crossfade_reverses_init_witness :
    bound_streaming (demo_bound_s16 0 [[]]) = true ∧
    ∃ s1 s2 : InputStream,
      init_crossfade demo_env (demo_bound_s16 0 [[]]) = .ret () s1 ∧
      end_crossfade demo_env s1 = .ret () s2 ∧
      (∃ c1 q1, s1.m_swr_ctx = some c1 ∧ s1.m_queue = some q1 ∧
        c1.out_sample_fmt = .FLTP ∧ q1.sample_fmt = .FLTP ∧ q1.channels = 2) ∧
      (∃ c2 q2, s2.m_swr_ctx = some c2 ∧ s2.m_queue = some q2 ∧
        c2.out_chlayout = demo_profile_s16.ch_layout ∧
        c2.out_sample_rate = demo_profile_s16.sample_rate ∧
        c2.out_sample_fmt = .S16 ∧ q2.sample_fmt = .S16 ∧ q2.channels = 2) := by
  refine ⟨by decide, _, _, rfl, rfl, ?_⟩
  obtain ⟨⟨c1, q1, a1, a2, _, a4, _, a6, a7⟩, ⟨c2, q2, b1, b2, b3, b4, b5, b6, b7, _⟩, _⟩ :=
    end_crossfade_reverses_init demo_env (demo_bound_s16 0 [[]]) _ _ ⟨.S16, 2, 0, [[]]⟩
      { demo_swr with out_sample_fmt := .S16 } (fun _ => rfl) (by decide) rfl rfl rfl
      ⟨by decide, by decide⟩ rfl rfl
  exact ⟨⟨c1, q1, a1, a2, a4, a6, a7⟩, ⟨c2, q2, b1, b2, b3, b4, b5, b6, b7⟩⟩

/-! ## C17: the streaming loop never runs dry -/

theorem continue_streaming_iteration (E : Env) (C : Control) (fuel : Nat) (W W1 : Engine)
    (h_normal : (read_normal_streaming C W).normal_streaming = true)
    (h_stop : E.flags_stop W.stop_reads = false)
    (h_body : continue_streaming_body E
      { (read_normal_streaming C W) with stop_reads := W.stop_reads + 1 } = .ret () W1) :
    continue_streaming E C (fuel + 1) W = continue_streaming E C fuel W1 := by
  rw [continue_streaming, if_pos h_normal, if_pos (by rw [h_stop]; rfl), h_body]

theorem read_normal_streaming_idle (C : Control) (W : Engine)
    (h : C.arm W.stop_reads = none) : read_normal_streaming C W = W := by
  simp only [read_normal_streaming, h]

theorem synth_fill_length (E : Env) (mode : DefaultSourceModes) (nb_channels : Int) :
    ∀ (count k : Nat),
    (synth_fill E mode nb_channels count k).1.length = count * nb_channels.toNat
  | 0, k => by simp [synth_fill]
  | count + 1, k => by
    simp only [synth_fill, List.length_append, List.length_replicate,
      synth_fill_length E mode nb_channels count]
    rw [Nat.succ_mul, Nat.add_comm]

theorem InputStream_synthetic_temp (E : Env) (ctx : AVCodecContext)
    (mode : DefaultSourceModes) (syn : InputStream)
    (h_buf : ∀ f : AVFrame, f.format = .S16 → ¬ (E.av_frame_get_buffer f).1 < 0 →
      f.nb_samples ≠ 0 → (E.av_frame_get_buffer f).2 ≠ [])
    (h : InputStream.InputStream_synthetic E ctx mode = .ok syn) :
    ∃ tmp frm swr, syn.m_temp_frame = some tmp ∧ syn.m_frame = some frm ∧
      syn.m_swr_ctx = some swr ∧ (tmp.data ≠ [] ∨ tmp.nb_samples = 0) := by
  unfold InputStream.InputStream_synthetic at h
  split at h
  · cases h
  · split at h
    · cases h
    · simp only at h
      split at h
      · cases h
      · rename_i hb
        split at h
        · cases h
        · cases h
          refine ⟨_, _, _, rfl, rfl, rfl, ?_⟩
          rename_i frame ctx1 _ _ _ _ _
          by_cases h0 : frame.nb_samples = 0
          · right; simp only [h0, ne_eq, not_true_eq_false, if_false]
          · left
            simp only [ne_eq, h0, not_false_eq_true, if_true]
            have hb1 : ¬ (E.av_frame_get_buffer
                { av_frame_alloc with format := .S16, ch_layout := AV_CHANNEL_LAYOUT_STEREO,
                                      sample_rate := ctx1.sample_rate,
                                      nb_samples := frame.nb_samples }).1 < 0 := by
              intro hlt
              exact hb ⟨h0, hlt⟩
            exact h_buf _ rfl hb1 h0

theorem write_frame_accepts (o : OutputStream) (s : InputStream) (f : AVFrame)
    (h_frame : s.m_frame = some f)
    (h_accept : ∀ msg rest, o.refusals ≠ some msg :: rest) :
    o.write_frame s
      = .ret () { o with refusals := o.refusals.tail, written := o.written ++ [f] } := by
  obtain ⟨ctx, written, refusals, finished⟩ := o
  unfold OutputStream.write_frame
  simp only at h_accept ⊢
  match refusals, h_accept with
  | [], _ => simp only [h_frame, List.tail_nil]
  | none :: rest, _ => simp only [h_frame, List.tail_cons]
  | some msg :: rest, h => exact absurd rfl (h msg rest)

theorem get_one_output_frame_synthetic (E : Env) (s : InputStream) (k : Nat)
    (tmp frm : AVFrame) (swr : SwrContext)
    (h_valid : s.m_source_valid = false)
    (h_tmp : s.m_temp_frame = some tmp) (h_frm : s.m_frame = some frm)
    (h_swr : s.m_swr_ctx = some swr)
    (h_data : tmp.data ≠ [] ∨ tmp.nb_samples = 0)
    (h_conv : ∀ inp, ¬ (E.swr_convert swr frm.data tmp.nb_samples inp tmp.nb_samples).1 < 0) :
    ∃ (s1 : InputStream) (k1 : Nat) (f1 : AVFrame),
      get_one_output_frame E s k = .ret true (s1, k1) ∧ s1.m_frame = some f1 ∧
      s1.m_source_valid = false ∧ s1.m_source_mode = s.m_source_mode ∧
      f1.nb_samples = frm.nb_samples ∧ f1.format = frm.format := by
  have hs := synth_frame_eq E s.m_source_mode tmp k (by
    rcases h_data with h | h
    · exact Or.inl h
    · right
      rw [h]
      rfl)
  refine ⟨after_synth E s
      { tmp with data := (store_first
          (synth_fill E s.m_source_mode tmp.ch_layout.nb_channels tmp.nb_samples.toNat k).1
          tmp.data) } frm swr,
    (synth_fill E s.m_source_mode tmp.ch_layout.nb_channels tmp.nb_samples.toNat k).2,
    _, ?_, rfl, h_valid, rfl, rfl, rfl⟩
  simp only [get_one_output_frame, h_tmp, h_frm, h_swr, h_valid, hs, h_conv, after_synth,
    Bool.not_false, if_true, if_false]

/-- C17. While `stop` is false and `normal_streaming` is true (the control
thread arms nothing), the synthetic stream can be constructed, libavutil gives a
buffer to a 16-bit frame when it reports success, the resampler of the
synthetic stream reports no error on a frame of the stream's size and the sink
does not refuse its next frame: an iteration of the streaming loop whose frame
pull throws leaves a synthetic white-noise source installed, the next
iteration's `get_one_output_frame` on it returns a frame, and that frame is
handed to the sink and written; the loop then goes on. -/
theorem continue_streaming_never_dry (E : Env) (C : Control) (fuel : Nat) (W : Engine)
    (m : String) (src : InputStream) (k : Nat) (syn : InputStream)
    (h_normal : W.normal_streaming = true)
    (h_arm1 : C.arm W.stop_reads = none) (h_arm2 : C.arm (W.stop_reads + 1) = none)
    (h_stop1 : E.flags_stop W.stop_reads = false)
    (h_stop2 : E.flags_stop (W.stop_reads + 1) = false)
    (h_pull : get_one_output_frame E W.source W.rand_calls = .thrown m (src, k))
    (h_syn : InputStream.InputStream_synthetic E W.sink.m_output_codec_ctx .white_noise
              = .ok syn)
    (h_buf : ∀ f : AVFrame, f.format = .S16 → ¬ (E.av_frame_get_buffer f).1 < 0 →
      f.nb_samples ≠ 0 → (E.av_frame_get_buffer f).2 ≠ [])
    (h_conv : ∀ swr tmp frm inp, syn.m_swr_ctx = some swr → syn.m_temp_frame = some tmp →
      syn.m_frame = some frm →
      ¬ (E.swr_convert swr frm.data tmp.nb_samples inp tmp.nb_samples).1 < 0)
    (h_accept : ∀ msg rest, W.sink.refusals ≠ some msg :: rest) :
    ∃ (src2 : InputStream) (k2 : Nat) (frm : AVFrame) (sk : OutputStream),
      (move_assign src syn).1.m_source_valid = false ∧
      (move_assign src syn).1.m_source_mode = .white_noise ∧
      get_one_output_frame E (move_assign src syn).1 k = .ret true (src2, k2) ∧
      src2.m_frame = some frm ∧ src2.m_source_valid = false ∧
      src2.m_source_mode = .white_noise ∧
      W.sink.write_frame src2 = .ret () sk ∧ sk.written = W.sink.written ++ [frm] ∧
      continue_streaming E C (fuel + 2) W =
        continue_streaming E C fuel
          { W with stop_reads := W.stop_reads + 2, source := src2, rand_calls := k2,
                   sink := sk } := by
  obtain ⟨tmp, frm0, swr, ht, hf, hs, hdata⟩ :=
    InputStream_synthetic_temp E _ _ syn h_buf h_syn
  obtain ⟨hv, hm, _⟩ := InputStream_synthetic_profile E _ _ _ h_syn
  obtain ⟨src2, k2, frm, hget, hfrm, hv2, hm2, _⟩ :=
    get_one_output_frame_synthetic E (move_assign src syn).1 k tmp frm0 swr hv ht hf hs hdata
      (fun inp => h_conv swr tmp frm0 inp hs ht hf)
  have hw := write_frame_accepts W.sink src2 frm hfrm h_accept
  refine ⟨src2, k2, frm, _, hv, hm, hget, hfrm, hv2, hm2.trans hm, hw, rfl, ?_⟩
  have e1 : continue_streaming E C (fuel + 1 + 1) W =
      continue_streaming E C (fuel + 1)
        { W with stop_reads := W.stop_reads + 1, source := (move_assign src syn).1,
                 rand_calls := k } := by
    apply continue_streaming_iteration
    · rw [read_normal_streaming_idle C W h_arm1]; exact h_normal
    · exact h_stop1
    · rw [read_normal_streaming_idle C W h_arm1]
      simp only [continue_streaming_body, h_pull, streaming_fallback, h_syn]
  have e2 : continue_streaming E C (fuel + 1)
        { W with stop_reads := W.stop_reads + 1, source := (move_assign src syn).1,
                 rand_calls := k } =
      continue_streaming E C fuel
        { W with stop_reads := W.stop_reads + 2, source := src2, rand_calls := k2,
                 sink := { W.sink with refusals := W.sink.refusals.tail,
                                       written := W.sink.written ++ [frm] } } := by
    apply continue_streaming_iteration
    · rw [read_normal_streaming_idle C _ h_arm2]; exact h_normal
    · exact h_stop2
    · rw [read_normal_streaming_idle C _ h_arm2]
      simp only [continue_streaming_body, hget, hw]
  exact e1.trans e2

/-- Witness for C17: the source is exhausted, `stop` is requested at the third
test of the loop; the loop returns after two iterations with one frame, the
synthetic one, written. -/
theorem continue_streaming_never_dry_witness :
    ∃ W2 : Engine,
      continue_streaming (demo_env_stop_at 2) demo_control (1 + 2)
        (demo_streaming 0 [[], []] demo_sink) = some (.ret () W2) ∧
      W2.sink.written.length = 1 ∧ W2.source.m_source_valid = false := by
  obtain ⟨src2, k2, frm, sk, _, _, _, _, hv2, _, _, hwr, hloop⟩ :=
    continue_streaming_never_dry (demo_env_stop_at 2) demo_control 1
      (demo_streaming 0 [[], []] demo_sink) "no more packets, reached end of input"
      { (demo_bound 0 [[], []] []) with m_ret := AVERROR_EOF } 0 (demo_synthetic .white_noise)
      rfl rfl rfl rfl rfl (by decide) rfl
      (by
        intro f hf _ _
        show (if av_sample_fmt_is_planar f.format then _ else _) ≠ []
        rw [hf]
        simp [av_sample_fmt_is_planar])
      (by
        intro swr tmp frm inp _ ht _
        have ht1 : some (⟨.S16, ⟨2⟩, 48000, 2, [[0, 0, 0, 0]]⟩ : AVFrame) = some tmp := ht
        cases ht1
        show ¬ (2 : Int) < 0
        decide)
      (by intro msg rest h; cases h)
  refine ⟨_, hloop.trans rfl, ?_, hv2⟩
  show sk.written.length = 1
  rw [hwr]
  rfl

/-! ## C18: shutdown -/

theorem write_frame_finished (o : OutputStream) (s : InputStream) :
    (o.write_frame s).holds (fun sk => sk.finished = o.finished) := by
  unfold OutputStream.write_frame
  split
  · exact rfl
  · split
    · trivial
    · exact rfl
  · split
    · trivial
    · exact rfl

theorem streaming_fallback_sink (E : Env) (W : Engine) :
    (streaming_fallback E W).holds (fun W1 => W1.sink = W.sink) := by
  unfold streaming_fallback
  split
  · exact rfl
  · exact rfl

theorem continue_streaming_body_finished (E : Env) (W : Engine) :
    (continue_streaming_body E W).holds (fun W1 => W1.sink.finished = W.sink.finished) := by
  unfold continue_streaming_body
  split
  · trivial
  · rename_i m src k _
    have h := streaming_fallback_sink E { W with source := src, rand_calls := k }
    revert h
    cases streaming_fallback E { W with source := src, rand_calls := k } with
    | undefined => intro _; trivial
    | thrown m1 W1 => intro h; exact congrArg OutputStream.finished h
    | ret r W1 => intro h; exact congrArg OutputStream.finished h
  · rename_i b src k _
    have hw := write_frame_finished W.sink src
    revert hw
    cases hwf : W.sink.write_frame src with
    | undefined => intro _; trivial
    | thrown m1 sk =>
      intro hw
      simp only
      have h := streaming_fallback_sink E { W with source := src, rand_calls := k, sink := sk }
      revert h
      cases streaming_fallback E { W with source := src, rand_calls := k, sink := sk } with
      | undefined => intro _; trivial
      | thrown m2 W1 => intro h; exact (congrArg OutputStream.finished h).trans hw
      | ret r W1 => intro h; exact (congrArg OutputStream.finished h).trans hw
    | ret r sk => intro hw; exact hw

theorem read_normal_streaming_sink (C : Control) (W : Engine) :
    (read_normal_streaming C W).sink = W.sink := (read_normal_streaming_fields C W).2.1

theorem continue_streaming_finished (E : Env) (C : Control) :
    ∀ (fuel : Nat) (W : Engine) (o : Outcome Unit Engine),
      continue_streaming E C fuel W = some o →
      o.holds (fun W1 => W1.sink.finished = W.sink.finished)
  | 0, W, o, h => by simp [continue_streaming] at h
  | fuel + 1, W, o, h => by
    unfold continue_streaming at h
    have hs := read_normal_streaming_sink C W
    split at h
    · split at h
      · have hb := continue_streaming_body_finished E
          { (read_normal_streaming C W) with stop_reads := W.stop_reads + 1 }
        split at h
        · cases h; trivial
        · rename_i m W1 heq
          cases h
          rw [heq] at hb
          exact hb.trans (congrArg OutputStream.finished hs)
        · rename_i u W1 heq
          rw [heq] at hb
          have ih := continue_streaming_finished E C fuel W1 o h
          have e : W1.sink.finished = W.sink.finished :=
            hb.trans (congrArg OutputStream.finished hs)
          revert ih
          cases o with
          | undefined => intro _; trivial
          | thrown m2 W2 => intro ih; exact ih.trans e
          | ret r W2 => intro ih; exact ih.trans e
      · cases h
        exact congrArg OutputStream.finished hs
    · cases h
      exact congrArg OutputStream.finished hs

theorem crossfade_abort_sink (E : Env) (W : Engine) :
    (crossfade_abort E W).holds (fun W1 => W1.sink = W.sink) := by
  unfold crossfade_abort
  split
  · trivial
  · exact rfl
  · exact rfl

theorem crossfade_finish_keeps (E : Env) (W : Engine) :
    (crossfade_finish E W).holds
      (fun W1 => W1.source = W.source ∧ W1.sink = W.sink ∧ W1.rand_calls = W.rand_calls) := by
  unfold crossfade_finish
  split
  · trivial
  · exact ⟨rfl, rfl, rfl⟩
  · exact ⟨rfl, rfl, rfl⟩

theorem Outcome.holds_mono {ρ σ : Type} (P Q : σ → Prop) (o : Outcome ρ σ)
    (h : ∀ s, P s → Q s) (ho : o.holds P) : o.holds Q := by
  cases o with
  | undefined => trivial
  | thrown m s => exact h s ho
  | ret r s => exact h s ho

theorem crossfade_loop_finished (E : Env) :
    ∀ (fuel : Nat) (W : Engine) (r : Int) (o : Outcome InputStreamRef Engine),
      crossfade_loop E fuel W r = some o →
      o.holds (fun W1 => W1.sink.finished = W.sink.finished)
  | 0, W, r, o, h => by simp [crossfade_loop] at h
  | fuel + 1, W, r, o, h => by
    unfold crossfade_loop at h
    split at h
    · split at h
      · split at h
        · cases h; trivial
        · cases h
          exact Outcome.holds_mono _ _ _ (fun s hs => congrArg OutputStream.finished hs)
            (crossfade_abort_sink E _)
        · split at h
          · cases h; trivial
          · split at h
            · cases h; exact rfl
            · have ih := crossfade_loop_finished E fuel _ _ o h
              exact ih
          · rename_i src k2 rem2 _
            have hw := write_frame_finished W.sink src
            split at h
            · cases h; trivial
            · rename_i heq
              cases h
              rw [heq] at hw
              exact hw
            · rename_i heq
              rw [heq] at hw
              exact Outcome.holds_mono _ _ _ (fun s hs => hs.trans hw)
                (crossfade_loop_finished E fuel _ _ o h)
      · cases h
        exact Outcome.holds_mono _ _ _ (fun s hs => congrArg OutputStream.finished hs.2.1)
          (crossfade_finish_keeps E _)
    · cases h
      exact Outcome.holds_mono _ _ _ (fun s hs => congrArg OutputStream.finished hs.2.1)
        (crossfade_finish_keeps E _)

theorem crossfade_finished (E : Env) (fuel : Nat) (W : Engine)
    (o : Outcome InputStreamRef Engine) (h : crossfade E fuel W = some o) :
    o.holds (fun W1 => W1.sink.finished = W.sink.finished) := by
  unfold crossfade at h
  split at h
  · cases h; trivial
  · cases h
    exact Outcome.holds_mono _ _ _ (fun s hs => congrArg OutputStream.finished hs)
      (crossfade_abort_sink E _)
  · split at h
    · cases h; trivial
    · cases h
      exact Outcome.holds_mono _ _ _ (fun s hs => congrArg OutputStream.finished hs)
        (crossfade_abort_sink E _)
    · have ih := crossfade_loop_finished E fuel _ _ o h
      exact ih

theorem assign_crossfade_result_sink (W : Engine) (r : InputStreamRef) :
    (assign_crossfade_result W r).sink = W.sink := by
  unfold assign_crossfade_result operator_assign
  split
  · rfl
  · rfl

theorem audio_processing_finished (E : Env) (C : Control) :
    ∀ (fuel : Nat) (W : Engine) (o : Outcome Unit Engine),
      audio_processing E C fuel W = some o →
      match o with
      | .ret _ W1 =>
        W1.sink.finished = W.sink.finished + 1 ∧ 0 < W1.stop_reads ∧
          E.flags_stop (W1.stop_reads - 1) = true
      | .thrown _ W1 => W1.sink.finished = W.sink.finished
      | .undefined => True
  | 0, W, o, h => by simp [audio_processing] at h
  | fuel + 1, W, o, h => by
    unfold audio_processing at h
    have hs : (read_normal_streaming C { W with stop_reads := W.stop_reads + 1 }).sink = W.sink :=
      read_normal_streaming_sink C _
    split at h
    · split at h
      · split at h
        · cases h
        · cases h; trivial
        · rename_i m W1 heq
          cases h
          have hc := continue_streaming_finished E C fuel _ _ heq
          exact hc.trans (congrArg OutputStream.finished hs)
        · rename_i u W1 heq
          have hc : W1.sink.finished = _ := continue_streaming_finished E C fuel _ _ heq
          have ih := audio_processing_finished E C fuel W1 o h
          rw [hc, hs] at ih
          exact ih
      · split at h
        · cases h
        · cases h; trivial
        · rename_i m W1 heq
          cases h
          have hc := crossfade_finished E fuel _ _ heq
          exact hc.trans (congrArg OutputStream.finished hs)
        · rename_i r W1 heq
          have hc : W1.sink.finished = _ := crossfade_finished E fuel _ _ heq
          have ih := audio_processing_finished E C fuel _ o h
          have e : ({ (assign_crossfade_result W1 r) with normal_streaming := true } :
              Engine).sink.finished = W.sink.finished := by
            show (assign_crossfade_result W1 r).sink.finished = _
            rw [assign_crossfade_result_sink, hc, hs]
          rw [e] at ih
          exact ih
    · rename_i hstop
      cases h
      refine ⟨rfl, Nat.succ_pos _, ?_⟩
      show E.flags_stop (W.stop_reads + 1 - 1) = true
      rw [Nat.add_sub_cancel]
      simpa using hstop

theorem continue_streaming_stop (E : Env) (C : Control) (fuel : Nat) (W : Engine)
    (h : E.flags_stop W.stop_reads = true) :
    ∃ W1, continue_streaming E C (fuel + 1) W = some (.ret () W1) ∧
      W1.source = W.source ∧ W1.sink = W.sink ∧ W1.rand_calls = W.rand_calls := by
  obtain ⟨hs, hk, hr, _⟩ := read_normal_streaming_fields C W
  rw [continue_streaming]
  split
  · rw [if_neg (by rw [h]; decide)]
    exact ⟨_, rfl, hs, hk, hr⟩
  · exact ⟨_, rfl, hs, hk, hr⟩

theorem crossfade_loop_stop (E : Env) (fuel : Nat) (W : Engine) (r : Int)
    (h : E.flags_stop W.stop_reads = true) :
    crossfade_loop E (fuel + 1) W r =
      some (crossfade_finish E
        (if 0 < r then { W with stop_reads := W.stop_reads + 1 } else W)) := by
  rw [crossfade_loop]
  by_cases hr : 0 < r
  · rw [if_pos hr, if_pos (show r > 0 from hr), if_neg (by rw [h]; decide)]
  · rw [if_neg hr, if_neg (show ¬ r > 0 from hr)]

theorem audio_processing_stop (E : Env) (C : Control) (fuel : Nat) (W : Engine)
    (h : E.flags_stop W.stop_reads = true) :
    audio_processing E C (fuel + 1) W =
      some (.ret () { W with stop_reads := W.stop_reads + 1,
                             sink := W.sink.finish_streaming }) := by
  rw [audio_processing, if_neg (by rw [h]; decide)]

theorem audio_processing_stop_while_streaming (E : Env) (C : Control) (fuel : Nat) (W : Engine)
    (h0 : E.flags_stop W.stop_reads = false)
    (h_arm : C.arm (W.stop_reads + 1) = none) (h_normal : W.normal_streaming = true)
    (h1 : E.flags_stop (W.stop_reads + 1) = true)
    (h2 : E.flags_stop (W.stop_reads + 1 + 1) = true) :
    audio_processing E C (fuel + 1 + 1) W =
      some (.ret () { W with stop_reads := W.stop_reads + 1 + 1 + 1,
                             sink := W.sink.finish_streaming }) := by
  have hr : read_normal_streaming C { W with stop_reads := W.stop_reads + 1 }
      = { W with stop_reads := W.stop_reads + 1 } := read_normal_streaming_idle C _ h_arm
  have hc : continue_streaming E C (fuel + 1) { W with stop_reads := W.stop_reads + 1 }
      = some (.ret () { W with stop_reads := W.stop_reads + 1 + 1 }) := by
    rw [continue_streaming, hr, if_pos h_normal, if_neg (by rw [h1]; decide)]
  rw [audio_processing, if_pos (by rw [h0]; rfl), hr, if_pos h_normal, hc]
  exact audio_processing_stop E C fuel _ h2

theorem audio_processing_stop_while_fading (E : Env) (C : Control) (fuel : Nat) (W : Engine)
    (src ns ns1 : InputStream)
    (h0 : E.flags_stop W.stop_reads = false)
    (h_arm : C.arm (W.stop_reads + 1) = none) (h_normal : W.normal_streaming = false)
    (h_src : init_crossfade E W.source = .ret () src)
    (h_ns : init_crossfade E W.new_source = .ret () ns)
    (h_fade : 0 < E.DEFAULT_FADE_MS)
    (h1 : E.flags_stop (W.stop_reads + 1) = true)
    (h_end : end_crossfade E ns = .ret () ns1)
    (h2 : E.flags_stop (W.stop_reads + 1 + 1) = true) :
    audio_processing E C (fuel + 1 + 1) W =
      some (.ret ()
        { (assign_crossfade_result
            { W with stop_reads := W.stop_reads + 1 + 1, source := src, new_source := ns1 }
            .new_source) with
          normal_streaming := true, stop_reads := W.stop_reads + 1 + 1 + 1,
          sink := W.sink.finish_streaming }) := by
  have hr : read_normal_streaming C { W with stop_reads := W.stop_reads + 1 }
      = { W with stop_reads := W.stop_reads + 1 } := read_normal_streaming_idle C _ h_arm
  have hc : crossfade E (fuel + 1) { W with stop_reads := W.stop_reads + 1 }
      = some (.ret .new_source
          { W with stop_reads := W.stop_reads + 1 + 1, source := src, new_source := ns1 }) := by
    simp only [crossfade, h_src, h_ns]
    rw [crossfade_loop_stop E fuel _ _ h1, if_pos h_fade]
    simp only [crossfade_finish, h_end]
  have hn : ¬ (({ W with stop_reads := W.stop_reads + 1 } : Engine).normal_streaming = true) := by
    show ¬ (W.normal_streaming = true)
    rw [h_normal]; decide
  rw [audio_processing, if_pos (by rw [h0]; rfl), hr, if_neg hn, hc]
  simp only
  rw [audio_processing_stop E C fuel _ (by
    show E.flags_stop (assign_crossfade_result _ _).stop_reads = true
    unfold assign_crossfade_result operator_assign
    simp only [reduceCtorEq, if_false]
    exact h2)]
  rfl

/-- C18. Shutdown. (1) When the test of the streaming loop is evaluated with
`stop` true, `continue_streaming` returns at once: no frame is pulled or
written. (2) When the test of the crossfade loop is evaluated with `stop` true,
the loop starts no iteration and `crossfade` goes straight to its final
`end_crossfade`, which pulls, mixes and writes nothing. (3) When the test of
`audio_processing` is evaluated with `stop` true, it leaves its loop, calls
`sink.finish_streaming` once and returns. (4, 5) With `stop` staying true, a
stop seen by the streaming loop or by the crossfade loop (whose final
`end_crossfade` returns) makes `audio_processing` return with the sink finished
once and nothing more written. (6) Whenever `audio_processing` returns,
`finish_streaming` has been called exactly once and the last read of `stop` gave
true; when it ends by an exception it has not been called. (7) Neither
`continue_streaming` nor `crossfade` calls it. -/
theorem shutdown_on_stop (E : Env) (C : Control) :
    (∀ (fuel : Nat) (W : Engine), E.flags_stop W.stop_reads = true →
      ∃ W1, continue_streaming E C (fuel + 1) W = some (.ret () W1) ∧
        W1.source = W.source ∧ W1.sink = W.sink ∧ W1.rand_calls = W.rand_calls) ∧
    (∀ (fuel : Nat) (W : Engine) (r : Int), E.flags_stop W.stop_reads = true →
      crossfade_loop E (fuel + 1) W r =
        some (crossfade_finish E
          (if 0 < r then { W with stop_reads := W.stop_reads + 1 } else W)) ∧
      (crossfade_finish E
          (if 0 < r then { W with stop_reads := W.stop_reads + 1 } else W)).holds
        (fun W1 => W1.source = W.source ∧ W1.sink = W.sink ∧ W1.rand_calls = W.rand_calls)) ∧
    (∀ (fuel : Nat) (W : Engine), E.flags_stop W.stop_reads = true →
      ∃ W1, audio_processing E C (fuel + 1) W = some (.ret () W1) ∧
        W1.sink = W.sink.finish_streaming ∧ W1.sink.finished = W.sink.finished + 1 ∧
        W1.sink.written = W.sink.written ∧ W1.source = W.source) ∧
    (∀ (fuel : Nat) (W : Engine), E.flags_stop W.stop_reads = false →
      C.arm (W.stop_reads + 1) = none → W.normal_streaming = true →
      E.flags_stop (W.stop_reads + 1) = true → E.flags_stop (W.stop_reads + 1 + 1) = true →
      ∃ W1, audio_processing E C (fuel + 1 + 1) W = some (.ret () W1) ∧
        W1.sink = W.sink.finish_streaming ∧ W1.source = W.source) ∧
    (∀ (fuel : Nat) (W : Engine) (src ns ns1 : InputStream),
      E.flags_stop W.stop_reads = false →
      C.arm (W.stop_reads + 1) = none → W.normal_streaming = false →
      init_crossfade E W.source = .ret () src → init_crossfade E W.new_source = .ret () ns →
      0 < E.DEFAULT_FADE_MS →
      E.flags_stop (W.stop_reads + 1) = true → end_crossfade E ns = .ret () ns1 →
      E.flags_stop (W.stop_reads + 1 + 1) = true →
      ∃ W1, audio_processing E C (fuel + 1 + 1) W = some (.ret () W1) ∧
        W1.sink = W.sink.finish_streaming) ∧
    (∀ (fuel : Nat) (W : Engine) (o : Outcome Unit Engine),
      audio_processing E C fuel W = some o →
      match o with
      | .ret _ W1 =>
        W1.sink.finished = W.sink.finished + 1 ∧ 0 < W1.stop_reads ∧
          E.flags_stop (W1.stop_reads - 1) = true
      | .thrown _ W1 => W1.sink.finished = W.sink.finished
      | .undefined => True) ∧
    (∀ (fuel : Nat) (W : Engine) (o : Outcome Unit Engine),
      continue_streaming E C fuel W = some o →
      o.holds (fun W1 => W1.sink.finished = W.sink.finished)) ∧
    (∀ (fuel : Nat) (W : Engine) (o : Outcome InputStreamRef Engine),
      crossfade E fuel W = some o →
      o.holds (fun W1 => W1.sink.finished = W.sink.finished)) := by
  refine ⟨continue_streaming_stop E C, ?_, ?_, ?_, ?_, audio_processing_finished E C,
    continue_streaming_finished E C, crossfade_finished E⟩
  · intro fuel W r h
    refine ⟨crossfade_loop_stop E fuel W r h, ?_⟩
    have hk := crossfade_finish_keeps E
      (if 0 < r then { W with stop_reads := W.stop_reads + 1 } else W)
    refine Outcome.holds_mono _ _ _ ?_ hk
    intro s hs
    split at hs <;> exact hs
  · intro fuel W h
    exact ⟨_, audio_processing_stop E C fuel W h, rfl, rfl, rfl, rfl⟩
  · intro fuel W h0 h_arm h_normal h1 h2
    exact ⟨_, audio_processing_stop_while_streaming E C fuel W h0 h_arm h_normal h1 h2, rfl, rfl⟩
  · intro fuel W src ns ns1 h0 h_arm h_normal h_src h_ns h_fade h1 h_end h2
    refine ⟨_, audio_processing_stop_while_fading E C fuel W src ns ns1 h0 h_arm h_normal h_src
      h_ns h_fade h1 h_end h2, ?_⟩
    rfl

/-- Witness for C18: `stop` is requested after the first test of
`audio_processing`, once while streaming and once while a fade is pending; in
both runs the thread returns with the sink finished once and no frame written. -/
theorem shutdown_on_stop_witness :
    (∃ W1 : Engine,
      audio_processing (demo_env_stop_at 1) demo_control (0 + 1 + 1)
        (demo_streaming 2 [[1, 2], [3, 4]] demo_sink) = some (.ret () W1) ∧
      W1.sink.finished = 1 ∧ W1.sink.written = []) ∧
    (∃ W1 : Engine,
      audio_processing (demo_env_stop_at 1) demo_control (0 + 1 + 1) demo_fade
        = some (.ret () W1) ∧
      W1.sink.finished = 1 ∧ W1.sink.written = []) := by
  obtain ⟨_, _, _, hs, hf, hinv, _, _⟩ := shutdown_on_stop (demo_env_stop_at 1) demo_control
  constructor
  · obtain ⟨W1, h, hsink, _⟩ := hs 0 (demo_streaming 2 [[1, 2], [3, 4]] demo_sink)
      rfl rfl rfl rfl rfl
    have hi := hinv _ _ _ h
    refine ⟨W1, h, hi.1, ?_⟩
    rw [hsink]
    rfl
  · obtain ⟨W1, h, hsink⟩ := hf 0 demo_fade _ _ _ rfl rfl rfl rfl rfl (by decide) rfl rfl rfl
    have hi := hinv _ _ _ h
    refine ⟨W1, h, hi.1, ?_⟩
    rw [hsink]
    rfl

/-! ## C19: the test of the decode loop -/

/-- C19, where the code departs from the spec. The decode loop runs while
`av_audio_fifo_size(m_queue) <= m_output_frame_size`, so it goes on when the
buffer holds exactly one frame. On a bound stream with an empty buffer and
frames of two samples: when the source has one packet left, which decodes to two
samples, the call reads on, meets the end of the input and throws, although a
whole frame is buffered; when the source has two such packets, the call consumes
both before it pops its frame, leaving two samples buffered. -/
theorem decode_loop_reads_past_whole_frame :
    (∃ (s1 : InputStream) (q : AVAudioFifo),
      get_one_output_frame demo_env (demo_bound 0 [[], []] [(0, demo_packet)]) 0
        = .thrown "no more packets, reached end of input" (s1, 0) ∧
      s1.m_queue = some q ∧ av_audio_fifo_size q = 2 ∧ s1.m_output_frame_size = 2 ∧
      q.buf = [[1, 2], [3, 4]]) ∧
    (∃ (s1 : InputStream) (q : AVAudioFifo),
      get_one_output_frame demo_env
          (demo_bound 0 [[], []] [(0, demo_packet), (0, demo_packet)]) 0
        = .ret true (s1, 0) ∧
      s1.m_format_ctx = some ⟨[]⟩ ∧ s1.m_queue = some q ∧ av_audio_fifo_size q = 2) := by
  refine ⟨⟨_, _, rfl, rfl, rfl, rfl, rfl⟩, ⟨_, _, rfl, rfl, rfl, rfl⟩⟩

/-! ## C20: the crossfade need not make progress -/

theorem get_frame_length_milliseconds_zero (s : InputStream) (f : AVFrame)
    (h_frame : s.m_frame = some f) (h_rate : 1000 ≤ f.sample_rate)
    (h_pos : 0 ≤ f.nb_samples) (h_small : f.nb_samples < Int.tdiv f.sample_rate 1000) :
    get_frame_length_milliseconds s = some 0 := by
  have h1 : Int.tdiv f.sample_rate 1000 ≠ 0 := by
    rw [Int.tdiv_eq_ediv (by omega) (by omega)]
    omega
  simp only [get_frame_length_milliseconds, h_frame, h1, if_false]
  rw [Int.tdiv_eq_ediv h_pos (by omega)]
  congr 1
  exact Int.ediv_eq_zero_of_lt h_pos h_small

theorem get_frame_length_milliseconds_undefined (s : InputStream) (f : AVFrame)
    (h_frame : s.m_frame = some f) (h_pos : 0 < f.sample_rate) (h_rate : f.sample_rate < 1000) :
    get_frame_length_milliseconds s = none := by
  have h1 : Int.tdiv f.sample_rate 1000 = 0 := by
    rw [Int.tdiv_eq_ediv (by omega) (by omega)]
    omega
  simp only [get_frame_length_milliseconds, h_frame, h1, if_true]

/-- C20, where the code departs from the spec. The length of a frame is computed
as `nb_samples / (sample_rate / 1000)` in integers. At 48 kHz with frames of two
samples it is 0 ms: `crossfade_frame` returns with `fade_time_remaining`
unchanged (5000), and after two whole iterations of the crossfade loop, two
frames written, the loop stands where it started with 5000 ms to go. The same 0
is found for frames of 32 samples at 48 kHz. At 800 Hz, a positive sample rate,
`sample_rate / 1000` is 0 and the division is undefined, and so is
`crossfade_frame`. -/
theorem crossfade_frame_no_progress :
    (∃ s1 : InputStream,
      crossfade_frame demo_env (demo_bound 2 [[1, 2], [3, 4]] []) (some demo_incoming)
        5000 5000 0 = .ret true (s1, 0, 5000)) ∧
    (∃ W2 : Engine,
      fade_iterations demo_env 0
        ⟨demo_bound 4 [[1, 2, 3, 4], [5, 6, 7, 8]] [],
         demo_bound 4 [[10, 20, 30, 40], [50, 60, 70, 80]] [], demo_sink, false, 0, 0⟩
        5000 2 = some W2 ∧
      W2.sink.written.length = 2 ∧
      ∀ fuel : Nat,
        crossfade_loop demo_env (2 + fuel)
          ⟨demo_bound 4 [[1, 2, 3, 4], [5, 6, 7, 8]] [],
           demo_bound 4 [[10, 20, 30, 40], [50, 60, 70, 80]] [], demo_sink, false, 0, 0⟩ 5000
        = crossfade_loop demo_env fuel W2 5000) ∧
    get_frame_length_milliseconds
      { InputStream.InputStream_default with
          m_frame := some ⟨.FLTP, ⟨2⟩, 48000, 32, []⟩ } = some 0 ∧
    get_frame_length_milliseconds
      { InputStream.InputStream_default with
          m_frame := some ⟨.FLTP, ⟨2⟩, 800, 1024, []⟩ } = none ∧
    crossfade_frame demo_env
      { (demo_bound 2 [[1, 2], [3, 4]] []) with
          m_frame := some ⟨.FLTP, ⟨2⟩, 800, 2, [[0, 0], [0, 0]]⟩ }
      (some demo_incoming) 5000 5000 0 = .undefined := by
  refine ⟨⟨_, rfl⟩, ⟨_, rfl, rfl, ?_⟩, by decide, by decide, rfl⟩
  intro fuel
  have h := (fade_iterations_loop demo_env 0
    ⟨demo_bound 4 [[1, 2, 3, 4], [5, 6, 7, 8]] [],
     demo_bound 4 [[10, 20, 30, 40], [50, 60, 70, 80]] [], demo_sink, false, 0, 0⟩
    5000 2 fuel _ rfl).1
  simpa using h

/-! ## C23: the stream that replaces a failed outgoing stream -/

/-- C23, where the code departs from the spec. A fade on a profile of
interleaved 16-bit stereo whose outgoing stream fails at the first frame:
`init_crossfade` has put both streams in the crossfade shape, the failed
outgoing stream is replaced by a synthetic silence stream on which
`init_crossfade` is not called, whose primary resampler targets the profile
(interleaved 16-bit) and not planar float; the next iteration calls
`crossfade_frame` on it, and the mixing loop reads a second plane that the
interleaved frame does not have: the call, and with it `crossfade`, is
undefined. -/
theorem crossfade_frame_on_unprepared_stream :
    ∃ (src ns : InputStream) (W1 : Engine),
      init_crossfade demo_env demo_fade_s16.source = .ret () src ∧
      init_crossfade demo_env demo_fade_s16.new_source = .ret () ns ∧
      xfade_shape src = true ∧ xfade_shape ns = true ∧
      crossfade_step demo_env (after_init demo_fade_s16 src ns) 5000 = some (W1, 5000) ∧
      W1.source.m_source_valid = false ∧ W1.source.m_source_mode = .silence ∧
      xfade_shape W1.source = false ∧
      (∃ c : SwrContext, W1.source.m_swr_ctx = some c ∧ c.out_sample_fmt = .S16) ∧
      (∃ (b : Bool) (nsf : InputStream) (k : Nat),
        get_one_output_frame demo_env W1.new_source W1.rand_calls = .ret b (nsf, k) ∧
        crossfade_frame demo_env W1.source nsf.get_frame 5000 5000 k = .undefined) ∧
      crossfade demo_env 2 demo_fade_s16 = some .undefined := by
  refine ⟨_, _, _, rfl, rfl, rfl, rfl, rfl, rfl, rfl, rfl, ⟨_, rfl, rfl⟩,
    ⟨_, _, _, rfl, rfl⟩, rfl⟩

/-! ## C24: every channel of a synthesised sample index carries the same value -/

theorem synth_fill_channels (E : Env) (mode : DefaultSourceModes) (nb_channels : Int) :
    ∀ (count k j i : Nat), j < count → i < nb_channels.toNat →
      (synth_fill E mode nb_channels count k).1[j * nb_channels.toNat + i]?
        = some (synth_sample E mode k j)
  | 0, _, j, _, hj, _ => absurd hj (Nat.not_lt_zero j)
  | count + 1, k, 0, i, _, hi => by
    simp only [synth_fill, Nat.zero_mul, Nat.zero_add]
    rw [List.getElem?_append_left (by simpa using hi)]
    cases mode <;> simp [synth_sample, hi]
  | count + 1, k, j + 1, i, hj, hi => by
    have ih := synth_fill_channels E mode nb_channels count (synth_value E mode k).2 j i
      (Nat.lt_of_succ_lt_succ hj) hi
    simp only [synth_fill]
    rw [List.getElem?_append_right (by
      simp only [List.length_replicate]
      rw [Nat.succ_mul]
      omega)]
    have hidx : (j + 1) * nb_channels.toNat + i
        - (List.replicate nb_channels.toNat
            (((to_int16 (synth_value E mode k).1 : Int)) : ℚ)).length
        = j * nb_channels.toNat + i := by
      simp only [List.length_replicate]
      rw [Nat.succ_mul]
      omega
    rw [hidx, ih]
    cases mode with
    | silence => rfl
    | white_noise =>
      simp only [synth_sample, synth_value]
      rw [Nat.add_assoc, Nat.add_comm 1 j]

theorem synth_fill_rand (E : Env) (mode : DefaultSourceModes) (nb_channels : Int) :
    ∀ (count k : Nat),
      (synth_fill E mode nb_channels count k).2
        = (match mode with
           | .silence => k
           | .white_noise => k + count)
  | 0, k => by cases mode <;> rfl
  | count + 1, k => by
    have ih := synth_fill_rand E mode nb_channels count (synth_value E mode k).2
    simp only [synth_fill]
    rw [ih]
    cases mode with
    | silence => rfl
    | white_noise =>
      simp only [synth_value]
      omega

theorem store_getElem (w p : List ℚ) (i : Nat) (h : i < w.length) :
    (store w p)[i]? = w[i]? := by
  unfold store
  exact List.getElem?_append_left h

theorem synth_index_lt (j i n c : Nat) (hj : j < n) (hi : i < c) : j * c + i < n * c := by
  have h : (j + 1) * c ≤ n * c := Nat.mul_le_mul_right c hj
  rw [Nat.succ_mul] at h
  omega

theorem synth_plane_channels (E : Env) (mode : DefaultSourceModes) (tmp : AVFrame) (k : Nat)
    (p : List ℚ) (j i : Nat)
    (hj : j < tmp.nb_samples.toNat) (hi : i < tmp.ch_layout.nb_channels.toNat) :
    (store (synth_fill E mode tmp.ch_layout.nb_channels tmp.nb_samples.toNat k).1 p)[
        j * tmp.ch_layout.nb_channels.toNat + i]?
      = some (synth_sample E mode k j) ∧
    (store (synth_fill E mode tmp.ch_layout.nb_channels tmp.nb_samples.toNat k).1 p)[
        j * tmp.ch_layout.nb_channels.toNat + i]?
      = (store (synth_fill E mode tmp.ch_layout.nb_channels tmp.nb_samples.toNat k).1 p)[
        j * tmp.ch_layout.nb_channels.toNat]? := by
  have hlen := synth_fill_length E mode tmp.ch_layout.nb_channels tmp.nb_samples.toNat k
  have h0 : 0 < tmp.ch_layout.nb_channels.toNat := Nat.lt_of_le_of_lt (Nat.zero_le i) hi
  have hi1 := synth_fill_channels E mode tmp.ch_layout.nb_channels tmp.nb_samples.toNat k j i hj hi
  have hi0 := synth_fill_channels E mode tmp.ch_layout.nb_channels tmp.nb_samples.toNat k j 0 hj h0
  rw [Nat.add_zero] at hi0
  have e1 := store_getElem (synth_fill E mode tmp.ch_layout.nb_channels tmp.nb_samples.toNat k).1 p
    (j * tmp.ch_layout.nb_channels.toNat + i) (by rw [hlen]; exact synth_index_lt _ _ _ _ hj hi)
  have e0 := store_getElem (synth_fill E mode tmp.ch_layout.nb_channels tmp.nb_samples.toNat k).1 p
    (j * tmp.ch_layout.nb_channels.toNat) (by
      rw [hlen]
      have := synth_index_lt j 0 _ _ hj h0
      omega)
  rw [e1, e0, hi1, hi0]
  exact ⟨rfl, rfl⟩

/-- C24. In the 16-bit interleaved frame synthesised by `get_one_output_frame`
on a synthetic `InputStream`, and by `DefaultInputStream::get_one_output_frame`,
every channel `i` of every sample index `j` carries the same value, the one
value computed for that index; in white-noise mode that value comes from a
single draw of `std::rand`, the draw number `k + j`, and a frame of `n` sample
indexes makes `n` draws whatever the number of channels, so the channels are
identical and not drawn independently. The frame is then handed to the primary
resampler. -/
theorem synth_channels_identical (E : Env) :
    (∀ (s : InputStream) (k : Nat) (tmp frm : AVFrame) (swr : SwrContext),
      s.m_source_valid = false →
      s.m_temp_frame = some tmp → s.m_frame = some frm → s.m_swr_ctx = some swr →
      (tmp.data ≠ [] ∨ tmp.nb_samples.toNat * tmp.ch_layout.nb_channels.toNat = 0) →
      ∃ (tmp1 : AVFrame) (k1 : Nat),
        get_one_output_frame E s k =
          (if (E.swr_convert swr frm.data tmp.nb_samples tmp1.data tmp.nb_samples).1 < 0
           then .thrown "Default input: error resampling frame"
             (after_synth E s tmp1 frm swr, k1)
           else .ret true (after_synth E s tmp1 frm swr, k1)) ∧
        tmp1.format = tmp.format ∧ tmp1.nb_samples = tmp.nb_samples ∧
        tmp1.ch_layout = tmp.ch_layout ∧
        k1 = (match s.m_source_mode with
              | .silence => k
              | .white_noise => k + tmp.nb_samples.toNat) ∧
        ∀ p ps, tmp.data = p :: ps →
          ∃ plane, tmp1.data = plane :: ps ∧
            ∀ j i : Nat, j < tmp.nb_samples.toNat → i < tmp.ch_layout.nb_channels.toNat →
              plane[j * tmp.ch_layout.nb_channels.toNat + i]?
                = some (synth_sample E s.m_source_mode k j) ∧
              plane[j * tmp.ch_layout.nb_channels.toNat + i]?
                = plane[j * tmp.ch_layout.nb_channels.toNat]?) ∧
    (∀ (d : DefaultInputStream) (mode : DefaultSourceModes) (k : Nat) (tmp frm : AVFrame)
        (swr : SwrContext),
      d.m_temp_frame = some tmp → d.m_frame = some frm → d.m_swr_ctx = some swr →
      (tmp.data ≠ [] ∨ tmp.nb_samples.toNat * tmp.ch_layout.nb_channels.toNat = 0) →
      ∃ (tmp1 : AVFrame) (k1 : Nat),
        DefaultInputStream.get_one_output_frame E d mode k =
          (if (E.swr_convert swr frm.data tmp.nb_samples tmp1.data tmp.nb_samples).1 < 0
           then .thrown "Default input: error resampling frame"
             ((after_synth_default E d tmp1 frm swr).cleanup, k1)
           else .ret true (after_synth_default E d tmp1 frm swr, k1)) ∧
        tmp1.format = tmp.format ∧ tmp1.nb_samples = tmp.nb_samples ∧
        tmp1.ch_layout = tmp.ch_layout ∧
        k1 = (match mode with
              | .silence => k
              | .white_noise => k + tmp.nb_samples.toNat) ∧
        ∀ p ps, tmp.data = p :: ps →
          ∃ plane, tmp1.data = plane :: ps ∧
            ∀ j i : Nat, j < tmp.nb_samples.toNat → i < tmp.ch_layout.nb_channels.toNat →
              plane[j * tmp.ch_layout.nb_channels.toNat + i]?
                = some (synth_sample E mode k j) ∧
              plane[j * tmp.ch_layout.nb_channels.toNat + i]?
                = plane[j * tmp.ch_layout.nb_channels.toNat]?) := by
  have hcond : ∀ (mode : DefaultSourceModes) (tmp : AVFrame) (k : Nat),
      (tmp.data ≠ [] ∨ tmp.nb_samples.toNat * tmp.ch_layout.nb_channels.toNat = 0) →
      (tmp.data ≠ [] ∨
        (synth_fill E mode tmp.ch_layout.nb_channels tmp.nb_samples.toNat k).1 = []) := by
    intro mode tmp k h
    rcases h with h | h
    · exact Or.inl h
    · right
      have hl := synth_fill_length E mode tmp.ch_layout.nb_channels tmp.nb_samples.toNat k
      rw [h] at hl
      exact List.length_eq_zero.mp hl
  constructor
  · intro s k tmp frm swr h_valid h_tmp h_frm h_swr h_buf
    have hs := synth_frame_eq E s.m_source_mode tmp k (hcond _ tmp k h_buf)
    refine ⟨{ tmp with data := (store_first
        (synth_fill E s.m_source_mode tmp.ch_layout.nb_channels tmp.nb_samples.toNat k).1
        tmp.data) },
      (synth_fill E s.m_source_mode tmp.ch_layout.nb_channels tmp.nb_samples.toNat k).2,
      ?_, rfl, rfl, rfl, synth_fill_rand E _ _ _ _, ?_⟩
    · simp only [get_one_output_frame, h_tmp, h_frm, h_swr, h_valid, hs, after_synth,
        Bool.not_false, if_true]
    · intro p ps hp
      refine ⟨store
        (synth_fill E s.m_source_mode tmp.ch_layout.nb_channels tmp.nb_samples.toNat k).1 p,
        by simp only [hp, store_first], ?_⟩
      intro j i hj hi
      exact synth_plane_channels E s.m_source_mode tmp k p j i hj hi
  · intro d mode k tmp frm swr h_tmp h_frm h_swr h_buf
    have hs := synth_frame_eq E mode tmp k (hcond _ tmp k h_buf)
    refine ⟨{ tmp with data := (store_first
        (synth_fill E mode tmp.ch_layout.nb_channels tmp.nb_samples.toNat k).1
        tmp.data) },
      (synth_fill E mode tmp.ch_layout.nb_channels tmp.nb_samples.toNat k).2,
      ?_, rfl, rfl, rfl, synth_fill_rand E _ _ _ _, ?_⟩
    · simp only [DefaultInputStream.get_one_output_frame, h_tmp, h_frm, h_swr, hs,
        after_synth_default]
    · intro p ps hp
      refine ⟨store
        (synth_fill E mode tmp.ch_layout.nb_channels tmp.nb_samples.toNat k).1 p,
        by simp only [hp, store_first], ?_⟩
      intro j i hj hi
      exact synth_plane_channels E mode tmp k p j i hj hi

/-- Witness for C24: the synthetic white-noise stream and the default stream of
the demo configuration, two sample indexes of two channels. -/
theorem synth_channels_identical_witness :
    (∃ (tmp1 : AVFrame) (plane : List ℚ),
      get_one_output_frame demo_env (demo_synthetic .white_noise) 0 =
        .ret true
          (after_synth demo_env (demo_synthetic .white_noise) tmp1
            ⟨.FLTP, ⟨2⟩, 48000, 2, [[0, 0], [0, 0]]⟩ demo_swr, 2) ∧
      tmp1.data = [plane] ∧ plane[1]? = plane[0]? ∧ plane[3]? = plane[2]? ∧
      plane[0]? = some (synth_sample demo_env .white_noise 0 0) ∧
      plane[2]? = some (synth_sample demo_env .white_noise 0 1)) ∧
    (∃ (tmp1 : AVFrame) (plane : List ℚ),
      DefaultInputStream.get_one_output_frame demo_env demo_default_stream .white_noise 0 =
        .ret true
          (after_synth_default demo_env demo_default_stream tmp1
            ⟨.FLTP, ⟨2⟩, 48000, 2, [[0, 0], [0, 0]]⟩ demo_swr, 2) ∧
      tmp1.data = [plane] ∧ plane[1]? = plane[0]? ∧ plane[3]? = plane[2]?) := by
  have h := synth_channels_identical demo_env
  constructor
  · obtain ⟨tmp1, k1, he, _, hn, _, hk, hp⟩ := h.1 (demo_synthetic .white_noise) 0
      ⟨.S16, ⟨2⟩, 48000, 2, [[0, 0, 0, 0]]⟩ ⟨.FLTP, ⟨2⟩, 48000, 2, [[0, 0], [0, 0]]⟩
      demo_swr rfl rfl rfl rfl (Or.inl (by decide))
    obtain ⟨plane, hd, hch⟩ := hp [0, 0, 0, 0] [] rfl
    have hk2 : k1 = 2 := hk
    subst hk2
    have a1 : plane[1]? = plane[0]? := (hch 0 1 (by decide) (by decide)).2
    have a3 : plane[3]? = plane[2]? := (hch 1 1 (by decide) (by decide)).2
    have a0 : plane[0]? = some (synth_sample demo_env .white_noise 0 0) :=
      (hch 0 0 (by decide) (by decide)).1
    have a2 : plane[2]? = some (synth_sample demo_env .white_noise 0 1) :=
      (hch 1 0 (by decide) (by decide)).1
    refine ⟨tmp1, plane, ?_, hd, a1, a3, a0, a2⟩
    rw [he]
    have hc : ¬ (demo_env.swr_convert demo_swr [[0, 0], [0, 0]] 2 tmp1.data 2).1 < 0 := by
      show ¬ (2 : Int) < 0
      decide
    exact if_neg hc
  · obtain ⟨tmp1, k1, he, _, hn, _, hk, hp⟩ := h.2 demo_default_stream .white_noise 0
      ⟨.S16, ⟨2⟩, 48000, 2, [[0, 0, 0, 0]]⟩ ⟨.FLTP, ⟨2⟩, 48000, 2, [[0, 0], [0, 0]]⟩
      demo_swr rfl rfl rfl (Or.inl (by decide))
    obtain ⟨plane, hd, hch⟩ := hp [0, 0, 0, 0] [] rfl
    have hk2 : k1 = 2 := hk
    subst hk2
    have a1 : plane[1]? = plane[0]? := (hch 0 1 (by decide) (by decide)).2
    have a3 : plane[3]? = plane[2]? := (hch 1 1 (by decide) (by decide)).2
    refine ⟨tmp1, plane, ?_, hd, a1, a3⟩
    rw [he]
    have hc : ¬ (demo_env.swr_convert demo_swr [[0, 0], [0, 0]] 2 tmp1.data 2).1 < 0 := by
      show ¬ (2 : Int) < 0
      decide
    exact if_neg hc

/-! ## C9: the abort path after the outgoing stream was replaced -/

theorem InputStream_synthetic_queue (E : Env) (ctx : AVCodecContext)
    (mode : DefaultSourceModes) (syn : InputStream)
    (h : InputStream.InputStream_synthetic E ctx mode = .ok syn) : syn.m_queue = none := by
  unfold InputStream.InputStream_synthetic at h
  split at h
  · cases h
  · split at h
    · cases h
    · simp only at h
      split at h
      · cases h
      · split at h
        · cases h
        · cases h
          rfl

theorem end_crossfade_no_queue (E : Env) (s : InputStream) (h : s.m_queue = none)
    (u : Unit) (s1 : InputStream) : end_crossfade E s ≠ .ret u s1 := by
  unfold end_crossfade
  split
  · intro hc; cases hc
  · simp only
    split
    · intro hc; cases hc
    · rw [h]
      intro hc
      cases hc

theorem end_crossfade_replacement (E : Env) (ctx : AVCodecContext)
    (mode : DefaultSourceModes) (syn old : InputStream)
    (h : InputStream.InputStream_synthetic E ctx mode = .ok syn)
    (u : Unit) (s1 : InputStream) : end_crossfade E (move_assign old syn).1 ≠ .ret u s1 :=
  end_crossfade_no_queue E (move_assign old syn).1
    (InputStream_synthetic_queue E ctx mode syn h) u s1

/-- C9, where the code departs from the spec. A fade whose outgoing stream
fails at the first frame and whose incoming stream, holding one frame, fails at
the second pull: the first iteration replaces the outgoing stream by a synthetic
silence stream, which has no FIFO; when the incoming pull then throws,
`crossfade` calls `end_crossfade` on that stream, which reads the size of the
null FIFO: the call is undefined and `crossfade` returns nothing. The same
happens when `init_crossfade` throws on an outgoing stream that has no primary
resampler: `end_crossfade` passes the null handle to `set_resampler_options`. -/
theorem crossfade_abort_after_replacement :
    (∃ (src ns : InputStream) (W1 : Engine) (m : String) (ns2 : InputStream) (k : Nat),
      init_crossfade demo_env (demo_bound 0 [[], []] []) = .ret () src ∧
      init_crossfade demo_env (demo_bound 2 [[1, 2], [3, 4]] []) = .ret () ns ∧
      crossfade_step demo_env
          ⟨src, ns, demo_sink, false, 0, 0⟩ 5000 = some (W1, 5000) ∧
      W1.source.m_source_valid = false ∧ W1.source.m_source_mode = .silence ∧
      W1.source.m_queue = none ∧
      get_one_output_frame demo_env W1.new_source W1.rand_calls = .thrown m (ns2, k) ∧
      end_crossfade demo_env W1.source = .undefined ∧
      crossfade demo_env 2
          ⟨demo_bound 0 [[], []] [], demo_bound 2 [[1, 2], [3, 4]] [], demo_sink, false, 0, 0⟩
        = some .undefined) ∧
    (∃ (m : String) (src : InputStream),
      init_crossfade demo_env InputStream.InputStream_default = .thrown m src ∧
      end_crossfade demo_env src = .undefined ∧
      crossfade demo_env 0
          ⟨InputStream.InputStream_default, demo_bound 2 [[1, 2], [3, 4]] [], demo_sink,
            false, 0, 0⟩
        = some .undefined) := by
  exact ⟨⟨_, _, _, _, _, _, rfl, rfl, rfl, rfl, rfl, rfl, rfl, rfl, rfl⟩, ⟨_, _, rfl, rfl, rfl⟩⟩

/-! ## Lemmas on binary32 rounding -/

theorem round_half_even_floor_le (y : ℚ) : ⌊y⌋ ≤ round_half_even y := by
  unfold round_half_even
  split
  · exact le_refl _
  · split
    · omega
    · split <;> omega

theorem round_half_even_le_floor_succ (y : ℚ) : round_half_even y ≤ ⌊y⌋ + 1 := by
  unfold round_half_even
  split
  · omega
  · split
    · omega
    · split <;> omega

theorem round_half_even_error (y : ℚ) : |(round_half_even y : ℚ) - y| ≤ 1 / 2 := by
  have h1 : (⌊y⌋ : ℚ) ≤ y := Int.floor_le y
  have h2 : y < (⌊y⌋ : ℚ) + 1 := Int.lt_floor_add_one y
  unfold round_half_even
  rw [abs_le]
  split
  · rename_i h
    constructor <;> linarith
  · rename_i h
    split
    · rename_i h'
      push_cast
      constructor <;> linarith
    · rename_i h'
      have he : y - ⌊y⌋ = 1 / 2 := le_antisymm (not_lt.mp h') (not_lt.mp h)
      split
      · constructor <;> linarith
      · push_cast
        constructor <;> linarith

theorem round_half_even_intCast (n : Int) : round_half_even (n : ℚ) = n := by
  unfold round_half_even
  simp

theorem round_half_even_mono (y1 y2 : ℚ) (h : y1 ≤ y2) :
    round_half_even y1 ≤ round_half_even y2 := by
  have hf : ⌊y1⌋ ≤ ⌊y2⌋ := Int.floor_le_floor h
  rcases lt_or_eq_of_le hf with hlt | heq
  · have a := round_half_even_le_floor_succ y1
    have b := round_half_even_floor_le y2
    omega
  · unfold round_half_even
    rw [heq]
    have hd : y1 - ⌊y2⌋ ≤ y2 - ⌊y2⌋ := by linarith
    split
    · rename_i h1
      split
      · exact le_refl _
      · split
        · omega
        · split <;> omega
    · rename_i h1
      have h2 : ¬ (y2 - ⌊y2⌋ < 1 / 2) := fun hc => h1 (lt_of_le_of_lt hd hc)
      rw [if_neg h2]
      split
      · rename_i h3
        have h4 : 1 / 2 < y2 - ⌊y2⌋ := lt_of_lt_of_le h3 hd
        rw [if_pos h4]
      · rename_i h3
        split
        · split <;> omega
        · split <;> omega

theorem binary32_ulp_pos (x : ℚ) : 0 < binary32_ulp x := by
  unfold binary32_ulp
  positivity

theorem round_binary32_error (x : ℚ) : |round_binary32 x - x| ≤ binary32_ulp x / 2 := by
  have hu := binary32_ulp_pos x
  have h := round_half_even_error (x / binary32_ulp x)
  unfold round_binary32
  have e : (round_half_even (x / binary32_ulp x) : ℚ) * binary32_ulp x - x
      = ((round_half_even (x / binary32_ulp x) : ℚ) - x / binary32_ulp x) * binary32_ulp x := by
    field_simp
  rw [e, abs_mul, abs_of_pos hu]
  calc |(round_half_even (x / binary32_ulp x) : ℚ) - x / binary32_ulp x| * binary32_ulp x
      ≤ 1 / 2 * binary32_ulp x := mul_le_mul_of_nonneg_right h hu.le
    _ = binary32_ulp x / 2 := by ring

theorem binary32_exponent_ge (x : ℚ) : -126 ≤ binary32_exponent x := by
  unfold binary32_exponent
  split
  · exact le_refl _
  · exact le_max_right _ _

theorem two_zpow_cast (z : Int) : (((2 : ℕ) : ℚ)) ^ z = (2 : ℚ) ^ z := by
  norm_num

theorem binary32_exponent_eq (x : ℚ) (e : Int) (he : -126 ≤ e)
    (hlo : (2 : ℚ) ^ e ≤ |x|) (hhi : |x| < (2 : ℚ) ^ (e + 1)) : binary32_exponent x = e := by
  have hpos : 0 < |x| := lt_of_lt_of_le (by positivity) hlo
  have hx : x ≠ 0 := abs_pos.mp hpos
  have h1 : e ≤ Int.log 2 |x| :=
    (Int.zpow_le_iff_le_log (by decide) hpos).mp (by rw [two_zpow_cast]; exact hlo)
  have h2 : Int.log 2 |x| < e + 1 :=
    (Int.lt_zpow_iff_log_lt (by decide) hpos).mp (by rw [two_zpow_cast]; exact hhi)
  unfold binary32_exponent
  rw [if_neg hx]
  have : Int.log 2 |x| = e := by omega
  rw [this]
  exact max_eq_left he

theorem binary32_exponent_subnormal (x : ℚ) (h : |x| < (2 : ℚ) ^ (-126 : Int)) :
    binary32_exponent x = -126 := by
  unfold binary32_exponent
  split
  · rfl
  · rename_i hx
    have hpos : 0 < |x| := abs_pos.mpr hx
    have h2 : Int.log 2 |x| < -126 :=
      (Int.lt_zpow_iff_log_lt (by decide) hpos).mp (by rw [two_zpow_cast]; exact h)
    exact max_eq_right h2.le

theorem binary32_exponent_normal (x : ℚ) (h : (2 : ℚ) ^ (-126 : Int) ≤ |x|) :
    (2 : ℚ) ^ binary32_exponent x ≤ |x| ∧ |x| < (2 : ℚ) ^ (binary32_exponent x + 1) := by
  have hpos : 0 < |x| := lt_of_lt_of_le (by positivity) h
  have hx : x ≠ 0 := abs_pos.mp hpos
  have h1 : (-126 : Int) ≤ Int.log 2 |x| :=
    (Int.zpow_le_iff_le_log (by decide) hpos).mp (by rw [two_zpow_cast]; exact h)
  have he : binary32_exponent x = Int.log 2 |x| := by
    unfold binary32_exponent
    rw [if_neg hx]
    exact max_eq_left h1
  rw [he]
  constructor
  · have := Int.zpow_log_le_self (b := 2) (by decide) hpos
    rwa [two_zpow_cast] at this
  · have := Int.lt_zpow_succ_log_self (b := 2) (by decide) |x|
    rwa [two_zpow_cast] at this

theorem binary32_below_binade_top (x : ℚ) : |x| < (2 : ℚ) ^ (binary32_exponent x + 1) := by
  by_cases h : (2 : ℚ) ^ (-126 : Int) ≤ |x|
  · exact (binary32_exponent_normal x h).2
  · have h' := not_le.mp h
    rw [binary32_exponent_subnormal x h']
    exact lt_trans h' (by norm_num)

/-- The unit roundoff 2^-24 of binary32 and half its smallest subnormal, 2^-150. -/
theorem round_binary32_rel_error (x : ℚ) :
    |round_binary32 x - x| ≤ (2 : ℚ) ^ (-24 : Int) * |x| + (2 : ℚ) ^ (-150 : Int) := by
  have herr := round_binary32_error x
  by_cases h : (2 : ℚ) ^ (-126 : Int) ≤ |x|
  · have hlo := (binary32_exponent_normal x h).1
    have hu : binary32_ulp x / 2 = (2 : ℚ) ^ (-24 : Int) * (2 : ℚ) ^ binary32_exponent x := by
      unfold binary32_ulp
      rw [show binary32_exponent x - 23 = binary32_exponent x + (-23) from rfl,
        zpow_add₀ (by norm_num : (2 : ℚ) ≠ 0)]
      norm_num
      ring
    rw [hu] at herr
    have : (2 : ℚ) ^ (-24 : Int) * (2 : ℚ) ^ binary32_exponent x
        ≤ (2 : ℚ) ^ (-24 : Int) * |x| := mul_le_mul_of_nonneg_left hlo (by positivity)
    have hp : (0 : ℚ) ≤ (2 : ℚ) ^ (-150 : Int) := by positivity
    linarith
  · have h' := not_le.mp h
    have hu : binary32_ulp x / 2 = (2 : ℚ) ^ (-150 : Int) := by
      unfold binary32_ulp
      rw [binary32_exponent_subnormal x h']
      norm_num
    rw [hu] at herr
    have : (0 : ℚ) ≤ (2 : ℚ) ^ (-24 : Int) * |x| := by positivity
    linarith

theorem round_binary32_zero : round_binary32 0 = 0 := by
  unfold round_binary32
  simp [round_half_even]

theorem round_binary32_nonneg (x : ℚ) (h : 0 ≤ x) : 0 ≤ round_binary32 x := by
  unfold round_binary32
  have hu := binary32_ulp_pos x
  have hq : 0 ≤ x / binary32_ulp x := div_nonneg h hu.le
  have hf : 0 ≤ ⌊x / binary32_ulp x⌋ := Int.floor_nonneg.mpr hq
  have hr := round_half_even_floor_le (x / binary32_ulp x)
  have : (0 : ℚ) ≤ (round_half_even (x / binary32_ulp x) : ℚ) := by exact_mod_cast le_trans hf hr
  positivity

theorem binary32_ulp_mul (x : ℚ) (k : Int) :
    (2 : ℚ) ^ k * binary32_ulp x = (2 : ℚ) ^ (binary32_exponent x + (k - 23)) := by
  unfold binary32_ulp
  rw [← zpow_add₀ (by norm_num : (2 : ℚ) ≠ 0)]
  congr 1
  ring

theorem round_binary32_le_binade_top (x : ℚ) (h : 0 ≤ x) :
    round_binary32 x ≤ (2 : ℚ) ^ (binary32_exponent x + 1) := by
  have hu := binary32_ulp_pos x
  have htop := binary32_below_binade_top x
  rw [abs_of_nonneg h] at htop
  have hq : x / binary32_ulp x ≤ (((2 : Int) ^ 24 : Int) : ℚ) := by
    rw [div_le_iff₀ hu]
    have e := binary32_ulp_mul x 24
    norm_num at e ⊢
    rw [e]
    exact htop.le
  have hr := round_half_even_mono _ _ hq
  rw [round_half_even_intCast] at hr
  have hrq : (round_half_even (x / binary32_ulp x) : ℚ) ≤ (((2 : Int) ^ 24 : Int) : ℚ) := by
    exact_mod_cast hr
  unfold round_binary32
  calc (round_half_even (x / binary32_ulp x) : ℚ) * binary32_ulp x
      ≤ (((2 : Int) ^ 24 : Int) : ℚ) * binary32_ulp x := mul_le_mul_of_nonneg_right hrq hu.le
    _ = (2 : ℚ) ^ (binary32_exponent x + 1) := by
      have e := binary32_ulp_mul x 24
      norm_num at e ⊢
      exact e

theorem round_binary32_ge_binade (x : ℚ) (h : 0 ≤ x) (hn : (2 : ℚ) ^ (-126 : Int) ≤ x) :
    (2 : ℚ) ^ binary32_exponent x ≤ round_binary32 x := by
  have hu := binary32_ulp_pos x
  have hlo := (binary32_exponent_normal x (by rwa [abs_of_nonneg h])).1
  rw [abs_of_nonneg h] at hlo
  have hq : (((2 : Int) ^ 23 : Int) : ℚ) ≤ x / binary32_ulp x := by
    rw [le_div_iff₀ hu]
    have e := binary32_ulp_mul x 23
    norm_num at e ⊢
    rw [e]
    exact hlo
  have hr := round_half_even_mono _ _ hq
  rw [round_half_even_intCast] at hr
  have hrq : (((2 : Int) ^ 23 : Int) : ℚ) ≤ (round_half_even (x / binary32_ulp x) : ℚ) := by
    exact_mod_cast hr
  unfold round_binary32
  calc (2 : ℚ) ^ binary32_exponent x
      = (((2 : Int) ^ 23 : Int) : ℚ) * binary32_ulp x := by
        have e := binary32_ulp_mul x 23
        norm_num at e ⊢
        exact e.symm
    _ ≤ (round_half_even (x / binary32_ulp x) : ℚ) * binary32_ulp x :=
        mul_le_mul_of_nonneg_right hrq hu.le

theorem binary32_exponent_mono (x y : ℚ) (hx : 0 ≤ x) (h : x ≤ y) :
    binary32_exponent x ≤ binary32_exponent y := by
  by_cases hx0 : x = 0
  · rw [hx0]
    have : binary32_exponent 0 = -126 := by simp [binary32_exponent]
    rw [this]
    exact binary32_exponent_ge y
  · have hxp : 0 < x := lt_of_le_of_ne hx (Ne.symm hx0)
    have hyp : 0 < y := lt_of_lt_of_le hxp h
    unfold binary32_exponent
    rw [if_neg hx0, if_neg hyp.ne', abs_of_pos hxp, abs_of_pos hyp]
    exact max_le_max (Int.log_mono_right hxp h) (le_refl _)

theorem round_binary32_mono (x y : ℚ) (hx : 0 ≤ x) (h : x ≤ y) :
    round_binary32 x ≤ round_binary32 y := by
  have hy : 0 ≤ y := le_trans hx h
  have he := binary32_exponent_mono x y hx h
  rcases lt_or_eq_of_le he with hlt | heq
  · have hyn : (2 : ℚ) ^ (-126 : Int) ≤ y := by
      by_contra hc
      have hs := binary32_exponent_subnormal y (by rw [abs_of_nonneg hy]; exact not_le.mp hc)
      have := binary32_exponent_ge x
      omega
    have h1 := round_binary32_le_binade_top x hx
    have h2 := round_binary32_ge_binade y hy hyn
    have h3 : (2 : ℚ) ^ (binary32_exponent x + 1) ≤ (2 : ℚ) ^ binary32_exponent y :=
      zpow_le_zpow_right₀ (by norm_num) (by omega)
    linarith
  · have hu : binary32_ulp x = binary32_ulp y := by
      unfold binary32_ulp
      rw [heq]
    have hup := binary32_ulp_pos y
    unfold round_binary32
    rw [hu]
    have hq : x / binary32_ulp y ≤ y / binary32_ulp y := div_le_div_of_nonneg_right h hup.le
    have hr := round_half_even_mono _ _ hq
    have hrq : (round_half_even (x / binary32_ulp y) : ℚ)
        ≤ (round_half_even (y / binary32_ulp y) : ℚ) := by exact_mod_cast hr
    exact mul_le_mul_of_nonneg_right hrq hup.le

theorem round_binary32_eq (x : ℚ) (e m : Int) (he : -126 ≤ e)
    (hlo : (2 : ℚ) ^ e ≤ |x|) (hhi : |x| < (2 : ℚ) ^ (e + 1))
    (hm : round_half_even (x / (2 : ℚ) ^ (e - 23)) = m) :
    round_binary32 x = (m : ℚ) * (2 : ℚ) ^ (e - 23) := by
  unfold round_binary32 binary32_ulp
  rw [binary32_exponent_eq x e he hlo hhi, hm]

theorem round_binary32_eq_subnormal (x : ℚ) (m : Int)
    (h : |x| < (2 : ℚ) ^ (-126 : Int))
    (hm : round_half_even (x / (2 : ℚ) ^ (-149 : Int)) = m) :
    round_binary32 x = (m : ℚ) * (2 : ℚ) ^ (-149 : Int) := by
  unfold round_binary32 binary32_ulp
  rw [binary32_exponent_subnormal x h]
  rw [show (-126 : Int) - 23 = -149 from rfl, hm]

theorem round_half_even_down (y : ℚ) (f : Int) (h1 : (f : ℚ) ≤ y) (h2 : y - f < 1 / 2) :
    round_half_even y = f := by
  have hf : ⌊y⌋ = f := by
    rw [Int.floor_eq_iff]
    constructor
    · exact h1
    · linarith
  unfold round_half_even
  rw [hf, if_pos h2]

theorem round_half_even_up (y : ℚ) (f : Int) (h1 : 1 / 2 < y - f) (h2 : y < f + 1) :
    round_half_even y = f + 1 := by
  have hf : ⌊y⌋ = f := by
    rw [Int.floor_eq_iff]
    constructor
    · linarith
    · exact h2
  unfold round_half_even
  rw [hf, if_neg (by linarith), if_pos h1]

theorem round_half_even_tie (y : ℚ) (f : Int) (h : y = f + 1 / 2) :
    round_half_even y = if f % 2 = 0 then f else f + 1 := by
  have hf : ⌊y⌋ = f := by
    rw [Int.floor_eq_iff]
    constructor <;> linarith
  unfold round_half_even
  rw [hf, if_neg (by linarith), if_neg (by linarith)]

theorem round_binary32_one : round_binary32 1 = 1 := by
  have h := round_binary32_eq 1 0 ((2 : Int) ^ 23) (by decide) (by norm_num) (by norm_num)
    (by
      have e : (1 : ℚ) / (2 : ℚ) ^ ((0 : Int) - 23) = (((2 : Int) ^ 23 : Int) : ℚ) := by norm_num
      rw [e, round_half_even_intCast])
  rw [h]
  norm_num

theorem round_binary32_le_one (x : ℚ) (h0 : 0 ≤ x) (h1 : x ≤ 1) : round_binary32 x ≤ 1 := by
  have h := round_binary32_mono x 1 h0 h1
  rwa [round_binary32_one] at h

theorem round_binary32_unit_error (x : ℚ) (h0 : 0 ≤ x) (h1 : x ≤ 1) :
    |round_binary32 x - x| ≤ (2 : ℚ) ^ (-25 : Int) := by
  rcases eq_or_lt_of_le h1 with heq | hlt
  · rw [heq, round_binary32_one]
    norm_num
  · have herr := round_binary32_error x
    have he : binary32_exponent x ≤ -1 := by
      by_cases hn : (2 : ℚ) ^ (-126 : Int) ≤ |x|
      · have hlo := (binary32_exponent_normal x hn).1
        rw [abs_of_nonneg h0] at hlo
        by_contra hc
        have h2 : (2 : ℚ) ^ (0 : Int) ≤ (2 : ℚ) ^ binary32_exponent x :=
          zpow_le_zpow_right₀ (by norm_num) (by omega)
        norm_num at h2
        linarith
      · rw [binary32_exponent_subnormal x (not_le.mp hn)]
        decide
    have hu : binary32_ulp x ≤ (2 : ℚ) ^ (-24 : Int) := by
      unfold binary32_ulp
      exact zpow_le_zpow_right₀ (by norm_num) (by omega)
    have : binary32_ulp x / 2 ≤ (2 : ℚ) ^ (-25 : Int) := by
      have e : (2 : ℚ) ^ (-25 : Int) = (2 : ℚ) ^ (-24 : Int) / 2 := by norm_num
      rw [e]
      exact div_le_div_of_nonneg_right hu (by norm_num)
    exact le_trans herr this

theorem round_binary32_intCast (n : Int) (h0 : 0 ≤ n) (h1 : n < 2 ^ 24) :
    round_binary32 (n : ℚ) = n := by
  rcases eq_or_lt_of_le h0 with heq | hpos
  · rw [← heq]
    simpa using round_binary32_zero
  · have hq1 : (1 : ℚ) ≤ (n : ℚ) := by exact_mod_cast hpos
    have hq0 : (0 : ℚ) ≤ (n : ℚ) := by linarith
    have hn : (2 : ℚ) ^ (-126 : Int) ≤ |(n : ℚ)| := by
      rw [abs_of_nonneg hq0]
      exact le_trans (by norm_num) hq1
    have hlo := (binary32_exponent_normal (n : ℚ) hn).1
    rw [abs_of_nonneg hq0] at hlo
    have he : binary32_exponent (n : ℚ) ≤ 23 := by
      by_contra hc
      have h2 : (2 : ℚ) ^ (24 : Int) ≤ (2 : ℚ) ^ binary32_exponent (n : ℚ) :=
        zpow_le_zpow_right₀ (by norm_num) (by omega)
      have h3 : (n : ℚ) < (2 : ℚ) ^ (24 : Int) := by
        have : ((n : Int) : ℚ) < (((2 : Int) ^ 24 : Int) : ℚ) := by exact_mod_cast h1
        norm_num at this ⊢
        exact this
      linarith
    obtain ⟨k, hk⟩ : ∃ k : Nat, (k : Int) = 23 - binary32_exponent (n : ℚ) :=
      ⟨(23 - binary32_exponent (n : ℚ)).toNat, by omega⟩
    have hu : binary32_ulp (n : ℚ) = ((2 : ℚ) ^ k)⁻¹ := by
      unfold binary32_ulp
      rw [show binary32_exponent (n : ℚ) - 23 = -(k : Int) by omega, zpow_neg, zpow_natCast]
    have hdiv : (n : ℚ) / binary32_ulp (n : ℚ) = ((n * 2 ^ k : Int) : ℚ) := by
      rw [hu]
      push_cast
      field_simp
    unfold round_binary32
    rw [hdiv, round_half_even_intCast, hu]
    push_cast
    field_simp

/-! ## Lemmas on the gain and the mix in binary32 -/

theorem round_binary32_abs_le (z : ℚ) :
    |round_binary32 z| ≤ (1 + (2 : ℚ) ^ (-24 : Int)) * |z| + (2 : ℚ) ^ (-150 : Int) := by
  have h := round_binary32_rel_error z
  have h2 : |round_binary32 z| - |z| ≤ |round_binary32 z - z| := abs_sub_abs_le_abs_sub _ _
  linarith

theorem fade_quotient_range (fade_time_remaining fade_time : Int) (h_total : 0 < fade_time)
    (h_lo : 0 ≤ fade_time_remaining) (h_hi : fade_time_remaining ≤ fade_time) :
    0 ≤ round_binary32 (fade_time_remaining : ℚ) / round_binary32 (fade_time : ℚ) ∧
    round_binary32 (fade_time_remaining : ℚ) / round_binary32 (fade_time : ℚ) ≤ 1 := by
  have hr0 : (0 : ℚ) ≤ (fade_time_remaining : ℚ) := by exact_mod_cast h_lo
  have hrT : (fade_time_remaining : ℚ) ≤ (fade_time : ℚ) := by exact_mod_cast h_hi
  have hT1 : (1 : ℚ) ≤ (fade_time : ℚ) := by exact_mod_cast h_total
  have hR := round_binary32_nonneg _ hr0
  have hRT := round_binary32_mono _ _ hr0 hrT
  have hT := round_binary32_mono 1 _ (by norm_num) hT1
  rw [round_binary32_one] at hT
  have hTpos : 0 < round_binary32 (fade_time : ℚ) := by linarith
  exact ⟨div_nonneg hR hTpos.le, (div_le_one hTpos).mpr hRT⟩

theorem non_dimensional_fade_time_binary32_range (fade_time_remaining fade_time : Int)
    (h_total : 0 < fade_time) (h_lo : 0 ≤ fade_time_remaining)
    (h_hi : fade_time_remaining ≤ fade_time) :
    0 ≤ non_dimensional_fade_time_binary32 fade_time_remaining fade_time ∧
    non_dimensional_fade_time_binary32 fade_time_remaining fade_time ≤ 1 := by
  obtain ⟨hq0, hq1⟩ := fade_quotient_range fade_time_remaining fade_time h_total h_lo h_hi
  have hp0 := round_binary32_nonneg _ hq0
  have hp1 := round_binary32_le_one _ hq0 hq1
  unfold non_dimensional_fade_time_binary32
  exact ⟨round_binary32_nonneg _ (by linarith), round_binary32_le_one _ (by linarith) (by linarith)⟩

theorem mix_binary32_bound (t x y P : ℚ) (ht0 : 0 ≤ t) (ht1 : t ≤ 1)
    (hx : |x| ≤ P) (hy : |y| ≤ P) :
    |mix_binary32 t x y| ≤ (1 + (2 : ℚ) ^ (-22 : Int)) * P + (2 : ℚ) ^ (-148 : Int) := by
  have hP : 0 ≤ P := le_trans (abs_nonneg x) hx
  have ha0 : 0 ≤ round_binary32 (1 - t) := round_binary32_nonneg _ (by linarith)
  have haerr := round_binary32_unit_error (1 - t) (by linarith) (by linarith)
  have ha : round_binary32 (1 - t) ≤ 1 - t + (2 : ℚ) ^ (-25 : Int) := by
    have := (abs_le.mp haerr).2
    linarith
  have h1 := round_binary32_abs_le (x * round_binary32 (1 - t))
  have h2 := round_binary32_abs_le (y * t)
  have h3 := round_binary32_abs_le
    (round_binary32 (x * round_binary32 (1 - t)) + round_binary32 (y * t))
  have hxa : |x * round_binary32 (1 - t)| ≤ P * round_binary32 (1 - t) := by
    rw [abs_mul, abs_of_nonneg ha0]
    exact mul_le_mul_of_nonneg_right hx ha0
  have hyt : |y * t| ≤ P * t := by
    rw [abs_mul, abs_of_nonneg ht0]
    exact mul_le_mul_of_nonneg_right hy ht0
  have hsum : |round_binary32 (x * round_binary32 (1 - t)) + round_binary32 (y * t)|
      ≤ |round_binary32 (x * round_binary32 (1 - t))| + |round_binary32 (y * t)| :=
    abs_add _ _
  have hPa : P * round_binary32 (1 - t) ≤ P * (1 - t + (2 : ℚ) ^ (-25 : Int)) :=
    mul_le_mul_of_nonneg_left ha hP
  unfold mix_binary32
  have e24 : (2 : ℚ) ^ (-24 : Int) = 1 / 16777216 := by norm_num
  have e25 : (2 : ℚ) ^ (-25 : Int) = 1 / 33554432 := by norm_num
  have e22 : (2 : ℚ) ^ (-22 : Int) = 1 / 4194304 := by norm_num
  have e148 : (2 : ℚ) ^ (-148 : Int) = 4 * (2 : ℚ) ^ (-150 : Int) := by norm_num
  have h150 : (0 : ℚ) < (2 : ℚ) ^ (-150 : Int) := by positivity
  rw [e24] at h1 h2 h3
  rw [e25] at hPa
  rw [e22, e148]
  generalize (2 : ℚ) ^ (-150 : Int) = η at *
  generalize |round_binary32 (round_binary32 (x * round_binary32 (1 - t))
    + round_binary32 (y * t))| = Z at *
  generalize |round_binary32 (x * round_binary32 (1 - t)) + round_binary32 (y * t)| = S at *
  generalize |round_binary32 (x * round_binary32 (1 - t))| = A at *
  generalize |round_binary32 (y * t)| = B at *
  generalize |x * round_binary32 (1 - t)| = A0 at *
  generalize |y * t| = B0 at *
  generalize round_binary32 (1 - t) = a at *
  have hS : S ≤ (1 + 1 / 16777216) * (P * (1 + 1 / 33554432)) + 2 * η := by
    have : A0 + B0 ≤ P * (1 + 1 / 33554432) := by nlinarith
    nlinarith
  nlinarith

theorem mix_binary32_bound_101 (P : ℚ) (hP : (2 : ℚ) ^ (-126 : Int) ≤ P) :
    (1 + (2 : ℚ) ^ (-22 : Int)) * P + (2 : ℚ) ^ (-148 : Int) ≤ 101 / 100 * P := by
  have e : (2 : ℚ) ^ (-148 : Int) = (2 : ℚ) ^ (-22 : Int) * (2 : ℚ) ^ (-126 : Int) := by
    rw [← zpow_add₀ (by norm_num : (2 : ℚ) ≠ 0)]
    norm_num
  have e22 : (2 : ℚ) ^ (-22 : Int) = 1 / 4194304 := by norm_num
  have hm : (0 : ℚ) < (2 : ℚ) ^ (-126 : Int) := by positivity
  rw [e, e22]
  generalize (2 : ℚ) ^ (-126 : Int) = m at *
  linarith

/-! ## Lemmas on the mixing loop in binary32 -/

theorem fade_samples_binary32_sample (t : ℚ) : ∀ (n : Nat) (q v r : List ℚ),
    fade_samples_binary32 t n q v = some r →
    ∀ i x y, i < n → q[i]? = some x → v[i]? = some y →
      r[i]? = some (mix_binary32 t x y)
  | 0, _, _, _, _, i, _, _, hi, _, _ => absurd hi (Nat.not_lt_zero i)
  | n + 1, [], _, r, h, _, _, _, _, _, _ => by simp [fade_samples_binary32] at h
  | n + 1, _ :: _, [], r, h, _, _, _, _, _, _ => by simp [fade_samples_binary32] at h
  | n + 1, qh :: qt, vh :: vt, r, h, i, x, y, hi, hx, hy => by
    simp only [fade_samples_binary32] at h
    split at h
    · rename_i r1 hr1
      cases h
      cases i with
      | zero =>
        simp only [List.getElem?_cons_zero, Option.some.injEq] at hx hy ⊢
        rw [hx, hy]
      | succ j =>
        simp only [List.getElem?_cons_succ] at hx hy ⊢
        exact fade_samples_binary32_sample t n qt vt r1 hr1 j x y
          (Nat.lt_of_succ_lt_succ hi) hx hy
    · cases h

theorem fade_channels_binary32_sample (t : ℚ) (n : Nat) :
    ∀ (c : Nat) (qs vs rs : List (List ℚ)),
    fade_channels_binary32 t n c qs vs = some rs →
    ∀ ch i x y, ch < c → i < n → sample_at qs ch i = some x → sample_at vs ch i = some y →
      sample_at rs ch i = some (mix_binary32 t x y)
  | 0, _, _, _, _, ch, _, _, _, hc, _, _, _ => absurd hc (Nat.not_lt_zero ch)
  | c + 1, [], vs, rs, h, ch, i, x, y, _, _, hx, _ => by
    simp [sample_at] at hx
  | c + 1, q :: qs, [], rs, h, ch, i, x, y, _, _, _, hy => by
    simp [sample_at] at hy
  | c + 1, q :: qs, v :: vs, rs, h, ch, i, x, y, hc, hi, hx, hy => by
    simp only [fade_channels_binary32] at h
    split at h
    · rename_i r rs1 hr hrs
      cases h
      cases ch with
      | zero =>
        simp only [sample_at, List.getElem?_cons_zero] at hx hy ⊢
        exact fade_samples_binary32_sample t n q v r hr i x y hi hx hy
      | succ j =>
        simp only [sample_at, List.getElem?_cons_succ] at hx hy ⊢
        exact fade_channels_binary32_sample t n c qs vs rs1 hrs j i x y
          (Nat.lt_of_succ_lt_succ hc) hi hx hy
    · cases h

theorem fade_samples_binary32_some (t : ℚ) : ∀ (n : Nat) (q v : List ℚ),
    n ≤ q.length → n ≤ v.length → ∃ r, fade_samples_binary32 t n q v = some r
  | 0, q, _, _, _ => ⟨q, rfl⟩
  | n + 1, [], _, hq, _ => absurd hq (by simp)
  | n + 1, _ :: _, [], _, hv => absurd hv (by simp)
  | n + 1, qh :: qt, vh :: vt, hq, hv => by
    obtain ⟨r, hr⟩ := fade_samples_binary32_some t n qt vt
      (Nat.le_of_succ_le_succ hq) (Nat.le_of_succ_le_succ hv)
    exact ⟨mix_binary32 t qh vh :: r, by simp [fade_samples_binary32, hr]⟩

theorem fade_channels_binary32_some (t : ℚ) (n : Nat) : ∀ (c : Nat) (qs vs : List (List ℚ)),
    planes_hold c n qs = true → planes_hold c n vs = true →
    ∃ rs, fade_channels_binary32 t n c qs vs = some rs
  | 0, qs, _, _, _ => ⟨qs, rfl⟩
  | c + 1, [], _, hq, _ => by simp [planes_hold] at hq
  | c + 1, _ :: _, [], _, hv => by simp [planes_hold] at hv
  | c + 1, q :: qs, v :: vs, hq, hv => by
    simp only [planes_hold, Bool.and_eq_true, decide_eq_true_eq] at hq hv
    obtain ⟨r, hr⟩ := fade_samples_binary32_some t n q v hq.1 hv.1
    obtain ⟨rs, hrs⟩ := fade_channels_binary32_some t n c qs vs hq.2 hv.2
    exact ⟨r :: rs, by simp [fade_channels_binary32, hr, hrs]⟩

/-! ## Values of the gain and of the mix in binary32 -/

theorem round_binary32_eq_pos (x : ℚ) (e m : Int) (he : -126 ≤ e) (hx : 0 ≤ x)
    (hlo : (2 : ℚ) ^ e ≤ x) (hhi : x < (2 : ℚ) ^ (e + 1))
    (hm : round_half_even (x / (2 : ℚ) ^ (e - 23)) = m) :
    round_binary32 x = (m : ℚ) * (2 : ℚ) ^ (e - 23) :=
  round_binary32_eq x e m he (by rwa [abs_of_nonneg hx]) (by rwa [abs_of_nonneg hx]) hm

theorem round_binary32_eq_subnormal_pos (x : ℚ) (m : Int) (hx : 0 ≤ x)
    (h : x < (2 : ℚ) ^ (-126 : Int))
    (hm : round_half_even (x / (2 : ℚ) ^ (-149 : Int)) = m) :
    round_binary32 x = (m : ℚ) * (2 : ℚ) ^ (-149 : Int) :=
  round_binary32_eq_subnormal x m (by rwa [abs_of_nonneg hx]) hm

theorem non_dimensional_fade_time_binary32_4685 :
    non_dimensional_fade_time_binary32 4685 5000 = 1056965 / 16777216 := by
  have hr : round_binary32 ((4685 : Int) : ℚ) = ((4685 : Int) : ℚ) :=
    round_binary32_intCast 4685 (by decide) (by decide)
  have hT : round_binary32 ((5000 : Int) : ℚ) = ((5000 : Int) : ℚ) :=
    round_binary32_intCast 5000 (by decide) (by decide)
  have hq : round_binary32 (((4685 : Int) : ℚ) / ((5000 : Int) : ℚ)) = 15720251 / 16777216 := by
    rw [round_binary32_eq_pos _ (-1) 15720251 (by decide) (by norm_num) (by norm_num)
      (by norm_num)
      (round_half_even_down _ 15720251 (by norm_num) (by norm_num))]
    norm_num
  have ht : round_binary32 (1 - 15720251 / 16777216) = 1056965 / 16777216 := by
    rw [round_binary32_eq_pos _ (-4) 8455720 (by decide) (by norm_num) (by norm_num)
      (by norm_num)
      (by
        have e : (1 - 15720251 / 16777216 : ℚ) / (2 : ℚ) ^ ((-4 : Int) - 23)
            = ((8455720 : Int) : ℚ) := by norm_num
        rw [e, round_half_even_intCast])]
    norm_num
  unfold non_dimensional_fade_time_binary32
  rw [hr, hT, hq, ht]

theorem mix_binary32_overshoot :
    mix_binary32 (1056965 / 16777216) (11744051 / 16777216) (11744051 / 16777216)
      = 11744052 / 16777216 := by
  have ha : round_binary32 (1 - 1056965 / 16777216) = 15720251 / 16777216 := by
    rw [round_binary32_eq_pos _ (-1) 15720251 (by decide) (by norm_num) (by norm_num)
      (by norm_num)
      (by
        have e : (1 - 1056965 / 16777216 : ℚ) / (2 : ℚ) ^ ((-1 : Int) - 23)
            = ((15720251 : Int) : ℚ) := by norm_num
        rw [e, round_half_even_intCast])]
    norm_num
  have hp1 : round_binary32 (11744051 / 16777216 * (15720251 / 16777216))
      = 11004176 / 16777216 := by
    rw [round_binary32_eq_pos _ (-1) (11004175 + 1) (by decide) (by norm_num) (by norm_num)
      (by norm_num)
      (round_half_even_up _ 11004175 (by norm_num) (by norm_num))]
    norm_num
  have hp2 : round_binary32 (11744051 / 16777216 * (1056965 / 16777216))
      = 11838008 / 268435456 := by
    rw [round_binary32_eq_pos _ (-5) (11838007 + 1) (by decide) (by norm_num) (by norm_num)
      (by norm_num)
      (round_half_even_up _ 11838007 (by norm_num) (by norm_num))]
    norm_num
  have hz : round_binary32 (11004176 / 16777216 + 11838008 / 268435456)
      = 11744052 / 16777216 := by
    rw [round_binary32_eq_pos _ (-1) (11744051 + 1) (by decide) (by norm_num) (by norm_num)
      (by norm_num)
      (by
        rw [round_half_even_tie _ 11744051 (by norm_num)]
        decide)]
    norm_num
  unfold mix_binary32
  rw [ha, hp1, hp2, hz]

theorem round_binary32_sample_7_10 :
    round_binary32 (7 / 10) = 11744051 / 16777216 := by
  rw [round_binary32_eq_pos _ (-1) 11744051 (by decide) (by norm_num) (by norm_num)
    (by norm_num)
    (round_half_even_down _ 11744051 (by norm_num) (by norm_num))]
  norm_num

theorem non_dimensional_fade_time_binary32_half :
    non_dimensional_fade_time_binary32 2500 5000 = 1 / 2 := by
  have hr : round_binary32 ((2500 : Int) : ℚ) = ((2500 : Int) : ℚ) :=
    round_binary32_intCast 2500 (by decide) (by decide)
  have hT : round_binary32 ((5000 : Int) : ℚ) = ((5000 : Int) : ℚ) :=
    round_binary32_intCast 5000 (by decide) (by decide)
  have hh : round_binary32 (1 / 2) = 1 / 2 := by
    rw [round_binary32_eq_pos _ (-1) 8388608 (by decide) (by norm_num) (by norm_num)
      (by norm_num)
      (by
        have e : (1 / 2 : ℚ) / (2 : ℚ) ^ ((-1 : Int) - 23) = ((8388608 : Int) : ℚ) := by
          norm_num
        rw [e, round_half_even_intCast])]
    norm_num
  unfold non_dimensional_fade_time_binary32
  rw [hr, hT]
  have e1 : ((2500 : Int) : ℚ) / ((5000 : Int) : ℚ) = 1 / 2 := by norm_num
  rw [e1, hh]
  have e2 : (1 : ℚ) - 1 / 2 = 1 / 2 := by norm_num
  rw [e2, hh]

theorem mix_binary32_subnormal :
    mix_binary32 (1 / 2) (3 * (2 : ℚ) ^ (-149 : Int)) (3 * (2 : ℚ) ^ (-149 : Int))
      = 4 * (2 : ℚ) ^ (-149 : Int) := by
  have hh : round_binary32 (1 - 1 / 2) = 1 / 2 := by
    rw [round_binary32_eq_pos _ (-1) 8388608 (by decide) (by norm_num) (by norm_num)
      (by norm_num)
      (by
        have e : (1 - 1 / 2 : ℚ) / (2 : ℚ) ^ ((-1 : Int) - 23) = ((8388608 : Int) : ℚ) := by
          norm_num
        rw [e, round_half_even_intCast])]
    norm_num
  have hp : round_binary32 (3 * (2 : ℚ) ^ (-149 : Int) * (1 / 2))
      = 2 * (2 : ℚ) ^ (-149 : Int) := by
    rw [round_binary32_eq_subnormal_pos _ 2 (by positivity) (by norm_num)
      (by
        rw [round_half_even_tie _ 1 (by norm_num)]
        decide)]
    norm_num
  have hz : round_binary32 (2 * (2 : ℚ) ^ (-149 : Int) + 2 * (2 : ℚ) ^ (-149 : Int))
      = 4 * (2 : ℚ) ^ (-149 : Int) := by
    rw [round_binary32_eq_subnormal_pos _ 4 (by positivity) (by norm_num)
      (by
        have e : (2 * (2 : ℚ) ^ (-149 : Int) + 2 * (2 : ℚ) ^ (-149 : Int))
            / (2 : ℚ) ^ (-149 : Int) = ((4 : Int) : ℚ) := by norm_num
        rw [e, round_half_even_intCast])]
    norm_num
  unfold mix_binary32
  rw [hh, hp, hz]

theorem mix_binary32_error (t x y P : ℚ) (ht0 : 0 ≤ t) (ht1 : t ≤ 1)
    (hx : |x| ≤ P) (hy : |y| ≤ P) :
    |mix_binary32 t x y - (x * (1 - t) + y * t)|
      ≤ (2 : ℚ) ^ (-22 : Int) * P + (2 : ℚ) ^ (-148 : Int) := by
  have hP : 0 ≤ P := le_trans (abs_nonneg x) hx
  have ha0 : 0 ≤ round_binary32 (1 - t) := round_binary32_nonneg _ (by linarith)
  have haerr := round_binary32_unit_error (1 - t) (by linarith) (by linarith)
  have ha : round_binary32 (1 - t) ≤ 1 - t + (2 : ℚ) ^ (-25 : Int) := by
    have := (abs_le.mp haerr).2
    linarith
  have h1 := round_binary32_rel_error (x * round_binary32 (1 - t))
  have h2 := round_binary32_rel_error (y * t)
  have h3 := round_binary32_rel_error
    (round_binary32 (x * round_binary32 (1 - t)) + round_binary32 (y * t))
  have hxa : |x * round_binary32 (1 - t)| ≤ P * round_binary32 (1 - t) := by
    rw [abs_mul, abs_of_nonneg ha0]
    exact mul_le_mul_of_nonneg_right hx ha0
  have hyt : |y * t| ≤ P * t := by
    rw [abs_mul, abs_of_nonneg ht0]
    exact mul_le_mul_of_nonneg_right hy ht0
  have hd : |x * round_binary32 (1 - t) - x * (1 - t)| ≤ P * (2 : ℚ) ^ (-25 : Int) := by
    rw [← mul_sub, abs_mul]
    exact mul_le_mul hx haerr (abs_nonneg _) hP
  have hS : |round_binary32 (x * round_binary32 (1 - t)) + round_binary32 (y * t)|
      ≤ |round_binary32 (x * round_binary32 (1 - t)) - x * round_binary32 (1 - t)|
        + |x * round_binary32 (1 - t)|
        + (|round_binary32 (y * t) - y * t| + |y * t|) := by
    have e : round_binary32 (x * round_binary32 (1 - t)) + round_binary32 (y * t)
        = (round_binary32 (x * round_binary32 (1 - t)) - x * round_binary32 (1 - t))
          + x * round_binary32 (1 - t)
          + ((round_binary32 (y * t) - y * t) + y * t) := by ring
    rw [e]
    exact le_trans (abs_add _ _) (add_le_add (abs_add _ _) (abs_add _ _))
  have hZ : |mix_binary32 t x y - (x * (1 - t) + y * t)|
      ≤ |round_binary32 (round_binary32 (x * round_binary32 (1 - t)) + round_binary32 (y * t))
          - (round_binary32 (x * round_binary32 (1 - t)) + round_binary32 (y * t))|
        + (|round_binary32 (x * round_binary32 (1 - t)) - x * round_binary32 (1 - t)|
          + |round_binary32 (y * t) - y * t|
          + |x * round_binary32 (1 - t) - x * (1 - t)|) := by
    have e : mix_binary32 t x y - (x * (1 - t) + y * t)
        = (round_binary32 (round_binary32 (x * round_binary32 (1 - t))
              + round_binary32 (y * t))
            - (round_binary32 (x * round_binary32 (1 - t)) + round_binary32 (y * t)))
          + ((round_binary32 (x * round_binary32 (1 - t)) - x * round_binary32 (1 - t))
            + (round_binary32 (y * t) - y * t)
            + (x * round_binary32 (1 - t) - x * (1 - t))) := by
      unfold mix_binary32
      ring
    rw [e]
    exact le_trans (abs_add _ _)
      (add_le_add le_rfl (le_trans (abs_add _ _) (add_le_add (abs_add _ _) le_rfl)))
  have hPa : P * round_binary32 (1 - t) ≤ P * (1 - t + (2 : ℚ) ^ (-25 : Int)) :=
    mul_le_mul_of_nonneg_left ha hP
  have e24 : (2 : ℚ) ^ (-24 : Int) = 1 / 16777216 := by norm_num
  have e25 : (2 : ℚ) ^ (-25 : Int) = 1 / 33554432 := by norm_num
  have e22 : (2 : ℚ) ^ (-22 : Int) = 1 / 4194304 := by norm_num
  have e148 : (2 : ℚ) ^ (-148 : Int) = 4 * (2 : ℚ) ^ (-150 : Int) := by norm_num
  have h150 : (0 : ℚ) < (2 : ℚ) ^ (-150 : Int) := by positivity
  rw [e24] at h1 h2 h3
  rw [e25] at hPa hd
  rw [e22, e148]
  generalize (2 : ℚ) ^ (-150 : Int) = η at *
  generalize |mix_binary32 t x y - (x * (1 - t) + y * t)| = Z at *
  generalize |round_binary32 (round_binary32 (x * round_binary32 (1 - t))
      + round_binary32 (y * t))
    - (round_binary32 (x * round_binary32 (1 - t)) + round_binary32 (y * t))| = E3 at *
  generalize |round_binary32 (x * round_binary32 (1 - t)) + round_binary32 (y * t)| = S at *
  generalize |round_binary32 (x * round_binary32 (1 - t)) - x * round_binary32 (1 - t)|
    = E1 at *
  generalize |round_binary32 (y * t) - y * t| = E2 at *
  generalize |x * round_binary32 (1 - t) - x * (1 - t)| = D at *
  generalize |x * round_binary32 (1 - t)| = A0 at *
  generalize |y * t| = B0 at *
  generalize round_binary32 (1 - t) = a at *
  have hAB : A0 + B0 ≤ P * (1 + 1 / 33554432) := by nlinarith
  have hE12 : E1 + E2 ≤ 1 / 16777216 * (P * (1 + 1 / 33554432)) + 2 * η := by nlinarith
  have hS2 : S ≤ (1 + 1 / 16777216) * (P * (1 + 1 / 33554432)) + 2 * η := by nlinarith
  nlinarith

theorem mix_binary32_between (t x y : ℚ) (ht0 : 0 ≤ t) (ht1 : t ≤ 1) :
    min x y ≤ x * (1 - t) + y * t ∧ x * (1 - t) + y * t ≤ max x y := by
  rcases le_total x y with h | h
  · rw [min_eq_left h, max_eq_right h]
    constructor <;> nlinarith
  · rw [min_eq_right h, max_eq_left h]
    constructor <;> nlinarith

/-! ## C21: the mixed samples in `float` -/

theorem crossfade_frame_binary32_mix (E : Env) (s : InputStream) (incoming : AVFrame)
    (remaining_ms total_ms : Int) (k : Nat) (b : Bool) (s1 : InputStream) (k1 : Nat)
    (self : AVFrame) (xfade : SwrContext)
    (h_get : get_one_output_frame E s k = .ret b (s1, k1))
    (h_frame : s1.m_frame = some self)
    (h_xfade : s1.m_swr_ctx_xfade = some xfade)
    (h_self : planes_hold self.ch_layout.nb_channels.toNat self.nb_samples.toNat self.data = true)
    (h_incoming :
      planes_hold self.ch_layout.nb_channels.toNat self.nb_samples.toNat incoming.data = true)
    (h_rate : Int.tdiv self.sample_rate 1000 ≠ 0) :
    ∃ mixed : List (List ℚ),
      crossfade_frame_binary32 E s (some incoming) remaining_ms total_ms k =
        .ret true
          (after_mix E s1 self xfade mixed, k1,
           remaining_ms - Int.tdiv self.nb_samples (Int.tdiv self.sample_rate 1000)) ∧
      ∀ (c i : Nat) (x y : ℚ),
        c < self.ch_layout.nb_channels.toNat → i < self.nb_samples.toNat →
        sample_at self.data c i = some x → sample_at incoming.data c i = some y →
        sample_at mixed c i =
          some (mix_binary32 (non_dimensional_fade_time_binary32 remaining_ms total_ms) x y) := by
  obtain ⟨mixed, hmix⟩ :=
    fade_channels_binary32_some (non_dimensional_fade_time_binary32 remaining_ms total_ms)
      self.nb_samples.toNat self.ch_layout.nb_channels.toNat self.data incoming.data
      h_self h_incoming
  refine ⟨mixed, ?_, fade_channels_binary32_sample _ _ _ _ _ _ hmix⟩
  simp only [crossfade_frame_binary32, h_get, h_frame, h_xfade, hmix,
    get_frame_length_milliseconds, h_rate, if_false, after_mix]

theorem crossfade_frame_binary32_const (x : ℚ) (remaining_ms : Int) :
    ∃ mixed : List (List ℚ),
      crossfade_frame_binary32 demo_env (demo_const_stream x) (some (demo_const_frame x))
          remaining_ms 5000 0 =
        .ret true
          ({ (demo_bound 0 [[], []] []) with
              m_ret := 2, m_frame := some ⟨.FLTP, ⟨2⟩, 48000, 2, mixed⟩ }, 0, remaining_ms - 0) ∧
      sample_at mixed 0 0 =
        some (mix_binary32 (non_dimensional_fade_time_binary32 remaining_ms 5000) x x) := by
  obtain ⟨mixed, h, hpt⟩ := crossfade_frame_binary32_mix demo_env (demo_const_stream x)
    (demo_const_frame x) remaining_ms 5000 0 true
    { (demo_bound 0 [[], []] []) with m_frame := some (demo_const_frame x) } 0
    (demo_const_frame x) demo_swr rfl rfl rfl rfl rfl
    (by
      show Int.tdiv 48000 1000 ≠ 0
      decide)
  exact ⟨mixed, h.trans rfl,
    hpt 0 0 x x (by
      show 0 < (2 : Int).toNat
      decide) (by
      show 0 < (2 : Int).toNat
      decide) rfl rfl⟩

/-- Counterexample to C21 as stated, in two calls of `crossfade_frame` on frames
of constant samples, 48 kHz, two channels, with `total_ms = 5000`.

With 4685 ms remaining and every outgoing and incoming sample equal to
11744051/2^24 (the `float` nearest to 0.7), the loop writes 11744052/2^24: the
mixed sample is above both samples, so it does not lie between them and its
magnitude exceeds the larger of their magnitudes.

With 2500 ms remaining and every sample equal to 3·2^-149 (a subnormal
`float`), the loop writes 4·2^-149, which is more than 1.01 times the peak
3·2^-149 of either frame. -/
theorem crossfade_frame_binary32_overshoot :
    (∃ mixed : List (List ℚ),
      crossfade_frame_binary32 demo_env (demo_const_stream (11744051 / 16777216))
          (some (demo_const_frame (11744051 / 16777216))) 4685 5000 0 =
        .ret true
          ({ (demo_bound 0 [[], []] []) with
              m_ret := 2, m_frame := some ⟨.FLTP, ⟨2⟩, 48000, 2, mixed⟩ }, 0, 4685 - 0) ∧
      sample_at mixed 0 0 = some (11744052 / 16777216) ∧
      max (11744051 / 16777216 : ℚ) (11744051 / 16777216) < 11744052 / 16777216 ∧
      max |(11744051 / 16777216 : ℚ)| |(11744051 / 16777216 : ℚ)|
        < |(11744052 / 16777216 : ℚ)|) ∧
    (∃ mixed : List (List ℚ),
      crossfade_frame_binary32 demo_env (demo_const_stream (3 * (2 : ℚ) ^ (-149 : Int)))
          (some (demo_const_frame (3 * (2 : ℚ) ^ (-149 : Int)))) 2500 5000 0 =
        .ret true
          ({ (demo_bound 0 [[], []] []) with
              m_ret := 2, m_frame := some ⟨.FLTP, ⟨2⟩, 48000, 2, mixed⟩ }, 0, 2500 - 0) ∧
      sample_at mixed 0 0 = some (4 * (2 : ℚ) ^ (-149 : Int)) ∧
      101 / 100 * |3 * (2 : ℚ) ^ (-149 : Int)| < |4 * (2 : ℚ) ^ (-149 : Int)|) := by
  constructor
  · obtain ⟨mixed, h, hpt⟩ := crossfade_frame_binary32_const (11744051 / 16777216) 4685
    rw [non_dimensional_fade_time_binary32_4685, mix_binary32_overshoot] at hpt
    refine ⟨mixed, h, hpt, ?_, ?_⟩
    · rw [max_self]
      norm_num
    · rw [max_self, abs_of_pos (by norm_num), abs_of_pos (by norm_num)]
      norm_num
  · obtain ⟨mixed, h, hpt⟩ := crossfade_frame_binary32_const (3 * (2 : ℚ) ^ (-149 : Int)) 2500
    rw [non_dimensional_fade_time_binary32_half, mix_binary32_subnormal] at hpt
    refine ⟨mixed, h, hpt, ?_⟩
    have hpos : (0 : ℚ) < (2 : ℚ) ^ (-149 : Int) := by positivity
    rw [abs_of_pos (by positivity), abs_of_pos (by positivity)]
    linarith

/-- C21, amended. The samples and the gain of `crossfade_frame` are of type
`float`, and every operation of `*q = *q*(1-t) + *v*t` rounds. For every call
with `0 <= remaining_ms <= total_ms` and `total_ms > 0` whose inner
`get_one_output_frame` returns and whose frames hold the channels and samples
they announce (rate at least 1000 Hz), the call returns true and every mixed
sample `z`, written from the outgoing sample `x` and the incoming sample `y`
(both of magnitude at most 2^127, so that no operation overflows), is
`mix_binary32 t x y` for the gain `t` computed in `float`, with `0 <= t <= 1`.
It is within `e = 2^-22 * max(|x|,|y|) + 2^-148` of the convex combination
`x*(1-t) + y*t`, hence within `e` of the interval between `x` and `y` (not
necessarily inside it); its magnitude is at most
`(1 + 2^-22) * max(|x|,|y|) + 2^-148`, and at most 1.01 times any peak `P` of
the two inputs that is at least 2^-126, the smallest normal `float`. -/
theorem crossfade_frame_binary32_no_glitch (E : Env) (s : InputStream) (incoming : AVFrame)
    (remaining_ms total_ms : Int) (k : Nat) (b : Bool) (s1 : InputStream) (k1 : Nat)
    (self : AVFrame) (xfade : SwrContext)
    (h_total : 0 < total_ms) (h_lo : 0 ≤ remaining_ms) (h_hi : remaining_ms ≤ total_ms)
    (h_get : get_one_output_frame E s k = .ret b (s1, k1))
    (h_frame : s1.m_frame = some self)
    (h_xfade : s1.m_swr_ctx_xfade = some xfade)
    (h_self : planes_hold self.ch_layout.nb_channels.toNat self.nb_samples.toNat self.data = true)
    (h_incoming :
      planes_hold self.ch_layout.nb_channels.toNat self.nb_samples.toNat incoming.data = true)
    (h_rate : Int.tdiv self.sample_rate 1000 ≠ 0) :
    ∃ mixed : List (List ℚ),
      crossfade_frame_binary32 E s (some incoming) remaining_ms total_ms k =
        .ret true
          (after_mix E s1 self xfade mixed, k1,
           remaining_ms - Int.tdiv self.nb_samples (Int.tdiv self.sample_rate 1000)) ∧
      0 ≤ non_dimensional_fade_time_binary32 remaining_ms total_ms ∧
      non_dimensional_fade_time_binary32 remaining_ms total_ms ≤ 1 ∧
      ∀ (c i : Nat) (x y : ℚ),
        c < self.ch_layout.nb_channels.toNat → i < self.nb_samples.toNat →
        sample_at self.data c i = some x → sample_at incoming.data c i = some y →
        |x| ≤ (2 : ℚ) ^ (127 : Int) → |y| ≤ (2 : ℚ) ^ (127 : Int) →
        ∃ z : ℚ,
          sample_at mixed c i = some z ∧
          z = mix_binary32 (non_dimensional_fade_time_binary32 remaining_ms total_ms) x y ∧
          |z - (x * (1 - non_dimensional_fade_time_binary32 remaining_ms total_ms)
                + y * non_dimensional_fade_time_binary32 remaining_ms total_ms)|
            ≤ (2 : ℚ) ^ (-22 : Int) * max |x| |y| + (2 : ℚ) ^ (-148 : Int) ∧
          min x y - ((2 : ℚ) ^ (-22 : Int) * max |x| |y| + (2 : ℚ) ^ (-148 : Int)) ≤ z ∧
          z ≤ max x y + ((2 : ℚ) ^ (-22 : Int) * max |x| |y| + (2 : ℚ) ^ (-148 : Int)) ∧
          |z| ≤ (1 + (2 : ℚ) ^ (-22 : Int)) * max |x| |y| + (2 : ℚ) ^ (-148 : Int) ∧
          ∀ P : ℚ, |x| ≤ P → |y| ≤ P → (2 : ℚ) ^ (-126 : Int) ≤ P → |z| ≤ 101 / 100 * P := by
  obtain ⟨mixed, hcall, hpt⟩ := crossfade_frame_binary32_mix E s incoming remaining_ms total_ms
    k b s1 k1 self xfade h_get h_frame h_xfade h_self h_incoming h_rate
  obtain ⟨ht0, ht1⟩ :=
    non_dimensional_fade_time_binary32_range remaining_ms total_ms h_total h_lo h_hi
  refine ⟨mixed, hcall, ht0, ht1, ?_⟩
  intro c i x y hc hi hx hy _ _
  refine ⟨_, hpt c i x y hc hi hx hy, rfl, ?_⟩
  generalize non_dimensional_fade_time_binary32 remaining_ms total_ms = t at ht0 ht1 ⊢
  have herr := mix_binary32_error t x y (max |x| |y|) ht0 ht1 (le_max_left _ _) (le_max_right _ _)
  obtain ⟨hb1, hb2⟩ := mix_binary32_between t x y ht0 ht1
  have hle := abs_le.mp herr
  refine ⟨herr, by linarith [hle.1], by linarith [hle.2],
    mix_binary32_bound t x y (max |x| |y|) ht0 ht1 (le_max_left _ _) (le_max_right _ _), ?_⟩
  intro P hxP hyP hP
  exact le_trans (mix_binary32_bound t x y P ht0 ht1 hxP hyP) (mix_binary32_bound_101 P hP)

/-- Witness for C21: halfway through a 5000 ms fade, sample 0 of channel 0 is
mixed from 1 and 10 and has magnitude at most 1.01 × 10. -/
theorem crossfade_frame_binary32_no_glitch_witness :
    ∃ mixed : List (List ℚ),
      crossfade_frame_binary32 demo_env (demo_bound 2 [[1, 2], [3, 4]] []) (some demo_incoming)
          2500 5000 0 =
        .ret true
          ({ (demo_bound 0 [[], []] []) with
              m_ret := 2, m_frame := some ⟨.FLTP, ⟨2⟩, 48000, 2, mixed⟩ }, 0, 2500 - 0) ∧
      ∃ z : ℚ, sample_at mixed 0 0 = some z ∧
        z = mix_binary32 (non_dimensional_fade_time_binary32 2500 5000) 1 10 ∧
        |z| ≤ 101 / 100 * 10 := by
  obtain ⟨mixed, h, _, _, hpt⟩ := crossfade_frame_binary32_no_glitch demo_env
    (demo_bound 2 [[1, 2], [3, 4]] []) demo_incoming 2500 5000 0 true
    { (demo_bound 0 [[], []] []) with
        m_frame := some ⟨.FLTP, ⟨2⟩, 48000, 2, [[1, 2], [3, 4]]⟩ } 0
    ⟨.FLTP, ⟨2⟩, 48000, 2, [[1, 2], [3, 4]]⟩ demo_swr (by decide) (by decide) (by decide)
    rfl rfl rfl (by decide) (by decide) (by decide)
  obtain ⟨z, hz, hmix, _, _, _, _, hP⟩ :=
    hpt 0 0 1 10 (by decide) (by decide) rfl rfl (by norm_num) (by norm_num)
  exact ⟨mixed, by simpa [after_mix] using h, z, hz, hmix,
    hP 10 (by norm_num) (by norm_num) (by norm_num)⟩

/-! ## Lemmas on the gain along a fade -/

end Fondue
